import Mathlib

/-!
# LACP per-port engine: port parameter blocks and the Receive machine

A shallow embedding of `src/lacp/port.go` and `src/lacp/protocol/rxmachine.go`.

* Machine integers (`uint8`, `uint16`) are natural numbers; an 8-bit result that
  could leave the byte range is reduced `% 256`.
* A Go pointer to a machine (`p.MuxMachineFsm` ...) is an `Option`; dereferencing
  `nil` is the result `none` of the enclosing function.
* A send on another machine's event channel appends the event to that machine's
  `events` list, oldest first.
-/

namespace Lacp

/-! ## port.go: parameter blocks -/

/-- The six octets of a system id, `[6]uint8`; field `bK` is index `K`. -/
structure SystemId where
  b0 : Nat
  b1 : Nat
  b2 : Nat
  b3 : Nat
  b4 : Nat
  b5 : Nat
deriving DecidableEq, Repr

/-- The struct `LacpPortSystemInfo` of port.go. -/
structure LacpPortSystemInfo where
  systemPriority : Nat
  systemId : SystemId
deriving DecidableEq, Repr

/-- The struct `LacpPortInfo` of port.go. -/
structure LacpPortInfo where
  system : LacpPortSystemInfo
  key : Nat
  port_pri : Nat
  port : Nat
  state : Nat
deriving DecidableEq, Repr

/-! ## State bits and the bit helpers

The constants and the three helpers below are used by both source files but
declared in a file of the package other than these two. -/

/-- Modelled from the spec: state bit 0, LACP_Activity (constant declared outside the two files). -/
def LacpStateActivityBit : Nat := 1
/-- Modelled from the spec: state bit 1, LACP_Timeout (constant declared outside the two files). -/
def LacpStateTimeoutBit : Nat := 2
/-- Modelled from the spec: state bit 2, Aggregation (constant declared outside the two files). -/
def LacpStateAggregationBit : Nat := 4
/-- Modelled from the spec: state bit 3, Synchronization (constant declared outside the two files). -/
def LacpStateSyncBit : Nat := 8
/-- Modelled from the spec: state bit 4, Collecting (constant declared outside the two files). -/
def LacpStateCollectingBit : Nat := 16
/-- Modelled from the spec: state bit 5, Distributing (constant declared outside the two files). -/
def LacpStateDistributingBit : Nat := 32
/-- Modelled from the spec: state bit 6, Defaulted (constant declared outside the two files). -/
def LacpStateDefaultedBit : Nat := 64
/-- Modelled from the spec: state bit 7, Expired (constant declared outside the two files). -/
def LacpStateExpiredBit : Nat := 128

/-- Modelled from the spec: the helper `LacpStateSet(&state, bits)` is declared outside
the two files; "set" a group of bits of the 8-bit state is `state |= bits`. -/
def LacpStateSet (state bits : Nat) : Nat := (state ||| bits) % 256

/-- Modelled from the spec: the helper `LacpStateClear(&state, bits)` is declared outside
the two files; "clear" a group of bits of the 8-bit state is `state &^= bits`. -/
def LacpStateClear (state bits : Nat) : Nat := (state &&& (255 ^^^ (bits % 256))) % 256

/-- Modelled from the spec: the helper `LacpStateIsSet(state, bits)` is declared outside
the two files; section 9 of the spec reads the test as "the masked bits are non-zero".
Every call in rxmachine.go passes a single bit, for which this is "the bit is 1". -/
def LacpStateIsSet (state bits : Nat) : Bool := (state &&& bits) != 0

/-! ## port.go: the two structural helpers -/

/-- The function `LacpCopyLacpPortInfo(from, to)` of port.go: the result is the new
value of `*toPortInfoPtr`; `*fromPortInfoPtr` is only read. -/
def LacpCopyLacpPortInfo (fromPortInfo toPortInfo : LacpPortInfo) : LacpPortInfo :=
  let t1 := { toPortInfo with key := fromPortInfo.key }
  let t2 := { t1 with port := fromPortInfo.port }
  let t3 := { t2 with port_pri := fromPortInfo.port_pri }
  let t4 := { t3 with state := fromPortInfo.state }
  let t5 := { t4 with system := { t4.system with systemId := fromPortInfo.system.systemId } }
  { t5 with system := { t5.system with systemPriority := fromPortInfo.system.systemPriority } }

/-- The function `LacpLacpPortInfoIsEqual(a, b, stateBits)` of port.go, conjunct by
conjunct: index 0 of `a` is compared with each of the six octets of `b`, and the last
conjunct tests `stateBits` on each state separately. -/
def LacpLacpPortInfoIsEqual (a b : LacpPortInfo) (stateBits : Nat) : Bool :=
  a.system.systemId.b0 == b.system.systemId.b0 &&
  a.system.systemId.b0 == b.system.systemId.b1 &&
  a.system.systemId.b0 == b.system.systemId.b2 &&
  a.system.systemId.b0 == b.system.systemId.b3 &&
  a.system.systemId.b0 == b.system.systemId.b4 &&
  a.system.systemId.b0 == b.system.systemId.b5 &&
  a.system.systemPriority == b.system.systemPriority &&
  a.port == b.port &&
  a.port_pri == b.port_pri &&
  a.key == b.key &&
  (LacpStateIsSet a.state stateBits && LacpStateIsSet b.state stateBits)

/-- The comparison in the words of the spec (section 4.1): system priority, the six
system-id octets index-wise, key, port priority and port number are equal, and the
states agree under the mask. -/
def portInfoEqualUnderMask (a b : LacpPortInfo) (m : Nat) : Bool :=
  a.system.systemPriority == b.system.systemPriority &&
  a.system.systemId.b0 == b.system.systemId.b0 &&
  a.system.systemId.b1 == b.system.systemId.b1 &&
  a.system.systemId.b2 == b.system.systemId.b2 &&
  a.system.systemId.b3 == b.system.systemId.b3 &&
  a.system.systemId.b4 == b.system.systemId.b4 &&
  a.system.systemId.b5 == b.system.systemId.b5 &&
  a.key == b.key &&
  a.port_pri == b.port_pri &&
  a.port == b.port &&
  (a.state &&& m) == (b.state &&& m)

/-- A port info with system 00:11:22:33:44:55, priority 0x8000, key 1, port 1 of
priority 0x80 and state Activity, Aggregation, Sync, Collecting, Distributing. -/
def sampleInfo : LacpPortInfo :=
  { system := { systemPriority := 0x8000,
                systemId := { b0 := 0x00, b1 := 0x11, b2 := 0x22, b3 := 0x33, b4 := 0x44, b5 := 0x55 } },
    key := 1, port_pri := 0x80, port := 1, state := 0x3D }

/-- The all-zero port info. -/
def zeroInfo : LacpPortInfo :=
  { system := { systemPriority := 0,
                systemId := { b0 := 0, b1 := 0, b2 := 0, b3 := 0, b4 := 0, b5 := 0 } },
    key := 0, port_pri := 0, port := 0, state := 0 }

/-! ## rxmachine.go: types

The LACPDU type comes from the packet library; the machines other than the Receive
machine are declared outside port.go and rxmachine.go. The Receive machine only reads
their current state and posts events to them. -/

/-- Modelled from the spec: the packet library's port-info block of an LACPDU
(section 6 frame format): system priority, system id, key, port priority, port
number, state. -/
structure LACPPortInfo where
  SystemPriority : Nat
  SystemId : SystemId
  Key : Nat
  PortPri : Nat
  Port : Nat
  State : Nat
deriving DecidableEq, Repr

/-- Modelled from the spec: the packet library's LACPDU, reduced to the fields the
Receive machine reads: `Version`, `Actor.Info` and `Partner.Info`. -/
structure LACP where
  Version : Nat
  Actor : LACPPortInfo
  Partner : LACPPortInfo
deriving DecidableEq, Repr

/-- The rxm states of rxmachine.go (`iota + 1`, in this order). -/
inductive RxmState where
  | LacpRxmStateNone
  | LacpRxmStateInitialize
  | LacpRxmStatePortDisabled
  | LacpRxmStateExpired
  | LacpRxmStateLacpDisabled
  | LacpRxmStateDefaulted
  | LacpRxmStateCurrent
deriving DecidableEq, Repr

/-- The rxm events of rxmachine.go (`iota + 1`, in this order). -/
inductive RxmEvent where
  | LacpRxmEventBegin
  | LacpRxmEventUnconditionalFallthrough
  | LacpRxmEventNotPortEnabledAndNotPortMoved
  | LacpRxmEventPortMoved
  | LacpRxmEventPortEnabledAndLacpEnabled
  | LacpRxmEventPortEnabledAndLacpDisabled
  | LacpRxmEventCurrentWhileTimerExpired
  | LacpRxmEventLacpEnabled
  | LacpRxmEventLacpPktRx
  | LacpRxmEventKillSignal
deriving DecidableEq, Repr

/-- Modelled from the spec: the Mux machine states (section 4.5), coupled and
independent rulesets, and the pseudo state before BEGIN; the constants are declared
outside the two files. -/
inductive MuxmState where
  | LacpMuxmStateNone
  | LacpMuxmStateDetached
  | LacpMuxmStateWaiting
  | LacpMuxmStateAttached
  | LacpMuxmStateCollecting
  | LacpMuxmStateDistributing
  | LacpMuxmStateCDetached
  | LacpMuxmStateCWaiting
  | LacpMuxmStateCAttached
  | LacpMuxStateCCollectingDistributing
deriving DecidableEq, Repr

/-- Modelled from the spec: the Mux machine events (section 4.5); the constants are
declared outside the two files. -/
inductive MuxmEvent where
  | LacpMuxmEventBegin
  | LacpMuxmEventSelectedEqualSelected
  | LacpMuxmEventSelectedEqualUnselected
  | LacpMuxmEventSelectedEqualSelectedAndPartnerSync
  | LacpMuxmEventSelectedEqualSelectedPartnerSyncCollecting
  | LacpMuxmEventNotPartnerSync
  | LacpMuxmEventNotPartnerCollecting
  | LacpMuxmEventReadyN
deriving DecidableEq, Repr

/-- Modelled from the spec: the Periodic Transmit machine events (section 4.3); the
constants are declared outside the two files. -/
inductive PtxmEvent where
  | LacpPtxmEventBegin
  | LacpPtxmEventNotPortEnabled
  | LacpPtxmEventLacpDisabled
  | LacpPtxmEventActorPartnerOperActivityPassiveMode
  | LacpPtxmEventPartnerOperStateTimeoutShort
  | LacpPtxmEventPartnerOperStateTimeoutLong
  | LacpPtxmEventUnconditionalFallthrough
  | LacpPtxmEventPeriodicTimerExpired
deriving DecidableEq, Repr

/-- Modelled from the spec: the Transmit machine events (section 4.4); the constants
are declared outside the two files. -/
inductive TxmEvent where
  | LacpTxmEventBegin
  | LacpTxmEventLacpEnabled
  | LacpTxmEventLacpDisabled
  | LacpTxmEventNtt
deriving DecidableEq, Repr

/-- Modelled from the spec: the values of `agg_selected` (section 3); the constants
are declared outside the two files. -/
inductive AggSelected where
  | LacpAggSelected
  | LacpAggStandby
  | LacpAggUnSelected
deriving DecidableEq, Repr

open RxmState RxmEvent MuxmState MuxmEvent PtxmEvent TxmEvent AggSelected

/-- Modelled from the spec: the Mux machine as the Receive machine sees it: its
current state (`Machine.Curr.CurrentState()`) and its event channel `MuxmEvents`. -/
structure LacpMuxMachine where
  state : MuxmState
  MuxmEvents : List MuxmEvent
deriving DecidableEq, Repr

/-- Modelled from the spec: the Periodic Transmit machine as the Receive machine sees
it: the interval `PeriodicTxTimerInterval` in seconds and the channel `PtxmEvents`. -/
structure LacpPtxMachine where
  PeriodicTxTimerInterval : Nat
  PtxmEvents : List PtxmEvent
deriving DecidableEq, Repr

/-- Modelled from the spec: the Transmit machine as the Receive machine sees it: the
channel `TxmEvents`. -/
structure LacpTxMachine where
  TxmEvents : List TxmEvent
deriving DecidableEq, Repr

/-- The struct `LacpRxMachine` of rxmachine.go: the current state of its `Machine`,
the timer interval in seconds (0 while unset) and whether the one-shot
`currentWhileTimer` is armed. -/
structure LacpRxMachine where
  state : RxmState
  currentWhileTimerTimeout : Nat
  currentWhileTimerRunning : Bool
deriving DecidableEq, Repr

/-- The struct `LaAggPort` of port.go, with the fields the two source files use.
`LacpInPkts` is `counters.LacpInPkts`; rxmachine.go spells `portEnabled` as
`PortEnabled`. The Receive machine is the receiver of every function below and is
therefore always present. -/
structure LaAggPort where
  portId : Nat
  portNum : Nat
  portPriority : Nat
  key : Nat
  aggSelected : AggSelected
  lacpEnabled : Bool
  portEnabled : Bool
  portMoved : Bool
  begin : Bool
  actorAdmin : LacpPortInfo
  actorOper : LacpPortInfo
  partnerAdmin : LacpPortInfo
  partnerOper : LacpPortInfo
  partnerVersion : Nat
  LacpInPkts : Nat
  RxMachineFsm : LacpRxMachine
  PtxMachineFsm : Option LacpPtxMachine
  TxMachineFsm : Option LacpTxMachine
  MuxMachineFsm : Option LacpMuxMachine
deriving DecidableEq, Repr

/-- What the two files take from declarations that are neither in them nor
fixed by the spec; every function that uses one of them takes the environment as
its first argument. -/
structure Env where
  /-- The bit pattern `LacpStateAggregatibleUp`. -/
  LacpStateAggregatibleUp : Nat
  /-- The bit pattern `LacpStateAggregatibleDown`. -/
  LacpStateAggregatibleDown : Nat
  /-- The constant `LacpActorSystemLacpVersion`. -/
  LacpActorSystemLacpVersion : Nat
  /-- The aggregator-selection collaborator: the value it gives `agg_selected`. -/
  reevaluate : LaAggPort → AggSelected
  /-- The global `gLacpSysGlobalInfo.ActorStateDefaultParams.state`. -/
  ActorStateDefaultParamsState : Nat
  /-- The global `gLacpSysGlobalInfo.PartnerStateDefaultParams.state`. -/
  PartnerStateDefaultParamsState : Nat

/-- Modelled from the spec: `LacpShortTimeoutTime`, 3 s (constant declared outside the two files). -/
def LacpShortTimeoutTime : Nat := 3
/-- Modelled from the spec: `LacpLongTimeoutTime`, 90 s (constant declared outside the two files). -/
def LacpLongTimeoutTime : Nat := 90
/-- Modelled from the spec: `LacpFastPeriodicTime`, 1 s (constant declared outside the two files). -/
def LacpFastPeriodicTime : Nat := 1
/-- Modelled from the spec: `LacpSlowPeriodicTime`, 30 s (constant declared outside the two files). -/
def LacpSlowPeriodicTime : Nat := 30

/-! ## Helpers declared outside port.go and rxmachine.go -/

/-- Modelled from the spec: `LacpCopyLacpPortInfoFromPkt(from, to)` is declared outside
the two files; "copy PDU Actor.Info bitwise into Partner Oper". -/
def LacpCopyLacpPortInfoFromPkt (fromPkt : LACPPortInfo) (_toPortInfo : LacpPortInfo) : LacpPortInfo :=
  { system := { systemPriority := fromPkt.SystemPriority, systemId := fromPkt.SystemId },
    key := fromPkt.Key, port_pri := fromPkt.PortPri, port := fromPkt.Port, state := fromPkt.State }

/-- Modelled from the spec: `LacpLacpPktPortInfoIsEqual(pkt, info, stateBits)` is
declared outside the two files; it is the comparison of section 4.1 between a block of
the PDU and a block of the port: system priority, system id, key, port priority and
port number are equal and the states agree under the mask. -/
def LacpLacpPktPortInfoIsEqual (a : LACPPortInfo) (b : LacpPortInfo) (stateBits : Nat) : Bool :=
  a.SystemPriority == b.system.systemPriority &&
  a.SystemId == b.system.systemId &&
  a.Key == b.key &&
  a.PortPri == b.port_pri &&
  a.Port == b.port &&
  (a.State &&& stateBits) == (b.state &&& stateBits)

/-- A send on `p.MuxMachineFsm.MuxmEvents`; `none` when the pointer is nil. -/
def sendMuxm (p : LaAggPort) (e : MuxmEvent) : Option LaAggPort :=
  match p.MuxMachineFsm with
  | none => none
  | some mux => some { p with MuxMachineFsm := some { mux with MuxmEvents := mux.MuxmEvents ++ [e] } }

/-- A send on `p.PtxMachineFsm.PtxmEvents`; `none` when the pointer is nil. -/
def sendPtxm (p : LaAggPort) (e : PtxmEvent) : Option LaAggPort :=
  match p.PtxMachineFsm with
  | none => none
  | some ptx => some { p with PtxMachineFsm := some { ptx with PtxmEvents := ptx.PtxmEvents ++ [e] } }

/-- A send on `p.TxMachineFsm.TxmEvents`; `none` when the pointer is nil. -/
def sendTxm (p : LaAggPort) (e : TxmEvent) : Option LaAggPort :=
  match p.TxMachineFsm with
  | none => none
  | some txm => some { p with TxMachineFsm := some { txm with TxmEvents := txm.TxmEvents ++ [e] } }

/-- The guarded send `if p.MuxMachineFsm != nil { p.MuxMachineFsm.MuxmEvents <- e }`. -/
def sendMuxmIfPresent (p : LaAggPort) (e : MuxmEvent) : LaAggPort :=
  match sendMuxm p e with
  | some q => q
  | none => p

/-- Modelled from the spec: `CurrentWhileTimerTimeoutSet` is declared outside the two
files; it stores the interval of the CurrentWhileTimer. -/
def CurrentWhileTimerTimeoutSet (p : LaAggPort) (timeout : Nat) : LaAggPort :=
  { p with RxMachineFsm := { p.RxMachineFsm with currentWhileTimerTimeout := timeout } }

/-- Modelled from the spec: `CurrentWhileTimerStart` is declared outside the two files;
the timer is a cancellable one-shot and a restart replaces any pending firing. -/
def CurrentWhileTimerStart (p : LaAggPort) : LaAggPort :=
  { p with RxMachineFsm := { p.RxMachineFsm with currentWhileTimerRunning := true } }

/-- Modelled from the spec: `CurrentWhileTimerStop` is declared outside the two files;
it cancels the pending firing. -/
def CurrentWhileTimerStop (p : LaAggPort) : LaAggPort :=
  { p with RxMachineFsm := { p.RxMachineFsm with currentWhileTimerRunning := false } }

/-- Modelled from the spec: `updateSelected` is declared outside the two files; if
PDU.Actor differs from Partner Oper in system, system priority, key, port, port
priority or the Aggregation bit, set `agg_selected = Unselected` and post
`SelectedEqualUnselected` to the MUXM. -/
def updateSelected (p : LaAggPort) (lacpPduInfo : LACP) : LaAggPort :=
  if !LacpLacpPktPortInfoIsEqual lacpPduInfo.Actor p.partnerOper LacpStateAggregationBit then
    sendMuxmIfPresent { p with aggSelected := LacpAggUnSelected } LacpMuxmEventSelectedEqualUnselected
  else p

/-- Modelled from the spec: `updateDefaultSelected` is declared outside the two files;
the same comparison, between Partner Admin and Partner Oper, with the same effect
when they differ. -/
def updateDefaultSelected (p : LaAggPort) : LaAggPort :=
  if !portInfoEqualUnderMask p.partnerAdmin p.partnerOper LacpStateAggregationBit then
    sendMuxmIfPresent { p with aggSelected := LacpAggUnSelected } LacpMuxmEventSelectedEqualUnselected
  else p

/-- Modelled from the spec: `checkConfigForSelection` is declared outside the two files;
it asks the aggregator-selection collaborator to re-evaluate `agg_selected`. -/
def checkConfigForSelection (env : Env) (p : LaAggPort) : LaAggPort :=
  { p with aggSelected := env.reevaluate p }

/-! ## rxmachine.go: the helpers of section 6.4.9 -/

/-- The method `recordPDU` of rxmachine.go. -/
def recordPDU (p : LaAggPort) (lacpPduInfo : LACP) : LaAggPort :=
  let collDist (s : MuxmState) : Bool :=
    s == LacpMuxmStateCollecting || s == LacpMuxmStateDistributing ||
    s == LacpMuxStateCCollectingDistributing
  let p1 := { p with partnerOper := LacpCopyLacpPortInfoFromPkt lacpPduInfo.Actor p.partnerOper }
  let p2 := { p1 with actorOper :=
    { p1.actorOper with state := LacpStateClear p1.actorOper.state LacpStateDefaultedBit } }
  if ((LacpLacpPktPortInfoIsEqual lacpPduInfo.Partner p2.actorOper LacpStateAggregationBit &&
        LacpStateIsSet lacpPduInfo.Actor.State LacpStateSyncBit) ||
      (!LacpStateIsSet lacpPduInfo.Actor.State LacpStateAggregationBit &&
        LacpStateIsSet lacpPduInfo.Actor.State LacpStateSyncBit)) &&
     (LacpStateIsSet lacpPduInfo.Actor.State LacpStateActivityBit ||
       (LacpStateIsSet p2.actorOper.state LacpStateActivityBit &&
         LacpStateIsSet lacpPduInfo.Partner.State LacpStateActivityBit)) then
    { p2 with partnerOper :=
      { p2.partnerOper with state := LacpStateSet p2.partnerOper.state LacpStateSyncBit } }
  else if LacpStateIsSet p2.partnerOper.state LacpStateSyncBit then
    let p3 := { p2 with partnerOper :=
      { p2.partnerOper with state := LacpStateClear p2.partnerOper.state LacpStateSyncBit } }
    match p3.MuxMachineFsm with
    | some mux =>
      if collDist mux.state then sendMuxmIfPresent p3 LacpMuxmEventNotPartnerSync else p3
    | none => p3
  else p2

/-- The method `recordDefault` of rxmachine.go; `none` when `p.MuxMachineFsm` is nil,
which the method dereferences without a test. -/
def recordDefault (p : LaAggPort) : Option LaAggPort :=
  let p1 := { p with partnerOper := LacpCopyLacpPortInfo p.partnerAdmin p.partnerOper }
  let p2 := { p1 with actorOper :=
    { p1.actorOper with state := LacpStateSet p1.actorOper.state LacpStateDefaultedBit } }
  let p3 := { p2 with partnerOper :=
    { p2.partnerOper with state := LacpStateSet p2.partnerOper.state LacpStateSyncBit } }
  match p3.MuxMachineFsm with
  | none => none
  | some mux =>
    if (mux.state == LacpMuxmStateAttached || mux.state == LacpMuxmStateCAttached) &&
        p3.aggSelected == LacpAggSelected then
      sendMuxm p3 LacpMuxmEventSelectedEqualSelectedAndPartnerSync
    else some p3

/-- The method `updateNTT` of rxmachine.go. -/
def updateNTT (p : LaAggPort) (lacpPduInfo : LACP) : Bool :=
  let nttStateCompare : Nat :=
    LacpStateActivityBit ||| LacpStateAggregationBit ||| LacpStateSyncBit
  if !LacpLacpPktPortInfoIsEqual lacpPduInfo.Partner p.actorOper nttStateCompare then
    true
  else if (LacpStateIsSet lacpPduInfo.Partner.State LacpStateTimeoutBit &&
            !LacpStateIsSet p.actorOper.state LacpStateTimeoutBit) ||
          (!LacpStateIsSet lacpPduInfo.Partner.State LacpStateTimeoutBit &&
            LacpStateIsSet p.actorOper.state LacpStateTimeoutBit) then
    true
  else false

/-- The method `recordVersionNumber` of rxmachine.go. -/
def recordVersionNumber (p : LaAggPort) (lacpPduInfo : LACP) : LaAggPort :=
  { p with partnerVersion := lacpPduInfo.Version % 256 }

/-- The method `CurrentWhileTimerValid` of rxmachine.go. -/
def CurrentWhileTimerValid (p : LaAggPort) : Nat × Bool :=
  if p.RxMachineFsm.currentWhileTimerTimeout == LacpShortTimeoutTime &&
      !LacpStateIsSet p.actorOper.state LacpStateTimeoutBit then
    (LacpLongTimeoutTime, false)
  else if p.RxMachineFsm.currentWhileTimerTimeout == LacpLongTimeoutTime &&
      LacpStateIsSet p.actorOper.state LacpStateTimeoutBit then
    (LacpShortTimeoutTime, false)
  else (0, true)

/-- The method `CheckPortMoved` of rxmachine.go. -/
def CheckPortMoved (p : LaAggPort) (partnerOper : LacpPortInfo) (pktActor : LACPPortInfo) : Bool :=
  p.RxMachineFsm.state == LacpRxmStatePortDisabled &&
  partnerOper.port == pktActor.Port &&
  partnerOper.system.systemId == pktActor.SystemId &&
  partnerOper.system.systemPriority == pktActor.SystemPriority

/-! ## rxmachine.go: entry actions

Each callback returns the new port together with the state it returns to the
machine; `none` is a nil dereference (or a failed type assertion) inside it. -/

/-- The method `LacpRxMachineInitialize` of rxmachine.go. -/
def LacpRxMachineInitialize (p : LaAggPort) : Option (LaAggPort × RxmState) := do
  let p1 := { p with partnerOper :=
    { p.partnerOper with state := LacpStateSet p.partnerOper.state p.partnerAdmin.state } }
  let p2 := sendMuxmIfPresent p1 LacpMuxmEventSelectedEqualUnselected
  let p3 ← recordDefault p2
  let p4 := { p3 with actorOper :=
    { p3.actorOper with state := LacpStateClear p3.actorOper.state LacpStateExpiredBit } }
  let p5 := { p4 with portMoved := false }
  pure (p5, LacpRxmStateInitialize)

/-- The method `LacpRxMachinePortDisabled` of rxmachine.go. -/
def LacpRxMachinePortDisabled (p : LaAggPort) : Option (LaAggPort × RxmState) := do
  let p1 := { p with partnerOper :=
    { p.partnerOper with state := LacpStateClear p.partnerOper.state LacpStateSyncBit } }
  pure (p1, LacpRxmStatePortDisabled)

/-- The method `LacpRxMachineExpired` of rxmachine.go. -/
def LacpRxMachineExpired (p : LaAggPort) : Option (LaAggPort × RxmState) := do
  let p1 := { p with partnerOper :=
    { p.partnerOper with state := LacpStateClear p.partnerOper.state LacpStateSyncBit } }
  let p2 := { p1 with partnerOper :=
    { p1.partnerOper with state := LacpStateSet p1.partnerOper.state LacpStateTimeoutBit } }
  let p3 := CurrentWhileTimerTimeoutSet p2 LacpShortTimeoutTime
  let p4 := CurrentWhileTimerStart p3
  let p5 := { p4 with actorOper :=
    { p4.actorOper with state := LacpStateSet p4.actorOper.state LacpStateExpiredBit } }
  pure (p5, LacpRxmStateExpired)

/-- The method `LacpRxMachineLacpDisabled` of rxmachine.go. -/
def LacpRxMachineLacpDisabled (p : LaAggPort) : Option (LaAggPort × RxmState) := do
  let p1 := CurrentWhileTimerStop p
  let p2 := sendMuxmIfPresent p1 LacpMuxmEventSelectedEqualUnselected
  let p3 ← recordDefault p2
  let p4 := { p3 with partnerOper :=
    { p3.partnerOper with state := LacpStateClear p3.partnerOper.state LacpStateAggregationBit } }
  let p5 := { p4 with actorOper :=
    { p4.actorOper with state := LacpStateClear p4.actorOper.state LacpStateExpiredBit } }
  pure (p5, LacpRxmStateLacpDisabled)

/-- The method `LacpRxMachineDefaulted` of rxmachine.go. -/
def LacpRxMachineDefaulted (env : Env) (p : LaAggPort) : Option (LaAggPort × RxmState) := do
  let p1 := updateDefaultSelected p
  let p2 ← recordDefault p1
  let p3 := { p2 with actorOper :=
    { p2.actorOper with state := LacpStateClear p2.actorOper.state LacpStateExpiredBit } }
  let p4 := { p3 with partnerAdmin :=
    { p3.partnerAdmin with state := LacpStateSet p3.partnerAdmin.state env.LacpStateAggregatibleUp } }
  pure (p4, LacpRxmStateDefaulted)

/-- The first block inside `if p.MuxMachineFsm != nil` of `InformMachinesOfStateChanges`:
the selection check in Detached / CDetached and the if / else-if chain that posts to
the MUXM; `mux` is `p.MuxMachineFsm`. -/
def informMuxm (env : Env) (p : LaAggPort) (mux : LacpMuxMachine) : LaAggPort :=
  let p1 :=
    if mux.state == LacpMuxmStateDetached || mux.state == LacpMuxmStateCDetached then
      checkConfigForSelection env p
    else p
  if LacpStateIsSet p1.partnerOper.state LacpStateSyncBit then
    if p1.aggSelected == LacpAggSelected then
      if mux.state == LacpMuxmStateAttached || mux.state == LacpMuxmStateCAttached then
        sendMuxmIfPresent p1 LacpMuxmEventSelectedEqualSelectedAndPartnerSync
      else if mux.state == LacpMuxmStateCollecting then
        sendMuxmIfPresent p1 LacpMuxmEventSelectedEqualSelectedPartnerSyncCollecting
      else p1
    else p1
  else if !LacpStateIsSet p1.partnerOper.state LacpStateSyncBit &&
      (mux.state == LacpMuxmStateDistributing || mux.state == LacpMuxmStateCollecting) then
    sendMuxmIfPresent p1 LacpMuxmEventNotPartnerSync
  else if !LacpStateIsSet p1.partnerOper.state LacpStateCollectingBit &&
      mux.state == LacpMuxmStateDistributing then
    sendMuxmIfPresent p1 LacpMuxmEventNotPartnerCollecting
  else p1

/-- The second block inside `if p.MuxMachineFsm != nil` of `InformMachinesOfStateChanges`:
the timeout events for the PTXM; the interval of `p.PtxMachineFsm` is read without a
nil test. -/
def informPtxmTimeout (p : LaAggPort) : Option LaAggPort := do
  let ptx ← p.PtxMachineFsm
  if LacpStateIsSet p.partnerOper.state LacpStateTimeoutBit &&
      ptx.PeriodicTxTimerInterval == LacpSlowPeriodicTime then
    sendPtxm p LacpPtxmEventPartnerOperStateTimeoutShort
  else if !LacpStateIsSet p.partnerOper.state LacpStateTimeoutBit &&
      ptx.PeriodicTxTimerInterval == LacpFastPeriodicTime then
    sendPtxm p LacpPtxmEventPartnerOperStateTimeoutLong
  else pure p

/-- The last block of `InformMachinesOfStateChanges`: both sides passive. -/
def informPtxmPassive (p : LaAggPort) : Option LaAggPort :=
  if !LacpStateIsSet p.actorOper.state LacpStateActivityBit &&
      !LacpStateIsSet p.partnerOper.state LacpStateActivityBit &&
      p.PtxMachineFsm.isSome then
    sendPtxm p LacpPtxmEventActorPartnerOperActivityPassiveMode
  else pure p

/-- The method `InformMachinesOfStateChanges` of rxmachine.go, block by block; `none`
when the Mux machine is present and the Periodic Transmit machine is nil. -/
def InformMachinesOfStateChanges (env : Env) (p : LaAggPort) : Option LaAggPort := do
  let p1 ←
    match p.MuxMachineFsm with
    | none => pure p
    | some mux => informPtxmTimeout (informMuxm env p mux)
  informPtxmPassive p1

/-- The statement `if ntt == true && p.TxMachineFsm != nil { ... <- Ntt }` of
`LacpRxMachineCurrent`. -/
def sendNttIfNeeded (p : LaAggPort) (ntt : Bool) : LaAggPort :=
  if ntt == true && p.TxMachineFsm.isSome then
    match sendTxm p LacpTxmEventNtt with
    | some q => q
    | none => p
  else p

/-- The statement `if timeoutTime, ok := rxm.CurrentWhileTimerValid(); !ok { ... }` of
`LacpRxMachineCurrent`. -/
def currentWhileTimerRevalidate (p : LaAggPort) : LaAggPort :=
  match CurrentWhileTimerValid p with
  | (timeoutTime, ok) => if !ok then CurrentWhileTimerTimeoutSet p timeoutTime else p

/-- The method `LacpRxMachineCurrent` of rxmachine.go; `data` is the `interface{}`
argument, and the type assertion `data.(*layers.LACP)` fails on `nil`. -/
def LacpRxMachineCurrent (env : Env) (p : LaAggPort) (data : Option LACP) :
    Option (LaAggPort × RxmState) := do
  let lacpPduInfo ← data
  let p1 := updateSelected p lacpPduInfo
  let ntt := updateNTT p1 lacpPduInfo
  let p2 := if env.LacpActorSystemLacpVersion ≥ 2 then recordVersionNumber p1 lacpPduInfo else p1
  let p3 := recordPDU p2 lacpPduInfo
  let p4 := currentWhileTimerRevalidate p3
  let p5 := CurrentWhileTimerStart p4
  let p6 := { p5 with actorOper :=
    { p5.actorOper with state := LacpStateClear p5.actorOper.state LacpStateExpiredBit } }
  let p7 := sendNttIfNeeded p6 ntt
  let p8 ← InformMachinesOfStateChanges env p7
  let p9 := { p8 with partnerAdmin :=
    { p8.partnerAdmin with state := LacpStateSet p8.partnerAdmin.state env.LacpStateAggregatibleDown } }
  pure (p9, LacpRxmStateCurrent)

/-! ## rxmachine.go: the rule table and the event loop -/

/-- The callbacks a rule can name. -/
inductive RxmCallback where
  | Initialize
  | PortDisabled
  | Expired
  | LacpDisabled
  | Defaulted
  | Current
deriving DecidableEq, Repr

/-- Runs the method a rule names, as `t(*m, data)` does. -/
def RxmCallback.run (env : Env) (cb : RxmCallback) (p : LaAggPort) (data : Option LACP) :
    Option (LaAggPort × RxmState) :=
  match cb with
  | .Initialize => LacpRxMachineInitialize p
  | .PortDisabled => LacpRxMachinePortDisabled p
  | .Expired => LacpRxMachineExpired p
  | .LacpDisabled => LacpRxMachineLacpDisabled p
  | .Defaulted => LacpRxMachineDefaulted env p
  | .Current => LacpRxMachineCurrent env p data

/-- Modelled from the spec: the rule set of the state-machine library, a map from
(state, event) to a callback; the most recent rule for a pair is first. -/
abbrev Ruleset := List ((RxmState × RxmEvent) × RxmCallback)

/-- Modelled from the spec: `Ruleset.AddRule(state, event, callback)` of the
state-machine library, a map assignment. -/
def Ruleset.AddRule (rules : Ruleset) (s : RxmState) (e : RxmEvent) (cb : RxmCallback) : Ruleset :=
  ((s, e), cb) :: rules

/-- Modelled from the spec: the map lookup `rules[(state, event)]` of the
state-machine library. -/
def Ruleset.find (rules : Ruleset) (s : RxmState) (e : RxmEvent) : Option RxmCallback :=
  match rules with
  | [] => none
  | ((s1, e1), cb) :: rest => if s1 == s && e1 == e then some cb else Ruleset.find rest s e

/-- The rules that `LacpRxMachineFSMBuild` of rxmachine.go adds, in its order. -/
def LacpRxMachineFSMBuild : Ruleset :=
  let rules : Ruleset := []
  -- BEGIN -> INIT
  let rules := rules.AddRule LacpRxmStateNone LacpRxmEventBegin .Initialize
  let rules := rules.AddRule LacpRxmStatePortDisabled LacpRxmEventBegin .Initialize
  let rules := rules.AddRule LacpRxmStateExpired LacpRxmEventBegin .Initialize
  let rules := rules.AddRule LacpRxmStateLacpDisabled LacpRxmEventBegin .Initialize
  let rules := rules.AddRule LacpRxmStateDefaulted LacpRxmEventBegin .Initialize
  let rules := rules.AddRule LacpRxmStateCurrent LacpRxmEventBegin .Initialize
  -- INIT -> PORT_DISABLE
  let rules := rules.AddRule LacpRxmStateInitialize LacpRxmEventUnconditionalFallthrough .PortDisabled
  -- NOT PORT ENABLED && NOT PORT MOVED
  let rules := rules.AddRule LacpRxmStateInitialize LacpRxmEventNotPortEnabledAndNotPortMoved .PortDisabled
  let rules := rules.AddRule LacpRxmStateExpired LacpRxmEventNotPortEnabledAndNotPortMoved .PortDisabled
  let rules := rules.AddRule LacpRxmStateLacpDisabled LacpRxmEventNotPortEnabledAndNotPortMoved .PortDisabled
  let rules := rules.AddRule LacpRxmStateDefaulted LacpRxmEventNotPortEnabledAndNotPortMoved .PortDisabled
  let rules := rules.AddRule LacpRxmStateCurrent LacpRxmEventNotPortEnabledAndNotPortMoved .PortDisabled
  -- PORT MOVED -> INIT
  let rules := rules.AddRule LacpRxmStatePortDisabled LacpRxmEventPortMoved .Initialize
  -- PORT ENABLED && LACP ENABLED
  let rules := rules.AddRule LacpRxmStatePortDisabled LacpRxmEventPortEnabledAndLacpEnabled .Expired
  -- PORT ENABLED && LACP DISABLED
  let rules := rules.AddRule LacpRxmStatePortDisabled LacpRxmEventPortEnabledAndLacpDisabled .LacpDisabled
  -- CURRENT WHILE TIMER EXPIRED
  let rules := rules.AddRule LacpRxmStateExpired LacpRxmEventCurrentWhileTimerExpired .Defaulted
  let rules := rules.AddRule LacpRxmStateCurrent LacpRxmEventCurrentWhileTimerExpired .Expired
  -- LACP ENABLED
  let rules := rules.AddRule LacpRxmStateLacpDisabled LacpRxmEventLacpEnabled .PortDisabled
  -- PKT RX
  let rules := rules.AddRule LacpRxmStateExpired LacpRxmEventLacpPktRx .Current
  let rules := rules.AddRule LacpRxmStateDefaulted LacpRxmEventLacpPktRx .Current
  let rules := rules.AddRule LacpRxmStateCurrent LacpRxmEventLacpPktRx .Current
  rules

/-- Modelled from the spec: `Machine.ProcessEvent(src, event, data)` of the
state-machine library. With a rule for (current state, event) it runs the callback,
makes the state the callback returns the current state and returns no error
(`true`); without one it changes nothing and returns an error (`false`). -/
def ProcessEvent (env : Env) (p : LaAggPort) (e : RxmEvent) (data : Option LACP) :
    Option (LaAggPort × Bool) :=
  match LacpRxMachineFSMBuild.find p.RxMachineFsm.state e with
  | none => some (p, false)
  | some cb =>
    match cb.run env p data with
    | none => none
    | some (q, s) => some ({ q with RxMachineFsm := { q.RxMachineFsm with state := s } }, true)

/-- One of the guarded continuations `if rv == nil && cond { rv = ProcessEvent(e) }` of
the loop in `LacpRxMachineMain`: the port and whether `rv == nil` afterwards. -/
def continueWith (env : Env) (cond : Bool) (p : LaAggPort) (rvNil : Bool) (e : RxmEvent) :
    Option (LaAggPort × Bool) :=
  if cond then ProcessEvent env p e none else some (p, rvNil)

/-- The `case event := <-m.RxmEvents` arm of the loop in `LacpRxMachineMain`. -/
def rxmEventsCase (env : Env) (p : LaAggPort) (e : RxmEvent) : Option LaAggPort := do
  let (p1, rv1) ← ProcessEvent env p e none
  if rv1 then
    -- continue state transition
    let (p2, rv2) ← continueWith env (p1.RxMachineFsm.state == LacpRxmStateInitialize) p1 rv1
      LacpRxmEventUnconditionalFallthrough
    if rv2 && p2.aggSelected == LacpAggSelected then
      let (p3, rv3) ← continueWith env
        (rv2 && p2.RxMachineFsm.state == LacpRxmStatePortDisabled &&
          p2.lacpEnabled == true && p2.portEnabled == true) p2 rv2
        LacpRxmEventPortEnabledAndLacpEnabled
      let (p4, _) ← continueWith env
        (rv3 && p3.RxMachineFsm.state == LacpRxmStatePortDisabled &&
          p3.lacpEnabled == false && p3.portEnabled == true) p3 rv3
        LacpRxmEventPortEnabledAndLacpDisabled
      pure p4
    else pure p2
  else pure p1

/-- The `case <-m.currentWhileTimer.C` arm of the loop in `LacpRxMachineMain`. -/
def currentWhileTimerCase (env : Env) (p : LaAggPort) : Option LaAggPort :=
  match ProcessEvent env p LacpRxmEventCurrentWhileTimerExpired none with
  | none => none
  | some (q, _) => some q

/-- The `case rx := <-m.RxmPktRxEvent` arm of the loop in `LacpRxMachineMain`. -/
def rxmPktRxCase (env : Env) (p : LaAggPort) (pdu : LACP) : Option LaAggPort :=
  let p1 := { p with LacpInPkts := p.LacpInPkts + 1 }
  if CheckPortMoved p1 p1.partnerOper pdu.Actor then
    let p2 := { p1 with portMoved := true }
    match ProcessEvent env p2 LacpRxmEventPortMoved none with
    | none => none
    | some (q, _) => some q
  else
    match ProcessEvent env p1 LacpRxmEventLacpPktRx (some pdu) with
    | none => none
    | some (q, _) => some q

/-- One input of the Receive machine's loop: an event from its queue, an expiry of
the CurrentWhileTimer, or a received LACPDU. -/
inductive RxmInput where
  | event (e : RxmEvent)
  | timer
  | pkt (pdu : LACP)

/-- One iteration of the loop in `LacpRxMachineMain` on the given input. -/
def rxmStep (env : Env) (p : LaAggPort) (i : RxmInput) : Option LaAggPort :=
  match i with
  | .event e => rxmEventsCase env p e
  | .timer => currentWhileTimerCase env p
  | .pkt pdu => rxmPktRxCase env p pdu

/-- The loop in `LacpRxMachineMain` on a sequence of inputs, oldest first. -/
def rxmRun (env : Env) (p : LaAggPort) (inputs : List RxmInput) : Option LaAggPort :=
  match inputs with
  | [] => some p
  | i :: rest =>
    match rxmStep env p i with
    | none => none
    | some q => rxmRun env q rest

/-! ## The spec's transition table and sample data -/

/-- The transition table of section 4.2 of the spec, for the events other than Begin
and NotPortEnabledAndNotPortMoved: the target state when the table lists the pair. -/
def specTransition (s : RxmState) (e : RxmEvent) : Option RxmState :=
  match s, e with
  | LacpRxmStateInitialize, LacpRxmEventUnconditionalFallthrough => some LacpRxmStatePortDisabled
  | LacpRxmStatePortDisabled, LacpRxmEventPortMoved => some LacpRxmStateInitialize
  | LacpRxmStatePortDisabled, LacpRxmEventPortEnabledAndLacpEnabled => some LacpRxmStateExpired
  | LacpRxmStatePortDisabled, LacpRxmEventPortEnabledAndLacpDisabled => some LacpRxmStateLacpDisabled
  | LacpRxmStateExpired, LacpRxmEventCurrentWhileTimerExpired => some LacpRxmStateDefaulted
  | LacpRxmStateCurrent, LacpRxmEventCurrentWhileTimerExpired => some LacpRxmStateExpired
  | LacpRxmStateLacpDisabled, LacpRxmEventLacpEnabled => some LacpRxmStatePortDisabled
  | LacpRxmStateExpired, LacpRxmEventLacpPktRx => some LacpRxmStateCurrent
  | LacpRxmStateDefaulted, LacpRxmEventLacpPktRx => some LacpRxmStateCurrent
  | LacpRxmStateCurrent, LacpRxmEventLacpPktRx => some LacpRxmStateCurrent
  | _, _ => none

/-- One environment: `LacpStateAggregatibleUp` has the Activity, Aggregation, Sync,
Collecting, Distributing and Defaulted bits, `LacpStateAggregatibleDown` the Activity,
Aggregation and Defaulted bits, the actor speaks version 1, the selection collaborator
keeps `agg_selected`, and the default states are Activity and Aggregation for the
actor and 0 for the partner. -/
def sampleEnv : Env :=
  { LacpStateAggregatibleUp := 0x7D,
    LacpStateAggregatibleDown := 0x45,
    LacpActorSystemLacpVersion := 1,
    reevaluate := fun p => p.aggSelected,
    ActorStateDefaultParamsState := 0x05,
    PartnerStateDefaultParamsState := 0 }

/-- A port as `NewLaAggPort` leaves it for port number 1, priority 0x80, key 1 and the
defaults of `sampleEnv` (not selected, port and LACP disabled, all-zero partner), with
the machines created: Receive machine in None, Mux machine in Detached, Periodic
Transmit machine at the slow interval, no event posted yet. -/
def samplePort : LaAggPort :=
  { portId := 1, portNum := 1, portPriority := 0x80, key := 1,
    aggSelected := LacpAggUnSelected,
    lacpEnabled := false, portEnabled := false, portMoved := false, begin := true,
    actorAdmin := { zeroInfo with state := 0x05 },
    actorOper := { zeroInfo with state := 0x05 },
    partnerAdmin := zeroInfo,
    partnerOper := zeroInfo,
    partnerVersion := 0,
    LacpInPkts := 0,
    RxMachineFsm :=
      { state := LacpRxmStateNone, currentWhileTimerTimeout := 0, currentWhileTimerRunning := false },
    PtxMachineFsm := some { PeriodicTxTimerInterval := LacpSlowPeriodicTime, PtxmEvents := [] },
    TxMachineFsm := some { TxmEvents := [] },
    MuxMachineFsm := some { state := LacpMuxmStateDetached, MuxmEvents := [] } }

/-- An LACPDU whose Actor block is all zero (system 00:00:00:00:00:00, priority 0,
port 0) and whose Partner block is all zero. -/
def zeroPdu : LACP :=
  { Version := 1,
    Actor := { SystemPriority := 0, SystemId := zeroInfo.system.systemId, Key := 0, PortPri := 0,
               Port := 0, State := 0 },
    Partner := { SystemPriority := 0, SystemId := zeroInfo.system.systemId, Key := 0, PortPri := 0,
                 Port := 0, State := 0 } }

/-- A port whose RXM rests in PortDisabled: `samplePort` with that RXM state. -/
def portDisabledPort : LaAggPort :=
  { samplePort with RxMachineFsm := { samplePort.RxMachineFsm with state := LacpRxmStatePortDisabled } }

/-- A port whose RXM rests in Expired, as the Expired entry action leaves it from
`portDisabledPort`: short timer armed, Partner Oper Timeout and Actor Oper Expired set. -/
def expiredPort : LaAggPort :=
  { samplePort with
    actorOper := { zeroInfo with state := 0x85 },
    partnerOper := { zeroInfo with state := 0x02 },
    RxMachineFsm :=
      { state := LacpRxmStateExpired, currentWhileTimerTimeout := LacpShortTimeoutTime,
        currentWhileTimerRunning := true } }

/-- An LACPDU from a partner with system 00:11:22:33:44:55, priority 0x8000, key 1,
port 2 of priority 0x80 and state Activity, Aggregation, Sync, that has learned nothing
of this port yet (all-zero Partner block). -/
def partnerPdu : LACP :=
  { Version := 1,
    Actor := { SystemPriority := 0x8000, SystemId := sampleInfo.system.systemId, Key := 1,
               PortPri := 0x80, Port := 2, State := 0x0D },
    Partner := zeroPdu.Partner }

/-- Two parameter blocks agree in system, key, port priority and port number, and in
every bit of the 8-bit state that is not in `mask`. -/
def agreeOutside (mask : Nat) (a b : LacpPortInfo) : Prop :=
  a.system = b.system ∧ a.key = b.key ∧ a.port_pri = b.port_pri ∧ a.port = b.port ∧
  ∀ i, i < 8 → mask.testBit i = false → a.state.testBit i = b.state.testBit i

/-- The test `collDistMap[state]` of `recordPDU`: the Mux machine is in Collecting,
Distributing or C-CollectingDistributing. -/
def inCollDist (s : MuxmState) : Bool :=
  s == LacpMuxmStateCollecting || s == LacpMuxmStateDistributing ||
  s == LacpMuxStateCCollectingDistributing

/-- The port `samplePort` with its Mux machine in Collecting. -/
def collectingPort : LaAggPort :=
  { samplePort with MuxMachineFsm := some { state := LacpMuxmStateCollecting, MuxmEvents := [] } }

/-! ## port.go: NewLaAggPort -/

/-- The numeric fields of `LaAggConfig` that `NewLaAggPort` reads. The struct is
declared outside port.go and rxmachine.go; `Id` and `Prio` are `uint16`, because
the composite literal assigns them to the `uint16` fields `portNum` and
`portPriority` without a conversion, and `Key` likewise. -/
structure LaAggConfig where
  Id : Nat
  Prio : Nat
  Key : Nat
deriving DecidableEq, Repr

/-- The function `NewLaAggPort` of port.go, on the fields of `LaAggPort` kept here.
`config.Id | config.Prio<<16` is computed in `uint16`, the type of both operands, and
then converted to `int`. The machines are nil; the Receive machine field holds what
`NewLacpRxMachine` gives it when the machine is created (state None, timer unset).
The registration in the global port map and the start of the logger are left out. -/
def NewLaAggPort (env : Env) (config : LaAggConfig) : LaAggPort :=
  let actorAdmin : LacpPortInfo := { zeroInfo with state := env.ActorStateDefaultParamsState % 256 }
  let partnerAdmin : LacpPortInfo :=
    { zeroInfo with state := env.PartnerStateDefaultParamsState % 256 }
  { portId := (config.Id % 65536 ||| ((config.Prio % 65536) <<< 16) % 65536) % 65536,
    portNum := config.Id % 65536,
    portPriority := config.Prio % 65536,
    key := config.Key % 65536,
    aggSelected := LacpAggUnSelected,
    begin := true,
    portMoved := false,
    lacpEnabled := false,
    portEnabled := false,
    -- default actor admin, default actor oper same as admin
    actorAdmin := actorAdmin,
    actorOper := actorAdmin,
    -- default partner admin, default partner oper same as admin
    partnerAdmin := partnerAdmin,
    partnerOper := partnerAdmin,
    partnerVersion := 0,
    LacpInPkts := 0,
    RxMachineFsm :=
      { state := LacpRxmStateNone, currentWhileTimerTimeout := 0, currentWhileTimerRunning := false },
    PtxMachineFsm := none,
    TxMachineFsm := none,
    MuxMachineFsm := none }

/-- The port id the doc comment of `LaAggPort.portId` describes: the concatenation of
the port priority (upper two octets) and the port number (lower two octets). -/
def portIdOfPriorityAndNumber (prio num : Nat) : Nat := prio * 65536 + num

/-- The Receive machine has not written the Actor parameters between `p` and `q`:
Actor Admin is the same, and Actor Oper is the same in system, key, port priority, port
number and in every state bit other than Defaulted and Expired. -/
def actorUntouched (p q : LaAggPort) : Prop :=
  q.actorAdmin = p.actorAdmin ∧
  agreeOutside (LacpStateDefaultedBit ||| LacpStateExpiredBit) q.actorOper p.actorOper

/-- The interval `LacpRxMachineCurrent` leaves in `currentWhileTimerTimeout`, read off
`CurrentWhileTimerValid`: `t` is the interval before and `timeoutBit` the Timeout bit
of Actor Oper. -/
def revalidatedTimeout (t : Nat) (timeoutBit : Bool) : Nat :=
  if t == LacpShortTimeoutTime && !timeoutBit then LacpLongTimeoutTime
  else if t == LacpLongTimeoutTime && timeoutBit then LacpShortTimeoutTime
  else t

/-- While the Expired bit of Actor Oper is 1, the Timeout bit of Partner Oper is 1 and
the CurrentWhileTimer is configured with the short timeout. -/
def expiredTimeoutInv (p : LaAggPort) : Prop :=
  p.actorOper.state.testBit 7 = true →
    p.partnerOper.state.testBit 1 = true ∧
      p.RxMachineFsm.currentWhileTimerTimeout = LacpShortTimeoutTime

/-- The CurrentWhileTimer interval matches the Timeout bit (bit 1) of Actor Oper:
short when the bit is 1, long when it is 0. -/
def timeoutMatchesActor (p : LaAggPort) : Prop :=
  (p.actorOper.state.testBit 1 = true →
    p.RxMachineFsm.currentWhileTimerTimeout = LacpShortTimeoutTime) ∧
  (p.actorOper.state.testBit 1 = false →
    p.RxMachineFsm.currentWhileTimerTimeout = LacpLongTimeoutTime)

/-- In Expired and Defaulted the CurrentWhileTimer interval is the short or the long
timeout, and in Current it matches the Timeout bit of Actor Oper. -/
def currentTimerInv (p : LaAggPort) : Prop :=
  ((p.RxMachineFsm.state = LacpRxmStateExpired ∨ p.RxMachineFsm.state = LacpRxmStateDefaulted) →
    (p.RxMachineFsm.currentWhileTimerTimeout = LacpShortTimeoutTime ∨
      p.RxMachineFsm.currentWhileTimerTimeout = LacpLongTimeoutTime)) ∧
  (p.RxMachineFsm.state = LacpRxmStateCurrent → timeoutMatchesActor p)

/-! ## port.go: LaAggPortLacpEnabled -/

/-- The method `LaAggPortLacpEnabled` of port.go: the port it leaves and the events it
submits to the queue of the Receive machine (`DistributeMachineEvents` sends them from
goroutines and does not wait). `noPeriodicExit` is the result of
`p.PtxMachineFsm.LacpPtxIsNoPeriodicExitCondition()`, a method declared outside
port.go and rxmachine.go; `none` when the event for the Periodic machine is due and
`p.PtxMachineFsm` is nil. -/
def LaAggPortLacpEnabled (p : LaAggPort) (noPeriodicExit : Bool) :
    Option (LaAggPort × List RxmEvent) :=
  -- port can be added to aggregator
  let p1 := { p with actorAdmin :=
    { p.actorAdmin with state := LacpStateSet p.actorAdmin.state LacpStateActivityBit } }
  if p1.portEnabled then
    -- Rxm
    let rxmEvents := [LacpRxmEventPortEnabledAndLacpEnabled]
    -- Ptxm
    match (if noPeriodicExit then sendPtxm p1 LacpPtxmEventUnconditionalFallthrough
        else some p1) with
    | none => none
    | some p2 => some ({ p2 with lacpEnabled := true }, rxmEvents)
  else
    some ({ p1 with lacpEnabled := true }, [])

/-- A port whose RXM rests in LacpDisabled with the port enabled and LACP disabled:
`samplePort` with those values. -/
def lacpDisabledPort : LaAggPort :=
  { samplePort with
    portEnabled := true,
    RxMachineFsm := { samplePort.RxMachineFsm with state := LacpRxmStateLacpDisabled } }

/-- The port `samplePort` enabled with LACP enabled, as `LaAggPortEnabled` and
`LaAggPortLacpEnabled` leave the two flags; `agg_selected` is Unselected. -/
def enabledPort : LaAggPort :=
  { samplePort with portEnabled := true, lacpEnabled := true }

/-- The port `samplePort` with its Mux machine in Distributing and a Partner Oper
state of Sync alone (0x08): Sync 1, Collecting 0; `agg_selected` is Unselected. -/
def distributingPort : LaAggPort :=
  { samplePort with
    partnerOper := { zeroInfo with state := 0x08 },
    MuxMachineFsm := some { state := LacpMuxmStateDistributing, MuxmEvents := [] } }

/-- A port in sync with its partner: `samplePort` with its Mux machine in
C-CollectingDistributing and a Partner Oper state of Sync alone (0x08). -/
def syncedPort : LaAggPort :=
  { samplePort with
    partnerOper := { zeroInfo with state := 0x08 },
    MuxMachineFsm := some { state := LacpMuxStateCCollectingDistributing, MuxmEvents := [] } }

/-- While the Defaulted bit (bit 6) of Actor Oper is 1, Partner Oper agrees with
Partner Admin in system, key, port priority and port number and in every state bit
other than Sync, Timeout, Aggregation and the bits of `LacpStateAggregatibleUp`. -/
def defaultedAgreementInv (env : Env) (p : LaAggPort) : Prop :=
  p.actorOper.state.testBit 6 = true →
    agreeOutside
      (LacpStateSyncBit ||| LacpStateTimeoutBit ||| LacpStateAggregationBit |||
        env.LacpStateAggregatibleUp)
      p.partnerOper p.partnerAdmin

/-! ## Auxiliary definitions for the proofs -/

/-- The parameter blocks and the Receive machine of two ports agree, and the same
machines are present; only the event channels, `agg_selected` and the other scalar
fields may differ. -/
structure SameBlocks (p q : LaAggPort) : Prop where
  actorAdmin : q.actorAdmin = p.actorAdmin
  actorOper : q.actorOper = p.actorOper
  partnerAdmin : q.partnerAdmin = p.partnerAdmin
  partnerOper : q.partnerOper = p.partnerOper
  rxm : q.RxMachineFsm = p.RxMachineFsm
  mux : q.MuxMachineFsm.isSome = p.MuxMachineFsm.isSome
  ptx : q.PtxMachineFsm.isSome = p.PtxMachineFsm.isSome
  txm : q.TxMachineFsm.isSome = p.TxMachineFsm.isSome

/-- The condition under which `recordPDU` sets the Sync bit of Partner Oper, read off
the source: (1) or (2), and (3). -/
def recordPDUSync (p : LaAggPort) (lacpPduInfo : LACP) : Bool :=
  ((LacpLacpPktPortInfoIsEqual lacpPduInfo.Partner
        { p.actorOper with state := LacpStateClear p.actorOper.state LacpStateDefaultedBit }
        LacpStateAggregationBit &&
      LacpStateIsSet lacpPduInfo.Actor.State LacpStateSyncBit) ||
    (!LacpStateIsSet lacpPduInfo.Actor.State LacpStateAggregationBit &&
      LacpStateIsSet lacpPduInfo.Actor.State LacpStateSyncBit)) &&
  (LacpStateIsSet lacpPduInfo.Actor.State LacpStateActivityBit ||
    (LacpStateIsSet (LacpStateClear p.actorOper.state LacpStateDefaultedBit) LacpStateActivityBit &&
      LacpStateIsSet lacpPduInfo.Partner.State LacpStateActivityBit))

/-- The port `LacpRxMachineCurrent` hands to `InformMachinesOfStateChanges`: the
statements of the callback before that call, on the PDU `lacpPduInfo`. -/
def currentBeforeInform (env : Env) (p : LaAggPort) (lacpPduInfo : LACP) : LaAggPort :=
  let p1 := updateSelected p lacpPduInfo
  let ntt := updateNTT p1 lacpPduInfo
  let p2 := if env.LacpActorSystemLacpVersion ≥ 2 then recordVersionNumber p1 lacpPduInfo else p1
  let p3 := recordPDU p2 lacpPduInfo
  let p4 := currentWhileTimerRevalidate p3
  let p5 := CurrentWhileTimerStart p4
  let p6 := { p5 with actorOper :=
    { p5.actorOper with state := LacpStateClear p5.actorOper.state LacpStateExpiredBit } }
  sendNttIfNeeded p6 ntt

/-- The state constant on the `return` line of each callback of rxmachine.go. -/
def RxmCallback.returns (cb : RxmCallback) : RxmState :=
  match cb with
  | .Initialize => LacpRxmStateInitialize
  | .PortDisabled => LacpRxmStatePortDisabled
  | .Expired => LacpRxmStateExpired
  | .LacpDisabled => LacpRxmStateLacpDisabled
  | .Defaulted => LacpRxmStateDefaulted
  | .Current => LacpRxmStateCurrent

/-- The relation between the Expired bit of Actor Oper and the RXM state that every
callback establishes: the bit is 0, or the RXM is in Expired or PortDisabled. -/
def expiredBitInv (p : LaAggPort) : Prop :=
  p.actorOper.state.testBit 7 = true →
    p.RxMachineFsm.state = LacpRxmStateExpired ∨ p.RxMachineFsm.state = LacpRxmStatePortDisabled

/-! ## Bit lemmas -/

theorem and_two_pow_bne_zero (s k : Nat) : ((s &&& 2 ^ k) != 0) = s.testBit k := by
  cases h : s.testBit k
  · have hz : s &&& 2 ^ k = 0 := by
      apply Nat.eq_of_testBit_eq
      intro i
      by_cases hik : k = i
      · subst hik; simp [h]
      · simp [Nat.testBit_two_pow, hik]
    simp [hz]
  · have hb : (s &&& 2 ^ k).testBit k = true := by simp [h, Nat.testBit_two_pow]
    have hne : s &&& 2 ^ k ≠ 0 := by
      intro h0
      rw [h0] at hb
      simp at hb
    simpa using hne

theorem LacpStateIsSet_two_pow (s k : Nat) : LacpStateIsSet s (2 ^ k) = s.testBit k :=
  and_two_pow_bne_zero s k

theorem isSet_activity (s : Nat) : LacpStateIsSet s LacpStateActivityBit = s.testBit 0 :=
  LacpStateIsSet_two_pow s 0
theorem isSet_timeout (s : Nat) : LacpStateIsSet s LacpStateTimeoutBit = s.testBit 1 :=
  LacpStateIsSet_two_pow s 1
theorem isSet_aggregation (s : Nat) : LacpStateIsSet s LacpStateAggregationBit = s.testBit 2 :=
  LacpStateIsSet_two_pow s 2
theorem isSet_sync (s : Nat) : LacpStateIsSet s LacpStateSyncBit = s.testBit 3 :=
  LacpStateIsSet_two_pow s 3
theorem isSet_collecting (s : Nat) : LacpStateIsSet s LacpStateCollectingBit = s.testBit 4 :=
  LacpStateIsSet_two_pow s 4
theorem isSet_distributing (s : Nat) : LacpStateIsSet s LacpStateDistributingBit = s.testBit 5 :=
  LacpStateIsSet_two_pow s 5
theorem isSet_defaulted (s : Nat) : LacpStateIsSet s LacpStateDefaultedBit = s.testBit 6 :=
  LacpStateIsSet_two_pow s 6
theorem isSet_expired (s : Nat) : LacpStateIsSet s LacpStateExpiredBit = s.testBit 7 :=
  LacpStateIsSet_two_pow s 7

theorem testBit_LacpStateSet (s bits i : Nat) :
    (LacpStateSet s bits).testBit i = (decide (i < 8) && (s.testBit i || bits.testBit i)) := by
  unfold LacpStateSet
  rw [show (256 : Nat) = 2 ^ 8 from rfl, Nat.testBit_mod_two_pow, Nat.testBit_or]

theorem testBit_LacpStateClear (s bits i : Nat) :
    (LacpStateClear s bits).testBit i = (decide (i < 8) && (s.testBit i && !bits.testBit i)) := by
  unfold LacpStateClear
  rw [show (256 : Nat) = 2 ^ 8 from rfl, Nat.testBit_mod_two_pow, Nat.testBit_and, Nat.testBit_xor,
    Nat.testBit_mod_two_pow, show (255 : Nat) = 2 ^ 8 - 1 from rfl, Nat.testBit_two_pow_sub_one]
  by_cases h : i < 8 <;> simp [h]

theorem LacpStateClear_idem (s bits : Nat) :
    LacpStateClear (LacpStateClear s bits) bits = LacpStateClear s bits := by
  apply Nat.eq_of_testBit_eq
  intro i
  simp only [testBit_LacpStateClear]
  cases decide (i < 8) <;> cases s.testBit i <;> cases bits.testBit i <;> rfl

theorem LacpStateSet_idem (s bits : Nat) :
    LacpStateSet (LacpStateSet s bits) bits = LacpStateSet s bits := by
  apply Nat.eq_of_testBit_eq
  intro i
  simp only [testBit_LacpStateSet]
  cases decide (i < 8) <;> cases s.testBit i <;> cases bits.testBit i <;> rfl

theorem testBit_bit (k i : Nat) : (2 ^ k).testBit i = decide (k = i) := Nat.testBit_two_pow

theorem and_two_pow_beq (a b k : Nat) :
    ((a &&& 2 ^ k) == (b &&& 2 ^ k)) = (a.testBit k == b.testBit k) := by
  have key : ∀ s : Nat, s &&& 2 ^ k = if s.testBit k then 2 ^ k else 0 := by
    intro s
    apply Nat.eq_of_testBit_eq
    intro i
    by_cases hik : k = i
    · subst hik; cases h : s.testBit k <;> simp [h, Nat.testBit_two_pow]
    · cases h : s.testBit k <;> simp [h, Nat.testBit_two_pow, hik]
  rw [key a, key b]
  have hpos : (2 : Nat) ^ k ≠ 0 := by positivity
  cases ha : a.testBit k <;> cases hb : b.testBit k <;> simp [hpos]
  all_goals omega

theorem and_aggregation_beq (a b : Nat) :
    ((a &&& LacpStateAggregationBit) == (b &&& LacpStateAggregationBit)) =
      (a.testBit 2 == b.testBit 2) :=
  and_two_pow_beq a b 2

theorem and_eq_and_iff (a b m : Nat) :
    (a &&& m) = (b &&& m) ↔ ∀ i, m.testBit i = true → a.testBit i = b.testBit i := by
  constructor
  · intro h i hi
    have := congrArg (fun x => x.testBit i) h
    simpa [hi] using this
  · intro h
    apply Nat.eq_of_testBit_eq
    intro i
    cases hm : m.testBit i
    · simp [hm]
    · simp [hm, h i hm]

theorem testBit_thirteen (i : Nat) : (13 : Nat).testBit i = true ↔ i = 0 ∨ i = 2 ∨ i = 3 := by
  by_cases hi : i < 4
  · interval_cases i <;> decide
  · have hlt : (13 : Nat) < 2 ^ i :=
      lt_of_lt_of_le (by decide : (13 : Nat) < 2 ^ 4) (Nat.pow_le_pow_right (by decide) (by omega))
    rw [Nat.testBit_lt_two_pow hlt]
    constructor
    · intro h; cases h
    · intro h; omega

theorem and_ntt_beq (a b : Nat) :
    ((a &&& (LacpStateActivityBit ||| LacpStateAggregationBit ||| LacpStateSyncBit)) ==
        (b &&& (LacpStateActivityBit ||| LacpStateAggregationBit ||| LacpStateSyncBit))) =
      (a.testBit 0 == b.testBit 0 && a.testBit 2 == b.testBit 2 && a.testBit 3 == b.testBit 3) := by
  have h13 : (LacpStateActivityBit ||| LacpStateAggregationBit ||| LacpStateSyncBit) = 13 := by decide
  rw [h13]
  rw [Bool.eq_iff_iff]
  simp only [beq_iff_eq, Bool.and_eq_true, and_eq_and_iff, testBit_thirteen]
  constructor
  · intro h
    exact ⟨⟨h 0 (Or.inl rfl), h 2 (Or.inr (Or.inl rfl))⟩, h 3 (Or.inr (Or.inr rfl))⟩
  · rintro ⟨⟨h0, h2⟩, h3⟩ i (rfl | rfl | rfl)
    · exact h0
    · exact h2
    · exact h3

/-! ## Frame lemmas for the channel sends -/

@[simp] theorem sendMuxmIfPresent_partnerOper (p : LaAggPort) (e : MuxmEvent) :
    (sendMuxmIfPresent p e).partnerOper = p.partnerOper := by
  unfold sendMuxmIfPresent sendMuxm; cases p.MuxMachineFsm <;> rfl

@[simp] theorem sendMuxmIfPresent_partnerAdmin (p : LaAggPort) (e : MuxmEvent) :
    (sendMuxmIfPresent p e).partnerAdmin = p.partnerAdmin := by
  unfold sendMuxmIfPresent sendMuxm; cases p.MuxMachineFsm <;> rfl

@[simp] theorem sendMuxmIfPresent_actorOper (p : LaAggPort) (e : MuxmEvent) :
    (sendMuxmIfPresent p e).actorOper = p.actorOper := by
  unfold sendMuxmIfPresent sendMuxm; cases p.MuxMachineFsm <;> rfl

@[simp] theorem sendMuxmIfPresent_actorAdmin (p : LaAggPort) (e : MuxmEvent) :
    (sendMuxmIfPresent p e).actorAdmin = p.actorAdmin := by
  unfold sendMuxmIfPresent sendMuxm; cases p.MuxMachineFsm <;> rfl

@[simp] theorem sendMuxmIfPresent_RxMachineFsm (p : LaAggPort) (e : MuxmEvent) :
    (sendMuxmIfPresent p e).RxMachineFsm = p.RxMachineFsm := by
  unfold sendMuxmIfPresent sendMuxm; cases p.MuxMachineFsm <;> rfl

@[simp] theorem sendMuxmIfPresent_isSome (p : LaAggPort) (e : MuxmEvent) :
    (sendMuxmIfPresent p e).MuxMachineFsm.isSome = p.MuxMachineFsm.isSome := by
  unfold sendMuxmIfPresent sendMuxm; cases h : p.MuxMachineFsm <;> simp [h]

@[simp] theorem sendMuxmIfPresent_PtxMachineFsm (p : LaAggPort) (e : MuxmEvent) :
    (sendMuxmIfPresent p e).PtxMachineFsm = p.PtxMachineFsm := by
  unfold sendMuxmIfPresent sendMuxm; cases p.MuxMachineFsm <;> rfl

@[simp] theorem sendMuxmIfPresent_TxMachineFsm (p : LaAggPort) (e : MuxmEvent) :
    (sendMuxmIfPresent p e).TxMachineFsm = p.TxMachineFsm := by
  unfold sendMuxmIfPresent sendMuxm; cases p.MuxMachineFsm <;> rfl

@[simp] theorem sendMuxmIfPresent_aggSelected (p : LaAggPort) (e : MuxmEvent) :
    (sendMuxmIfPresent p e).aggSelected = p.aggSelected := by
  unfold sendMuxmIfPresent sendMuxm; cases p.MuxMachineFsm <;> rfl

theorem SameBlocks.refl (p : LaAggPort) : SameBlocks p p :=
  ⟨rfl, rfl, rfl, rfl, rfl, rfl, rfl, rfl⟩

theorem SameBlocks.trans {p q r : LaAggPort} (h1 : SameBlocks p q) (h2 : SameBlocks q r) :
    SameBlocks p r :=
  ⟨h2.actorAdmin.trans h1.actorAdmin, h2.actorOper.trans h1.actorOper,
    h2.partnerAdmin.trans h1.partnerAdmin, h2.partnerOper.trans h1.partnerOper,
    h2.rxm.trans h1.rxm, h2.mux.trans h1.mux, h2.ptx.trans h1.ptx, h2.txm.trans h1.txm⟩

theorem sendMuxmIfPresent_same (p : LaAggPort) (e : MuxmEvent) :
    SameBlocks p (sendMuxmIfPresent p e) :=
  ⟨by simp, by simp, by simp, by simp, by simp, by simp, by simp, by simp⟩

theorem sendMuxm_same (p q : LaAggPort) (e : MuxmEvent) (h : sendMuxm p e = some q) :
    SameBlocks p q := by
  unfold sendMuxm at h
  cases hm : p.MuxMachineFsm with
  | none => simp [hm] at h
  | some mux =>
    simp only [hm, Option.some.injEq] at h
    subst h
    exact ⟨rfl, rfl, rfl, rfl, rfl, by simp [hm], rfl, rfl⟩

theorem sendPtxm_same (p q : LaAggPort) (e : PtxmEvent) (h : sendPtxm p e = some q) :
    SameBlocks p q := by
  unfold sendPtxm at h
  cases hm : p.PtxMachineFsm with
  | none => simp [hm] at h
  | some ptx =>
    simp only [hm, Option.some.injEq] at h
    subst h
    exact ⟨rfl, rfl, rfl, rfl, rfl, rfl, by simp [hm], rfl⟩

theorem sendPtxm_isSome (p : LaAggPort) (e : PtxmEvent) :
    (sendPtxm p e).isSome = p.PtxMachineFsm.isSome := by
  unfold sendPtxm; cases p.PtxMachineFsm <;> rfl

theorem sendNttIfNeeded_same (p : LaAggPort) (ntt : Bool) :
    SameBlocks p (sendNttIfNeeded p ntt) := by
  unfold sendNttIfNeeded sendTxm
  cases hm : p.TxMachineFsm with
  | none => simp [SameBlocks.refl]
  | some txm =>
    split
    · exact ⟨rfl, rfl, rfl, rfl, rfl, rfl, rfl, by simp [hm]⟩
    · exact SameBlocks.refl p

theorem checkConfigForSelection_same (env : Env) (p : LaAggPort) :
    SameBlocks p (checkConfigForSelection env p) :=
  ⟨rfl, rfl, rfl, rfl, rfl, rfl, rfl, rfl⟩

theorem informMuxm_same (env : Env) (p : LaAggPort) (mux : LacpMuxMachine) :
    SameBlocks p (informMuxm env p mux) := by
  unfold informMuxm
  simp only []
  generalize hp1 : (if (mux.state == LacpMuxmStateDetached ||
      mux.state == LacpMuxmStateCDetached) = true then checkConfigForSelection env p else p) = p1
  have h1 : SameBlocks p p1 := by
    rw [← hp1]
    split
    · exact checkConfigForSelection_same env p
    · exact SameBlocks.refl p
  repeat' split
  all_goals first
    | exact h1
    | exact h1.trans (sendMuxmIfPresent_same _ _)

theorem informPtxmTimeout_same (p q : LaAggPort) (h : informPtxmTimeout p = some q) :
    SameBlocks p q := by
  unfold informPtxmTimeout at h
  cases hm : p.PtxMachineFsm with
  | none => simp [hm] at h
  | some ptx =>
    simp only [hm, Option.bind_eq_bind, Option.some_bind, Option.pure_def] at h
    split at h
    · exact sendPtxm_same p q _ h
    · split at h
      · exact sendPtxm_same p q _ h
      · simp only [Option.some.injEq] at h
        subst h
        exact SameBlocks.refl p

theorem informPtxmTimeout_isSome (p : LaAggPort) :
    (informPtxmTimeout p).isSome = p.PtxMachineFsm.isSome := by
  unfold informPtxmTimeout
  cases hm : p.PtxMachineFsm with
  | none => simp
  | some ptx =>
    simp only [Option.bind_eq_bind, Option.some_bind, Option.pure_def]
    repeat' split
    all_goals simp [sendPtxm_isSome, hm]

theorem informPtxmPassive_same (p q : LaAggPort) (h : informPtxmPassive p = some q) :
    SameBlocks p q := by
  unfold informPtxmPassive at h
  split at h
  · exact sendPtxm_same p q _ h
  · simp only [Option.pure_def, Option.some.injEq] at h
    subst h
    exact SameBlocks.refl p

theorem informPtxmPassive_isSome (p : LaAggPort) : (informPtxmPassive p).isSome = true := by
  unfold informPtxmPassive
  split
  · rename_i h
    simp only [Bool.and_eq_true] at h
    rw [sendPtxm_isSome]
    exact h.2
  · rfl

theorem InformMachinesOfStateChanges_same (env : Env) (p q : LaAggPort)
    (h : InformMachinesOfStateChanges env p = some q) : SameBlocks p q := by
  unfold InformMachinesOfStateChanges at h
  cases hm : p.MuxMachineFsm with
  | none =>
    simp only [hm, Option.pure_def, Option.bind_eq_bind, Option.some_bind] at h
    exact informPtxmPassive_same _ _ h
  | some mux =>
    simp only [hm, Option.bind_eq_bind, Option.bind_eq_some] at h
    obtain ⟨p1, h1, h2⟩ := h
    exact ((informMuxm_same env p mux).trans (informPtxmTimeout_same _ _ h1)).trans
      (informPtxmPassive_same _ _ h2)

theorem InformMachinesOfStateChanges_isSome (env : Env) (p : LaAggPort) :
    (InformMachinesOfStateChanges env p).isSome =
      (!p.MuxMachineFsm.isSome || p.PtxMachineFsm.isSome) := by
  unfold InformMachinesOfStateChanges
  cases hm : p.MuxMachineFsm with
  | none =>
    simp only [Option.pure_def, Option.bind_eq_bind, Option.some_bind, informPtxmPassive_isSome]
    rfl
  | some mux =>
    simp only [Option.bind_eq_bind]
    cases ht : informPtxmTimeout (informMuxm env p mux) with
    | none =>
      have := informPtxmTimeout_isSome (informMuxm env p mux)
      rw [ht, (informMuxm_same env p mux).ptx] at this
      simp [← this]
    | some p1 =>
      have := informPtxmTimeout_isSome (informMuxm env p mux)
      rw [ht, (informMuxm_same env p mux).ptx] at this
      simp [← this, informPtxmPassive_isSome]

/-! ## What recordPDU writes -/

theorem recordPDU_partnerOper_eq (p : LaAggPort) (pdu : LACP) :
    (recordPDU p pdu).partnerOper =
      { LacpCopyLacpPortInfoFromPkt pdu.Actor p.partnerOper with
        state :=
          if recordPDUSync p pdu then LacpStateSet pdu.Actor.State LacpStateSyncBit
          else if LacpStateIsSet pdu.Actor.State LacpStateSyncBit then
            LacpStateClear pdu.Actor.State LacpStateSyncBit
          else pdu.Actor.State } := by
  unfold recordPDU recordPDUSync
  simp only [LacpCopyLacpPortInfoFromPkt]
  split
  · rfl
  · split
    · cases hm : p.MuxMachineFsm with
      | none => rfl
      | some mux => simp only []; split <;> simp
    · rfl

theorem recordPDU_actorOper_eq (p : LaAggPort) (pdu : LACP) :
    (recordPDU p pdu).actorOper =
      { p.actorOper with state := LacpStateClear p.actorOper.state LacpStateDefaultedBit } := by
  unfold recordPDU
  simp only []
  split
  · rfl
  · split
    · cases hm : p.MuxMachineFsm with
      | none => rfl
      | some mux => simp only []; split <;> simp
    · rfl

theorem recordPDU_same_except (p : LaAggPort) (pdu : LACP) :
    (recordPDU p pdu).partnerAdmin = p.partnerAdmin ∧
    (recordPDU p pdu).actorAdmin = p.actorAdmin ∧
    (recordPDU p pdu).RxMachineFsm = p.RxMachineFsm ∧
    (recordPDU p pdu).MuxMachineFsm.isSome = p.MuxMachineFsm.isSome ∧
    (recordPDU p pdu).PtxMachineFsm = p.PtxMachineFsm ∧
    (recordPDU p pdu).TxMachineFsm = p.TxMachineFsm := by
  unfold recordPDU
  simp only []
  split
  · exact ⟨rfl, rfl, rfl, rfl, rfl, rfl⟩
  · split
    · cases hm : p.MuxMachineFsm with
      | none => exact ⟨rfl, rfl, rfl, by simp [hm], rfl, rfl⟩
      | some mux => simp only []; split <;> simp [hm]
    · exact ⟨rfl, rfl, rfl, rfl, rfl, rfl⟩

/-! ## What recordDefault and the entry actions write -/

theorem LacpCopyLacpPortInfo_eq (a b : LacpPortInfo) : LacpCopyLacpPortInfo a b = a := rfl

theorem recordDefault_eq (p q : LaAggPort) (h : recordDefault p = some q) :
    q.partnerOper =
      { p.partnerAdmin with state := LacpStateSet p.partnerAdmin.state LacpStateSyncBit } ∧
    q.actorOper =
      { p.actorOper with state := LacpStateSet p.actorOper.state LacpStateDefaultedBit } ∧
    q.partnerAdmin = p.partnerAdmin ∧
    q.actorAdmin = p.actorAdmin ∧
    q.RxMachineFsm = p.RxMachineFsm ∧
    q.MuxMachineFsm.isSome = true ∧
    q.PtxMachineFsm.isSome = p.PtxMachineFsm.isSome ∧
    q.TxMachineFsm.isSome = p.TxMachineFsm.isSome := by
  unfold recordDefault at h
  cases hm : p.MuxMachineFsm with
  | none => simp [hm] at h
  | some mux =>
    simp only [hm, LacpCopyLacpPortInfo_eq] at h
    split at h
    · have hs := sendMuxm_same _ _ _ h
      exact ⟨hs.partnerOper, hs.actorOper, hs.partnerAdmin, hs.actorAdmin, hs.rxm,
        by rw [hs.mux]; simp [hm], hs.ptx, hs.txm⟩
    · simp only [Option.some.injEq] at h
      subst h
      exact ⟨rfl, rfl, rfl, rfl, rfl, by simp [hm], rfl, rfl⟩

theorem recordDefault_isSome (p : LaAggPort) :
    (recordDefault p).isSome = p.MuxMachineFsm.isSome := by
  unfold recordDefault
  cases hm : p.MuxMachineFsm with
  | none => simp
  | some mux => simp only []; split <;> simp [sendMuxm, hm]

theorem updateDefaultSelected_same (p : LaAggPort) : SameBlocks p (updateDefaultSelected p) := by
  unfold updateDefaultSelected
  split
  · exact (show SameBlocks p { p with aggSelected := LacpAggUnSelected } from
      ⟨rfl, rfl, rfl, rfl, rfl, rfl, rfl, rfl⟩).trans (sendMuxmIfPresent_same _ _)
  · exact SameBlocks.refl p

theorem updateSelected_same (p : LaAggPort) (pdu : LACP) : SameBlocks p (updateSelected p pdu) := by
  unfold updateSelected
  split
  · exact (show SameBlocks p { p with aggSelected := LacpAggUnSelected } from
      ⟨rfl, rfl, rfl, rfl, rfl, rfl, rfl, rfl⟩).trans (sendMuxmIfPresent_same _ _)
  · exact SameBlocks.refl p

theorem LacpRxMachineInitialize_eq (p q : LaAggPort) (s : RxmState)
    (h : LacpRxMachineInitialize p = some (q, s)) :
    s = LacpRxmStateInitialize ∧
    q.partnerOper =
      { p.partnerAdmin with state := LacpStateSet p.partnerAdmin.state LacpStateSyncBit } ∧
    q.actorOper =
      { p.actorOper with state := (LacpStateClear
        (LacpStateSet p.actorOper.state LacpStateDefaultedBit) LacpStateExpiredBit) } ∧
    q.partnerAdmin = p.partnerAdmin ∧
    q.actorAdmin = p.actorAdmin ∧
    q.RxMachineFsm = p.RxMachineFsm ∧
    q.portMoved = false := by
  unfold LacpRxMachineInitialize at h
  simp only [Option.bind_eq_bind, Option.bind_eq_some, Option.pure_def, Option.some.injEq,
    Prod.mk.injEq] at h
  obtain ⟨p3, h3, hq, hs⟩ := h
  obtain ⟨e1, e2, e3, e4, e5, -, -, -⟩ := recordDefault_eq _ _ h3
  subst hq
  simp only [sendMuxmIfPresent_partnerAdmin, sendMuxmIfPresent_actorOper,
    sendMuxmIfPresent_actorAdmin, sendMuxmIfPresent_RxMachineFsm] at e1 e2 e3 e4 e5
  exact ⟨hs.symm, e1, by simp only [e2], e3, e4, e5, rfl⟩

theorem LacpRxMachinePortDisabled_eq (p : LaAggPort) :
    LacpRxMachinePortDisabled p =
      some ({ p with partnerOper :=
        { p.partnerOper with state := LacpStateClear p.partnerOper.state LacpStateSyncBit } },
        LacpRxmStatePortDisabled) := rfl

theorem LacpRxMachineExpired_eq (p q : LaAggPort) (s : RxmState)
    (h : LacpRxMachineExpired p = some (q, s)) :
    s = LacpRxmStateExpired ∧
    q.partnerOper =
      { p.partnerOper with state := (LacpStateSet
        (LacpStateClear p.partnerOper.state LacpStateSyncBit) LacpStateTimeoutBit) } ∧
    q.actorOper =
      { p.actorOper with state := LacpStateSet p.actorOper.state LacpStateExpiredBit } ∧
    q.partnerAdmin = p.partnerAdmin ∧
    q.actorAdmin = p.actorAdmin ∧
    q.RxMachineFsm =
      { p.RxMachineFsm with
        currentWhileTimerTimeout := LacpShortTimeoutTime, currentWhileTimerRunning := true } := by
  unfold LacpRxMachineExpired at h
  simp only [Option.pure_def, Option.some.injEq, Prod.mk.injEq] at h
  obtain ⟨hq, hs⟩ := h
  subst hq
  exact ⟨hs.symm, rfl, rfl, rfl, rfl, rfl⟩

theorem LacpRxMachineLacpDisabled_eq (p q : LaAggPort) (s : RxmState)
    (h : LacpRxMachineLacpDisabled p = some (q, s)) :
    s = LacpRxmStateLacpDisabled ∧
    q.partnerOper =
      { p.partnerAdmin with state := (LacpStateClear
        (LacpStateSet p.partnerAdmin.state LacpStateSyncBit) LacpStateAggregationBit) } ∧
    q.actorOper =
      { p.actorOper with state := (LacpStateClear
        (LacpStateSet p.actorOper.state LacpStateDefaultedBit) LacpStateExpiredBit) } ∧
    q.partnerAdmin = p.partnerAdmin ∧
    q.actorAdmin = p.actorAdmin ∧
    q.RxMachineFsm = { p.RxMachineFsm with currentWhileTimerRunning := false } := by
  unfold LacpRxMachineLacpDisabled at h
  simp only [Option.bind_eq_bind, Option.bind_eq_some, Option.pure_def, Option.some.injEq,
    Prod.mk.injEq] at h
  obtain ⟨p3, h3, hq, hs⟩ := h
  obtain ⟨e1, e2, e3, e4, e5, -, -, -⟩ := recordDefault_eq _ _ h3
  subst hq
  simp only [sendMuxmIfPresent_partnerAdmin, sendMuxmIfPresent_actorOper,
    sendMuxmIfPresent_actorAdmin, sendMuxmIfPresent_RxMachineFsm, CurrentWhileTimerStop] at e1 e2 e3 e4 e5
  exact ⟨hs.symm, by simp only [e1], by simp only [e2], e3, e4, e5⟩

theorem LacpRxMachineDefaulted_eq (env : Env) (p q : LaAggPort) (s : RxmState)
    (h : LacpRxMachineDefaulted env p = some (q, s)) :
    s = LacpRxmStateDefaulted ∧
    q.partnerOper =
      { p.partnerAdmin with state := LacpStateSet p.partnerAdmin.state LacpStateSyncBit } ∧
    q.actorOper =
      { p.actorOper with state := (LacpStateClear
        (LacpStateSet p.actorOper.state LacpStateDefaultedBit) LacpStateExpiredBit) } ∧
    q.partnerAdmin =
      { p.partnerAdmin with state := LacpStateSet p.partnerAdmin.state env.LacpStateAggregatibleUp } ∧
    q.actorAdmin = p.actorAdmin ∧
    q.RxMachineFsm = p.RxMachineFsm := by
  unfold LacpRxMachineDefaulted at h
  simp only [Option.bind_eq_bind, Option.bind_eq_some, Option.pure_def, Option.some.injEq,
    Prod.mk.injEq] at h
  obtain ⟨p3, h3, hq, hs⟩ := h
  obtain ⟨e1, e2, e3, e4, e5, -, -, -⟩ := recordDefault_eq _ _ h3
  have hu := updateDefaultSelected_same p
  rw [hu.partnerAdmin] at e1 e3
  rw [hu.actorOper] at e2
  rw [hu.actorAdmin] at e4
  rw [hu.rxm] at e5
  subst hq
  exact ⟨hs.symm, e1, by simp only [e2], by simp only [e3], e4, e5⟩

theorem currentWhileTimerRevalidate_eq (p : LaAggPort) :
    ∃ t, currentWhileTimerRevalidate p = CurrentWhileTimerTimeoutSet p t := by
  unfold currentWhileTimerRevalidate
  split
  split
  · exact ⟨_, rfl⟩
  · exact ⟨p.RxMachineFsm.currentWhileTimerTimeout, rfl⟩

theorem recordPDUSync_congr (p q : LaAggPort) (pdu : LACP) (h : q.actorOper = p.actorOper) :
    recordPDUSync q pdu = recordPDUSync p pdu := by
  unfold recordPDUSync
  rw [h]

theorem recordPDU_partnerOper_congr (p q : LaAggPort) (pdu : LACP) (h : q.actorOper = p.actorOper) :
    (recordPDU q pdu).partnerOper = (recordPDU p pdu).partnerOper := by
  rw [recordPDU_partnerOper_eq, recordPDU_partnerOper_eq, recordPDUSync_congr p q pdu h]
  rfl

theorem LacpRxMachineCurrent_eq (env : Env) (p q : LaAggPort) (data : Option LACP) (s : RxmState)
    (h : LacpRxMachineCurrent env p data = some (q, s)) :
    ∃ pdu, data = some pdu ∧
    s = LacpRxmStateCurrent ∧
    q.partnerOper = (recordPDU p pdu).partnerOper ∧
    q.actorOper =
      { p.actorOper with state := (LacpStateClear
        (LacpStateClear p.actorOper.state LacpStateDefaultedBit) LacpStateExpiredBit) } ∧
    q.partnerAdmin =
      { p.partnerAdmin with state := LacpStateSet p.partnerAdmin.state env.LacpStateAggregatibleDown } ∧
    q.actorAdmin = p.actorAdmin ∧
    q.RxMachineFsm.state = p.RxMachineFsm.state := by
  unfold LacpRxMachineCurrent at h
  simp only [Option.bind_eq_bind, Option.bind_eq_some, Option.pure_def, Option.some.injEq,
    Prod.mk.injEq] at h
  obtain ⟨pdu, hd, p8, h8, hq, hs⟩ := h
  refine ⟨pdu, hd, hs.symm, ?_⟩
  have hI := InformMachinesOfStateChanges_same _ _ _ h8
  have hN := (sendNttIfNeeded_same _ _).trans hI
  clear hI h8
  have h1 := updateSelected_same p pdu
  generalize updateSelected p pdu = p1 at hN h1
  have h2 : SameBlocks p (if env.LacpActorSystemLacpVersion ≥ 2 then recordVersionNumber p1 pdu
      else p1) := by
    split
    · exact h1.trans ⟨rfl, rfl, rfl, rfl, rfl, rfl, rfl, rfl⟩
    · exact h1
  generalize (if env.LacpActorSystemLacpVersion ≥ 2 then recordVersionNumber p1 pdu else p1) = p2
    at hN h2
  obtain ⟨t, ht⟩ := currentWhileTimerRevalidate_eq (recordPDU p2 pdu)
  rw [ht] at hN
  obtain ⟨f1, f2, f3, -, -, -⟩ := recordPDU_same_except p2 pdu
  subst hq
  refine ⟨?_, ?_, ?_, ?_, ?_⟩
  · rw [hN.partnerOper]
    exact recordPDU_partnerOper_congr p p2 pdu h2.actorOper
  · rw [hN.actorOper]
    simp only [CurrentWhileTimerStart, CurrentWhileTimerTimeoutSet, recordPDU_actorOper_eq,
      h2.actorOper]
  · simp only [hN.partnerAdmin]
    simp only [CurrentWhileTimerStart, CurrentWhileTimerTimeoutSet, f1, h2.partnerAdmin]
  · rw [hN.actorAdmin]
    simp only [CurrentWhileTimerStart, CurrentWhileTimerTimeoutSet, f2, h2.actorAdmin]
  · simp only [hN.rxm]
    simp only [CurrentWhileTimerStart, CurrentWhileTimerTimeoutSet, f3, h2.rxm]

theorem currentWhileTimerRevalidate_timeout (p : LaAggPort) :
    currentWhileTimerRevalidate p =
      CurrentWhileTimerTimeoutSet p
        (revalidatedTimeout p.RxMachineFsm.currentWhileTimerTimeout (p.actorOper.state.testBit 1)) := by
  unfold currentWhileTimerRevalidate CurrentWhileTimerValid revalidatedTimeout
  simp only [isSet_timeout]
  split
  · rfl
  · split
    · rfl
    · rfl

theorem testBit_one_clear_defaulted (s : Nat) :
    (LacpStateClear s LacpStateDefaultedBit).testBit 1 = s.testBit 1 := by
  rw [testBit_LacpStateClear, show LacpStateDefaultedBit = 2 ^ 6 from rfl, testBit_bit]
  simp

theorem testBit_one_clear_expired (s : Nat) :
    (LacpStateClear s LacpStateExpiredBit).testBit 1 = s.testBit 1 := by
  rw [testBit_LacpStateClear, show LacpStateExpiredBit = 2 ^ 7 from rfl, testBit_bit]
  simp

theorem LacpRxMachineCurrent_timer (env : Env) (p q : LaAggPort) (data : Option LACP)
    (s : RxmState) (h : LacpRxMachineCurrent env p data = some (q, s)) :
    q.RxMachineFsm.currentWhileTimerTimeout =
      revalidatedTimeout p.RxMachineFsm.currentWhileTimerTimeout (p.actorOper.state.testBit 1) ∧
    q.actorOper.state.testBit 1 = p.actorOper.state.testBit 1 := by
  constructor
  · unfold LacpRxMachineCurrent at h
    simp only [Option.bind_eq_bind, Option.bind_eq_some, Option.pure_def, Option.some.injEq,
      Prod.mk.injEq] at h
    obtain ⟨pdu, hd, p8, h8, hq, hs⟩ := h
    have hI := InformMachinesOfStateChanges_same _ _ _ h8
    have hN := (sendNttIfNeeded_same _ _).trans hI
    clear hI h8
    have h1 := updateSelected_same p pdu
    generalize updateSelected p pdu = p1 at hN h1
    have h2 : SameBlocks p (if env.LacpActorSystemLacpVersion ≥ 2 then recordVersionNumber p1 pdu
        else p1) := by
      split
      · exact h1.trans ⟨rfl, rfl, rfl, rfl, rfl, rfl, rfl, rfl⟩
      · exact h1
    generalize (if env.LacpActorSystemLacpVersion ≥ 2 then recordVersionNumber p1 pdu else p1) = p2
      at hN h2
    rw [currentWhileTimerRevalidate_timeout] at hN
    obtain ⟨-, -, f3, -, -, -⟩ := recordPDU_same_except p2 pdu
    subst hq
    simp only [hN.rxm]
    simp only [CurrentWhileTimerStart, CurrentWhileTimerTimeoutSet, f3, h2.rxm,
      recordPDU_actorOper_eq, h2.actorOper, testBit_one_clear_defaulted]
  · obtain ⟨pdu, -, -, -, ha, -⟩ := LacpRxMachineCurrent_eq env p q data s h
    rw [ha]
    simp only [testBit_one_clear_expired, testBit_one_clear_defaulted]

/-! ## When the callbacks complete -/

theorem isSome_bind_some {α β : Type} (o : Option α) (f : α → β) (h : o.isSome = true) :
    (o.bind fun a => some (f a)).isSome = true := by
  cases o
  · simp at h
  · rfl

theorem LacpRxMachineCurrent_isSome (env : Env) (p : LaAggPort) (pdu : LACP)
    (hp : p.MuxMachineFsm.isSome = true → p.PtxMachineFsm.isSome = true) :
    (LacpRxMachineCurrent env p (some pdu)).isSome = true := by
  unfold LacpRxMachineCurrent
  simp only [Option.bind_eq_bind, Option.some_bind, Option.pure_def]
  apply isSome_bind_some
  have h1 := updateSelected_same p pdu
  generalize updateSelected p pdu = p1 at h1
  have h2 : SameBlocks p (if env.LacpActorSystemLacpVersion ≥ 2 then recordVersionNumber p1 pdu
      else p1) := by
    split
    · exact h1.trans ⟨rfl, rfl, rfl, rfl, rfl, rfl, rfl, rfl⟩
    · exact h1
  generalize (if env.LacpActorSystemLacpVersion ≥ 2 then recordVersionNumber p1 pdu else p1) = p2
    at h2
  obtain ⟨t, ht⟩ := currentWhileTimerRevalidate_eq (recordPDU p2 pdu)
  obtain ⟨-, -, -, f4, f5, -⟩ := recordPDU_same_except p2 pdu
  rw [InformMachinesOfStateChanges_isSome, (sendNttIfNeeded_same _ _).mux,
    (sendNttIfNeeded_same _ _).ptx, ht]
  simp only [CurrentWhileTimerStart, CurrentWhileTimerTimeoutSet, f4, f5, h2.mux, h2.ptx]
  cases hm : p.MuxMachineFsm.isSome
  · rfl
  · simp [hp hm]

theorem LacpRxMachineInitialize_isSome (p : LaAggPort) (hmux : p.MuxMachineFsm.isSome = true) :
    (LacpRxMachineInitialize p).isSome = true := by
  simp only [LacpRxMachineInitialize, Option.bind_eq_bind, Option.pure_def]
  apply isSome_bind_some
  rw [recordDefault_isSome, sendMuxmIfPresent_isSome]
  exact hmux

theorem LacpRxMachineLacpDisabled_isSome (p : LaAggPort) (hmux : p.MuxMachineFsm.isSome = true) :
    (LacpRxMachineLacpDisabled p).isSome = true := by
  simp only [LacpRxMachineLacpDisabled, Option.bind_eq_bind, Option.pure_def]
  apply isSome_bind_some
  rw [recordDefault_isSome, sendMuxmIfPresent_isSome]
  exact hmux

theorem LacpRxMachineDefaulted_isSome (env : Env) (p : LaAggPort)
    (hmux : p.MuxMachineFsm.isSome = true) :
    (LacpRxMachineDefaulted env p).isSome = true := by
  simp only [LacpRxMachineDefaulted, Option.bind_eq_bind, Option.pure_def]
  apply isSome_bind_some
  rw [recordDefault_isSome, (updateDefaultSelected_same p).mux]
  exact hmux

theorem RxmCallback.run_returns (env : Env) (cb : RxmCallback) (p q : LaAggPort)
    (data : Option LACP) (s : RxmState) (h : cb.run env p data = some (q, s)) :
    s = cb.returns := by
  cases cb
  · exact (LacpRxMachineInitialize_eq p q s h).1
  · rw [RxmCallback.run, LacpRxMachinePortDisabled_eq] at h
    simp only [Option.some.injEq, Prod.mk.injEq] at h
    exact h.2.symm
  · exact (LacpRxMachineExpired_eq p q s h).1
  · exact (LacpRxMachineLacpDisabled_eq p q s h).1
  · exact (LacpRxMachineDefaulted_eq env p q s h).1
  · obtain ⟨pdu, -, hs, -⟩ := LacpRxMachineCurrent_eq env p q data s h
    exact hs

/-- With the Mux and Periodic Transmit machines present, every callback completes, the
Current callback when it is given a PDU. -/
theorem RxmCallback.run_isSome (env : Env) (cb : RxmCallback) (p : LaAggPort)
    (data : Option LACP) (hmux : p.MuxMachineFsm.isSome = true)
    (hptx : p.PtxMachineFsm.isSome = true) (hdata : cb = .Current → data.isSome = true) :
    (cb.run env p data).isSome = true := by
  cases cb
  · simp only [RxmCallback.run, LacpRxMachineInitialize, Option.bind_eq_bind, Option.pure_def]
    apply isSome_bind_some
    rw [recordDefault_isSome, sendMuxmIfPresent_isSome]
    exact hmux
  · rfl
  · rfl
  · simp only [RxmCallback.run, LacpRxMachineLacpDisabled, Option.bind_eq_bind, Option.pure_def]
    apply isSome_bind_some
    rw [recordDefault_isSome, sendMuxmIfPresent_isSome]
    exact hmux
  · simp only [RxmCallback.run, LacpRxMachineDefaulted, Option.bind_eq_bind, Option.pure_def]
    apply isSome_bind_some
    rw [recordDefault_isSome, (updateDefaultSelected_same p).mux]
    exact hmux
  · cases data with
    | none => simp at hdata
    | some pdu => exact LacpRxMachineCurrent_isSome env p pdu (fun _ => hptx)

/-! ## ProcessEvent -/

theorem ProcessEvent_miss (env : Env) (p : LaAggPort) (e : RxmEvent) (data : Option LACP)
    (h : LacpRxMachineFSMBuild.find p.RxMachineFsm.state e = none) :
    ProcessEvent env p e data = some (p, false) := by
  unfold ProcessEvent
  rw [h]

theorem ProcessEvent_hit (env : Env) (p q : LaAggPort) (e : RxmEvent) (data : Option LACP)
    (ok : Bool) (cb : RxmCallback)
    (hf : LacpRxMachineFSMBuild.find p.RxMachineFsm.state e = some cb)
    (h : ProcessEvent env p e data = some (q, ok)) :
    ok = true ∧ ∃ r s, cb.run env p data = some (r, s) ∧
      q = { r with RxMachineFsm := { r.RxMachineFsm with state := s } } := by
  unfold ProcessEvent at h
  rw [hf] at h
  simp only [] at h
  cases hr : cb.run env p data with
  | none => simp [hr] at h
  | some rs =>
    obtain ⟨r, s⟩ := rs
    simp only [hr, Option.some.injEq, Prod.mk.injEq] at h
    exact ⟨h.2.symm, r, s, rfl, h.1.symm⟩

theorem ProcessEvent_hit_state (env : Env) (p q : LaAggPort) (e : RxmEvent) (data : Option LACP)
    (ok : Bool) (cb : RxmCallback)
    (hf : LacpRxMachineFSMBuild.find p.RxMachineFsm.state e = some cb)
    (h : ProcessEvent env p e data = some (q, ok)) :
    ok = true ∧ q.RxMachineFsm.state = cb.returns := by
  obtain ⟨hok, r, s, hr, hq⟩ := ProcessEvent_hit env p q e data ok cb hf h
  refine ⟨hok, ?_⟩
  rw [hq]
  exact RxmCallback.run_returns env cb p r data s hr

theorem ProcessEvent_hit_total (env : Env) (p : LaAggPort) (e : RxmEvent) (data : Option LACP)
    (cb : RxmCallback)
    (hf : LacpRxMachineFSMBuild.find p.RxMachineFsm.state e = some cb)
    (hmux : p.MuxMachineFsm.isSome = true) (hptx : p.PtxMachineFsm.isSome = true)
    (hdata : cb = .Current → data.isSome = true) :
    ∃ q, ProcessEvent env p e data = some (q, true) ∧ q.RxMachineFsm.state = cb.returns := by
  have hs := RxmCallback.run_isSome env cb p data hmux hptx hdata
  cases hr : cb.run env p data with
  | none => simp [hr] at hs
  | some rs =>
    obtain ⟨r, s⟩ := rs
    refine ⟨{ r with RxMachineFsm := { r.RxMachineFsm with state := s } }, ?_, ?_⟩
    · unfold ProcessEvent
      rw [hf]
      simp only [hr]
    · exact RxmCallback.run_returns env cb p r data s hr

theorem find_matches_specTransition (s : RxmState) (e : RxmEvent)
    (he1 : e ≠ LacpRxmEventBegin) (he2 : e ≠ LacpRxmEventNotPortEnabledAndNotPortMoved) :
    (LacpRxMachineFSMBuild.find s e).map RxmCallback.returns = specTransition s e := by
  revert he1 he2
  cases s <;> cases e <;> decide

/-! ## Invariants of the loop -/

theorem continueWith_preserves (env : Env) (I : LaAggPort → Prop)
    (hI : ∀ p e data q ok, I p → ProcessEvent env p e data = some (q, ok) → I q)
    (cond : Bool) (p q : LaAggPort) (rvNil ok : Bool) (e : RxmEvent) (hp : I p)
    (h : continueWith env cond p rvNil e = some (q, ok)) : I q := by
  unfold continueWith at h
  split at h
  · exact hI p e none q ok hp h
  · simp only [Option.some.injEq, Prod.mk.injEq] at h
    rw [← h.1]
    exact hp

theorem rxmEventsCase_preserves (env : Env) (I : LaAggPort → Prop)
    (hI : ∀ p e data q ok, I p → ProcessEvent env p e data = some (q, ok) → I q)
    (p q : LaAggPort) (e : RxmEvent) (hp : I p) (h : rxmEventsCase env p e = some q) : I q := by
  unfold rxmEventsCase at h
  simp only [Option.bind_eq_bind, Option.bind_eq_some, Option.pure_def] at h
  obtain ⟨⟨p1, rv1⟩, h1, h⟩ := h
  have i1 : I p1 := hI p e none p1 rv1 hp h1
  simp only [] at h
  split at h
  · simp only [Option.bind_eq_some] at h
    obtain ⟨⟨p2, rv2⟩, h2, h⟩ := h
    have i2 : I p2 := continueWith_preserves env I hI _ p1 p2 _ rv2 _ i1 h2
    simp only [] at h
    split at h
    · simp only [Option.bind_eq_some] at h
      obtain ⟨⟨p3, rv3⟩, h3, h⟩ := h
      have i3 : I p3 := continueWith_preserves env I hI _ p2 p3 _ rv3 _ i2 h3
      simp only [Option.bind_eq_some] at h
      obtain ⟨⟨p4, rv4⟩, h4, h⟩ := h
      have i4 : I p4 := continueWith_preserves env I hI _ p3 p4 _ rv4 _ i3 h4
      simp only [Option.some.injEq] at h
      rw [← h]
      exact i4
    · simp only [Option.some.injEq] at h
      rw [← h]
      exact i2
  · simp only [Option.some.injEq] at h
    rw [← h]
    exact i1

theorem rxmStep_preserves (env : Env) (I : LaAggPort → Prop)
    (hI : ∀ p e data q ok, I p → ProcessEvent env p e data = some (q, ok) → I q)
    (hpkt : ∀ p, I p → I { p with LacpInPkts := p.LacpInPkts + 1 })
    (hmoved : ∀ p, I p → I { p with portMoved := true })
    (p q : LaAggPort) (i : RxmInput) (hp : I p) (h : rxmStep env p i = some q) : I q := by
  cases i with
  | event e => exact rxmEventsCase_preserves env I hI p q e hp h
  | timer =>
    simp only [rxmStep, currentWhileTimerCase] at h
    split at h
    · simp at h
    · rename_i r ok hr
      simp only [Option.some.injEq] at h
      rw [← h]
      exact hI p _ none r ok hp hr
  | pkt pdu =>
    simp only [rxmStep, rxmPktRxCase] at h
    have h1 := hpkt p hp
    split at h
    · split at h
      · simp at h
      · rename_i r ok hr
        simp only [Option.some.injEq] at h
        rw [← h]
        exact hI _ _ none r ok (hmoved _ h1) hr
    · split at h
      · simp at h
      · rename_i r ok hr
        simp only [Option.some.injEq] at h
        rw [← h]
        exact hI _ _ _ r ok h1 hr

theorem rxmRun_preserves (env : Env) (I : LaAggPort → Prop)
    (hI : ∀ p e data q ok, I p → ProcessEvent env p e data = some (q, ok) → I q)
    (hpkt : ∀ p, I p → I { p with LacpInPkts := p.LacpInPkts + 1 })
    (hmoved : ∀ p, I p → I { p with portMoved := true })
    (inputs : List RxmInput) (p q : LaAggPort) (hp : I p) (h : rxmRun env p inputs = some q) :
    I q := by
  induction inputs generalizing p with
  | nil =>
    simp only [rxmRun, Option.some.injEq] at h
    rw [← h]
    exact hp
  | cons i rest ih =>
    simp only [rxmRun] at h
    split at h
    · simp at h
    · rename_i r hr
      exact ih r (rxmStep_preserves env I hI hpkt hmoved p r i hp hr) h

theorem testBit_clear_expired (s : Nat) : (LacpStateClear s LacpStateExpiredBit).testBit 7 = false := by
  rw [testBit_LacpStateClear, show LacpStateExpiredBit = 2 ^ 7 from rfl, testBit_bit]
  simp

theorem ProcessEvent_expiredBitInv (env : Env) (p : LaAggPort) (e : RxmEvent) (data : Option LACP)
    (q : LaAggPort) (ok : Bool) (hp : expiredBitInv p)
    (h : ProcessEvent env p e data = some (q, ok)) : expiredBitInv q := by
  cases hf : LacpRxMachineFSMBuild.find p.RxMachineFsm.state e with
  | none =>
    rw [ProcessEvent_miss env p e data hf] at h
    simp only [Option.some.injEq, Prod.mk.injEq] at h
    rw [← h.1]
    exact hp
  | some cb =>
    obtain ⟨-, r, s, hr, hq⟩ := ProcessEvent_hit env p q e data ok cb hf h
    subst hq
    intro hbit
    simp only [] at hbit ⊢
    cases cb
    · obtain ⟨-, -, ha, -⟩ := LacpRxMachineInitialize_eq p r s hr
      rw [ha] at hbit
      simp [testBit_clear_expired] at hbit
    · rw [RxmCallback.run, LacpRxMachinePortDisabled_eq] at hr
      simp only [Option.some.injEq, Prod.mk.injEq] at hr
      exact Or.inr hr.2.symm
    · exact Or.inl (LacpRxMachineExpired_eq p r s hr).1
    · obtain ⟨-, -, ha, -⟩ := LacpRxMachineLacpDisabled_eq p r s hr
      rw [ha] at hbit
      simp [testBit_clear_expired] at hbit
    · obtain ⟨-, -, ha, -⟩ := LacpRxMachineDefaulted_eq env p r s hr
      rw [ha] at hbit
      simp [testBit_clear_expired] at hbit
    · obtain ⟨pdu, -, -, -, ha, -⟩ := LacpRxMachineCurrent_eq env p r data s hr
      rw [ha] at hbit
      simp [testBit_clear_expired] at hbit

theorem expiredPort_eq :
    ProcessEvent sampleEnv portDisabledPort LacpRxmEventPortEnabledAndLacpEnabled none =
      some (expiredPort, true) := by
  decide

/-! ## Agreement of Partner Oper with Partner Admin -/

theorem testBit_or_eq_false (a b i : Nat) (h : (a ||| b).testBit i = false) :
    a.testBit i = false ∧ b.testBit i = false := by
  rw [Nat.testBit_or] at h
  cases ha : a.testBit i <;> cases hb : b.testBit i <;> simp_all

theorem agreeOutside_set_left (mask bits : Nat) (a b : LacpPortInfo)
    (h : agreeOutside mask a b) :
    agreeOutside (mask ||| bits) { a with state := LacpStateSet a.state bits } b := by
  obtain ⟨h1, h2, h3, h4, h5⟩ := h
  refine ⟨h1, h2, h3, h4, ?_⟩
  intro i hi hm
  obtain ⟨hm1, hm2⟩ := testBit_or_eq_false _ _ _ hm
  simp only [testBit_LacpStateSet, hi, hm2, decide_True, Bool.true_and, Bool.or_false]
  exact h5 i hi hm1

theorem agreeOutside_clear_left (mask bits : Nat) (a b : LacpPortInfo)
    (h : agreeOutside mask a b) :
    agreeOutside (mask ||| bits) { a with state := LacpStateClear a.state bits } b := by
  obtain ⟨h1, h2, h3, h4, h5⟩ := h
  refine ⟨h1, h2, h3, h4, ?_⟩
  intro i hi hm
  obtain ⟨hm1, hm2⟩ := testBit_or_eq_false _ _ _ hm
  simp only [testBit_LacpStateClear, hi, hm2, decide_True, Bool.true_and, Bool.not_false,
    Bool.and_true]
  exact h5 i hi hm1

theorem agreeOutside_set_right (mask bits : Nat) (a b : LacpPortInfo)
    (h : agreeOutside mask a b) :
    agreeOutside (mask ||| bits) a { b with state := LacpStateSet b.state bits } := by
  obtain ⟨h1, h2, h3, h4, h5⟩ := h
  refine ⟨h1, h2, h3, h4, ?_⟩
  intro i hi hm
  obtain ⟨hm1, hm2⟩ := testBit_or_eq_false _ _ _ hm
  simp only [testBit_LacpStateSet, hi, hm2, decide_True, Bool.true_and, Bool.or_false]
  exact h5 i hi hm1

theorem agreeOutside_refl (a : LacpPortInfo) : agreeOutside 0 a a :=
  ⟨rfl, rfl, rfl, rfl, fun _ _ _ => rfl⟩

theorem agreeOutside_congr (m1 m2 : Nat) (a b : LacpPortInfo)
    (hm : ∀ i, i < 8 → m1.testBit i = m2.testBit i) (h : agreeOutside m1 a b) :
    agreeOutside m2 a b := by
  obtain ⟨h1, h2, h3, h4, h5⟩ := h
  exact ⟨h1, h2, h3, h4, fun i hi hmi => h5 i hi (by rw [hm i hi]; exact hmi)⟩

theorem NewLaAggPort_portId (env : Env) (config : LaAggConfig) :
    (NewLaAggPort env config).portId = config.Id % 65536 := by
  have h0 : ((config.Prio % 65536) <<< 16) % 65536 = 0 := by
    rw [Nat.shiftLeft_eq]
    norm_num
  simp only [NewLaAggPort, h0, Nat.or_zero, Nat.mod_mod]

theorem recordDefault_of_mux (p : LaAggPort) (mux : LacpMuxMachine)
    (hmux : p.MuxMachineFsm = some mux) :
    recordDefault p = some
      { p with
        partnerOper :=
          { p.partnerAdmin with state := LacpStateSet p.partnerAdmin.state LacpStateSyncBit },
        actorOper :=
          { p.actorOper with state := LacpStateSet p.actorOper.state LacpStateDefaultedBit },
        MuxMachineFsm := some { mux with MuxmEvents := mux.MuxmEvents ++
          (if (mux.state = LacpMuxmStateAttached ∨ mux.state = LacpMuxmStateCAttached) ∧
              p.aggSelected = LacpAggSelected
            then [LacpMuxmEventSelectedEqualSelectedAndPartnerSync] else []) } } := by
  unfold recordDefault
  simp only [hmux, LacpCopyLacpPortInfo_eq]
  by_cases hc : (mux.state = LacpMuxmStateAttached ∨ mux.state = LacpMuxmStateCAttached) ∧
      p.aggSelected = LacpAggSelected
  · have hb : ((mux.state == LacpMuxmStateAttached || mux.state == LacpMuxmStateCAttached) &&
        p.aggSelected == LacpAggSelected) = true := by simpa using hc
    rw [if_pos hb, if_pos hc]
    simp only [sendMuxm, hmux]
  · have hb : ¬ ((mux.state == LacpMuxmStateAttached || mux.state == LacpMuxmStateCAttached) &&
        p.aggSelected == LacpAggSelected) = true := by simpa using hc
    rw [if_neg hb, if_neg hc, List.append_nil]

theorem ProcessEvent_of_run (env : Env) (p r : LaAggPort) (e : RxmEvent) (data : Option LACP)
    (cb : RxmCallback) (st : RxmState)
    (hf : LacpRxMachineFSMBuild.find p.RxMachineFsm.state e = some cb)
    (hr : cb.run env p data = some (r, st)) :
    ProcessEvent env p e data =
      some ({ r with RxMachineFsm := { r.RxMachineFsm with state := st } }, true) := by
  unfold ProcessEvent
  rw [hf]
  simp only [hr]

theorem LacpRxMachineExpired_some (p : LaAggPort) :
    LacpRxMachineExpired p =
      some ({ p with
        partnerOper :=
          { p.partnerOper with state := (LacpStateSet
            (LacpStateClear p.partnerOper.state LacpStateSyncBit) LacpStateTimeoutBit) },
        actorOper := { p.actorOper with state := LacpStateSet p.actorOper.state LacpStateExpiredBit },
        RxMachineFsm :=
          { p.RxMachineFsm with
            currentWhileTimerTimeout := LacpShortTimeoutTime, currentWhileTimerRunning := true } },
        LacpRxmStateExpired) := rfl

theorem testBit_defaulted_after_clear_expired (s : Nat) :
    (LacpStateClear (LacpStateSet s LacpStateDefaultedBit) LacpStateExpiredBit).testBit 6 = true := by
  rw [testBit_LacpStateClear, testBit_LacpStateSet, show LacpStateExpiredBit = 2 ^ 7 from rfl,
    show LacpStateDefaultedBit = 2 ^ 6 from rfl, testBit_bit, testBit_bit]
  simp

/-- The timer expiry in Expired on a port whose Mux machine is present: the RXM enters
Defaulted, Partner Oper is the former Partner Admin with Sync set and Partner Admin
gets the bits of `LacpStateAggregatibleUp`. -/
theorem timer_expiry_in_expired (env : Env) (p : LaAggPort)
    (hstate : p.RxMachineFsm.state = LacpRxmStateExpired)
    (hmux : p.MuxMachineFsm.isSome = true) :
    ∃ q, currentWhileTimerCase env p = some q ∧
      q.RxMachineFsm.state = LacpRxmStateDefaulted ∧
      q.partnerOper =
        { p.partnerAdmin with state := LacpStateSet p.partnerAdmin.state LacpStateSyncBit } ∧
      q.partnerAdmin =
        { p.partnerAdmin with state := LacpStateSet p.partnerAdmin.state env.LacpStateAggregatibleUp } ∧
      q.actorOper.state.testBit 7 = false ∧
      q.actorOper.state.testBit 6 = true := by
  have hf : LacpRxMachineFSMBuild.find p.RxMachineFsm.state LacpRxmEventCurrentWhileTimerExpired =
      some .Defaulted := by
    rw [hstate]; decide
  have hs := LacpRxMachineDefaulted_isSome env p hmux
  cases hr : LacpRxMachineDefaulted env p with
  | none => simp [hr] at hs
  | some rs =>
    obtain ⟨r, st⟩ := rs
    obtain ⟨es, e1, e2, e3, -⟩ := LacpRxMachineDefaulted_eq env p r st hr
    refine ⟨{ r with RxMachineFsm := { r.RxMachineFsm with state := st } }, ?_, es, e1, e3, ?_, ?_⟩
    · unfold currentWhileTimerCase
      rw [ProcessEvent_of_run env p r _ none .Defaulted st hf hr]
    · simp only [e2]
      exact testBit_clear_expired _
    · simp only [e2]
      exact testBit_defaulted_after_clear_expired _

/-- Whatever the value of `LacpStateAggregatibleUp`, unless its low byte is exactly the
Sync bit, the timer expiry in Expired on `expiredPort` leaves Partner Oper different
from Partner Admin. -/
theorem defaulted_partner_oper_differs (env : Env) (hup : env.LacpStateAggregatibleUp % 256 ≠ 8) :
    ∃ q, currentWhileTimerCase env expiredPort = some q ∧ q.partnerOper ≠ q.partnerAdmin := by
  obtain ⟨q, hq, -, e1, e3, -, -⟩ := timer_expiry_in_expired env expiredPort rfl rfl
  refine ⟨q, hq, ?_⟩
  rw [e1, e3]
  intro h
  have hst := congrArg LacpPortInfo.state h
  simp only [LacpStateSet] at hst
  apply hup
  have h0 : expiredPort.partnerAdmin.state = 0 := rfl
  rw [h0] at hst
  simpa using hst.symm

/-! ## The Actor parameters -/

theorem agreeOutside_state (mask : Nat) (a : LacpPortInfo) (s : Nat)
    (h : ∀ i, i < 8 → mask.testBit i = false → s.testBit i = a.state.testBit i) :
    agreeOutside mask { a with state := s } a :=
  ⟨rfl, rfl, rfl, rfl, h⟩

theorem actorUntouched_of_state (p q : LaAggPort) (s : Nat) (ha : q.actorAdmin = p.actorAdmin)
    (ho : q.actorOper = { p.actorOper with state := s })
    (h : ∀ i, i < 8 → LacpStateDefaultedBit.testBit i = false →
      LacpStateExpiredBit.testBit i = false → s.testBit i = p.actorOper.state.testBit i) :
    actorUntouched p q := by
  refine ⟨ha, ?_⟩
  rw [ho]
  apply agreeOutside_state
  intro i hi hm
  obtain ⟨hD, hE⟩ := testBit_or_eq_false _ _ _ hm
  exact h i hi hD hE

theorem RxmCallback.run_actorUntouched (env : Env) (cb : RxmCallback) (p q : LaAggPort)
    (data : Option LACP) (s : RxmState) (h : cb.run env p data = some (q, s)) :
    actorUntouched p q := by
  cases cb
  · obtain ⟨-, -, e2, -, e4, -⟩ := LacpRxMachineInitialize_eq p q s h
    apply actorUntouched_of_state p q _ e4 e2
    intro i hi hD hE
    simp [testBit_LacpStateClear, testBit_LacpStateSet, hi, hD, hE]
  · rw [RxmCallback.run, LacpRxMachinePortDisabled_eq] at h
    simp only [Option.some.injEq, Prod.mk.injEq] at h
    rw [← h.1]
    exact ⟨rfl, rfl, rfl, rfl, rfl, fun _ _ _ => rfl⟩
  · obtain ⟨-, -, e2, -, e4, -⟩ := LacpRxMachineExpired_eq p q s h
    apply actorUntouched_of_state p q _ e4 e2
    intro i hi hD hE
    simp [testBit_LacpStateSet, hi, hE]
  · obtain ⟨-, -, e2, -, e4, -⟩ := LacpRxMachineLacpDisabled_eq p q s h
    apply actorUntouched_of_state p q _ e4 e2
    intro i hi hD hE
    simp [testBit_LacpStateClear, testBit_LacpStateSet, hi, hD, hE]
  · obtain ⟨-, -, e2, -, e4, -⟩ := LacpRxMachineDefaulted_eq env p q s h
    apply actorUntouched_of_state p q _ e4 e2
    intro i hi hD hE
    simp [testBit_LacpStateClear, testBit_LacpStateSet, hi, hD, hE]
  · obtain ⟨pdu, -, -, -, e2, -, e4, -⟩ := LacpRxMachineCurrent_eq env p q data s h
    apply actorUntouched_of_state p q _ e4 e2
    intro i hi hD hE
    simp [testBit_LacpStateClear, hi, hD, hE]

/-! ## Invariants of the CurrentWhileTimer interval -/

theorem find_defaulted_from (s : RxmState) (e : RxmEvent)
    (h : LacpRxMachineFSMBuild.find s e = some .Defaulted) : s = LacpRxmStateExpired := by
  revert h
  cases s <;> cases e <;> decide

theorem find_current_from (s : RxmState) (e : RxmEvent)
    (h : LacpRxMachineFSMBuild.find s e = some .Current) :
    s = LacpRxmStateExpired ∨ s = LacpRxmStateDefaulted ∨ s = LacpRxmStateCurrent := by
  revert h
  cases s <;> cases e <;> decide

theorem ProcessEvent_expiredTimeoutInv (env : Env) (p : LaAggPort) (e : RxmEvent)
    (data : Option LACP) (q : LaAggPort) (ok : Bool) (hp : expiredTimeoutInv p)
    (h : ProcessEvent env p e data = some (q, ok)) : expiredTimeoutInv q := by
  cases hf : LacpRxMachineFSMBuild.find p.RxMachineFsm.state e with
  | none =>
    rw [ProcessEvent_miss env p e data hf] at h
    simp only [Option.some.injEq, Prod.mk.injEq] at h
    rw [← h.1]
    exact hp
  | some cb =>
    obtain ⟨-, r, s, hr, hq⟩ := ProcessEvent_hit env p q e data ok cb hf h
    subst hq
    intro hbit
    simp only [] at hbit ⊢
    cases cb
    · obtain ⟨-, -, ha, -⟩ := LacpRxMachineInitialize_eq p r s hr
      rw [ha] at hbit
      simp [testBit_clear_expired] at hbit
    · rw [RxmCallback.run, LacpRxMachinePortDisabled_eq] at hr
      simp only [Option.some.injEq, Prod.mk.injEq] at hr
      obtain ⟨hr1, -⟩ := hr
      subst hr1
      obtain ⟨h1, h2⟩ := hp hbit
      refine ⟨?_, h2⟩
      simp only [testBit_LacpStateClear, show LacpStateSyncBit = 2 ^ 3 from rfl, testBit_bit]
      simpa using h1
    · rw [RxmCallback.run, LacpRxMachineExpired_some] at hr
      simp only [Option.some.injEq, Prod.mk.injEq] at hr
      obtain ⟨hr1, -⟩ := hr
      subst hr1
      refine ⟨?_, rfl⟩
      simp only [testBit_LacpStateSet, show LacpStateTimeoutBit = 2 ^ 1 from rfl, testBit_bit]
      simp
    · obtain ⟨-, -, ha, -⟩ := LacpRxMachineLacpDisabled_eq p r s hr
      rw [ha] at hbit
      simp [testBit_clear_expired] at hbit
    · obtain ⟨-, -, ha, -⟩ := LacpRxMachineDefaulted_eq env p r s hr
      rw [ha] at hbit
      simp [testBit_clear_expired] at hbit
    · obtain ⟨pdu, -, -, -, ha, -⟩ := LacpRxMachineCurrent_eq env p r data s hr
      rw [ha] at hbit
      simp [testBit_clear_expired] at hbit

theorem revalidatedTimeout_matches (t : Nat) (b : Bool)
    (ht : t = LacpShortTimeoutTime ∨ t = LacpLongTimeoutTime) :
    (b = true → revalidatedTimeout t b = LacpShortTimeoutTime) ∧
    (b = false → revalidatedTimeout t b = LacpLongTimeoutTime) := by
  rcases ht with ht | ht <;> subst ht <;> cases b <;> decide

theorem ProcessEvent_currentTimerInv (env : Env) (p : LaAggPort) (e : RxmEvent)
    (data : Option LACP) (q : LaAggPort) (ok : Bool) (hp : currentTimerInv p)
    (h : ProcessEvent env p e data = some (q, ok)) : currentTimerInv q := by
  cases hf : LacpRxMachineFSMBuild.find p.RxMachineFsm.state e with
  | none =>
    rw [ProcessEvent_miss env p e data hf] at h
    simp only [Option.some.injEq, Prod.mk.injEq] at h
    rw [← h.1]
    exact hp
  | some cb =>
    obtain ⟨-, r, s, hr, hq⟩ := ProcessEvent_hit env p q e data ok cb hf h
    subst hq
    have hs := RxmCallback.run_returns env cb p r data s hr
    cases cb
    · simp [currentTimerInv, hs, RxmCallback.returns]
    · simp [currentTimerInv, hs, RxmCallback.returns]
    · rw [RxmCallback.run, LacpRxMachineExpired_some] at hr
      simp only [Option.some.injEq, Prod.mk.injEq] at hr
      obtain ⟨hr1, -⟩ := hr
      subst hr1
      simp [currentTimerInv, hs, RxmCallback.returns]
    · simp [currentTimerInv, hs, RxmCallback.returns]
    · obtain ⟨-, -, -, -, -, e5⟩ := LacpRxMachineDefaulted_eq env p r s hr
      have hfrom := find_defaulted_from _ _ hf
      have ht := hp.1 (Or.inl hfrom)
      rw [← e5] at ht
      simp only [currentTimerInv, hs, RxmCallback.returns]
      refine ⟨fun _ => ht, fun hc => ?_⟩
      cases hc
    · obtain ⟨ht1, ht2⟩ := LacpRxMachineCurrent_timer env p r data s hr
      have hfrom := find_current_from _ _ hf
      have ht : p.RxMachineFsm.currentWhileTimerTimeout = LacpShortTimeoutTime ∨
          p.RxMachineFsm.currentWhileTimerTimeout = LacpLongTimeoutTime := by
        rcases hfrom with h1 | h1 | h1
        · exact hp.1 (Or.inl h1)
        · exact hp.1 (Or.inr h1)
        · obtain ⟨m1, m2⟩ := hp.2 h1
          cases hb : p.actorOper.state.testBit 1
          · exact Or.inr (m2 hb)
          · exact Or.inl (m1 hb)
      have hm := revalidatedTimeout_matches _ (p.actorOper.state.testBit 1) ht
      simp only [currentTimerInv, hs, RxmCallback.returns]
      refine ⟨fun hc => ?_, fun _ => ?_⟩
      · rcases hc with hc | hc <;> cases hc
      · simp only [timeoutMatchesActor, ht1, ht2]
        exact hm

/-! ## Entry actions on a port whose Mux machine is present -/

theorem sendMuxmIfPresent_of_mux (p : LaAggPort) (e : MuxmEvent) (mux : LacpMuxMachine)
    (hmux : p.MuxMachineFsm = some mux) :
    sendMuxmIfPresent p e =
      { p with MuxMachineFsm := some { mux with MuxmEvents := mux.MuxmEvents ++ [e] } } := by
  simp only [sendMuxmIfPresent, sendMuxm, hmux]

theorem LacpRxMachineInitialize_of_mux (p : LaAggPort) (mux : LacpMuxMachine)
    (hmux : p.MuxMachineFsm = some mux) :
    LacpRxMachineInitialize p = some
      ({ p with
        partnerOper :=
          { p.partnerAdmin with state := LacpStateSet p.partnerAdmin.state LacpStateSyncBit },
        actorOper :=
          { p.actorOper with state := (LacpStateClear
            (LacpStateSet p.actorOper.state LacpStateDefaultedBit) LacpStateExpiredBit) },
        portMoved := false,
        MuxMachineFsm := some { mux with MuxmEvents :=
          (mux.MuxmEvents ++ [LacpMuxmEventSelectedEqualUnselected]) ++
          (if (mux.state = LacpMuxmStateAttached ∨ mux.state = LacpMuxmStateCAttached) ∧
              p.aggSelected = LacpAggSelected
            then [LacpMuxmEventSelectedEqualSelectedAndPartnerSync] else []) } },
      LacpRxmStateInitialize) := by
  dsimp only [LacpRxMachineInitialize]
  rw [sendMuxmIfPresent_of_mux { p with partnerOper :=
      { p.partnerOper with state := LacpStateSet p.partnerOper.state p.partnerAdmin.state } }
    _ mux hmux, recordDefault_of_mux _ _ rfl]
  rfl

theorem LacpRxMachineLacpDisabled_of_mux (p : LaAggPort) (mux : LacpMuxMachine)
    (hmux : p.MuxMachineFsm = some mux) :
    LacpRxMachineLacpDisabled p = some
      ({ CurrentWhileTimerStop p with
        partnerOper :=
          { p.partnerAdmin with state := (LacpStateClear
            (LacpStateSet p.partnerAdmin.state LacpStateSyncBit) LacpStateAggregationBit) },
        actorOper :=
          { p.actorOper with state := (LacpStateClear
            (LacpStateSet p.actorOper.state LacpStateDefaultedBit) LacpStateExpiredBit) },
        MuxMachineFsm := some { mux with MuxmEvents :=
          (mux.MuxmEvents ++ [LacpMuxmEventSelectedEqualUnselected]) ++
          (if (mux.state = LacpMuxmStateAttached ∨ mux.state = LacpMuxmStateCAttached) ∧
              p.aggSelected = LacpAggSelected
            then [LacpMuxmEventSelectedEqualSelectedAndPartnerSync] else []) } },
      LacpRxmStateLacpDisabled) := by
  dsimp only [LacpRxMachineLacpDisabled]
  rw [sendMuxmIfPresent_of_mux (CurrentWhileTimerStop p) _ mux hmux,
    recordDefault_of_mux _ _ rfl]
  rfl

theorem ProcessEvent_keeps_flags (env : Env) (p : LaAggPort) (e : RxmEvent) (cb : RxmCallback)
    (mux : LacpMuxMachine)
    (hf : LacpRxMachineFSMBuild.find p.RxMachineFsm.state e = some cb)
    (hd : cb ≠ .Defaulted) (hc : cb ≠ .Current) (hmux : p.MuxMachineFsm = some mux) :
    ∃ q, ProcessEvent env p e none = some (q, true) ∧
      q.RxMachineFsm.state = cb.returns ∧
      q.aggSelected = p.aggSelected ∧ q.lacpEnabled = p.lacpEnabled ∧
      q.portEnabled = p.portEnabled ∧ ∃ m, q.MuxMachineFsm = some m := by
  cases cb with
  | Initialize =>
    exact ⟨_, ProcessEvent_of_run env p _ e none _ _ hf (LacpRxMachineInitialize_of_mux p mux hmux),
      rfl, rfl, rfl, rfl, _, rfl⟩
  | PortDisabled =>
    exact ⟨_, ProcessEvent_of_run env p _ e none _ _ hf (LacpRxMachinePortDisabled_eq p),
      rfl, rfl, rfl, rfl, mux, hmux⟩
  | Expired =>
    exact ⟨_, ProcessEvent_of_run env p _ e none _ _ hf (LacpRxMachineExpired_some p),
      rfl, rfl, rfl, rfl, mux, hmux⟩
  | LacpDisabled =>
    exact ⟨_, ProcessEvent_of_run env p _ e none _ _ hf
      (LacpRxMachineLacpDisabled_of_mux p mux hmux), rfl, rfl, rfl, rfl, _, rfl⟩
  | Defaulted => exact absurd rfl hd
  | Current => exact absurd rfl hc

/-! ## What `InformMachinesOfStateChanges` posts -/

theorem informMuxm_events (env : Env) (p : LaAggPort) (mux : LacpMuxMachine)
    (hmux : p.MuxMachineFsm = some mux) :
    ∃ es, (informMuxm env p mux).MuxMachineFsm =
        some { mux with MuxmEvents := mux.MuxmEvents ++ es } ∧
      LacpMuxmEventNotPartnerCollecting ∉ es ∧
      es.count LacpMuxmEventNotPartnerSync =
        (if p.partnerOper.state.testBit 3 = false ∧
            (mux.state = LacpMuxmStateDistributing ∨ mux.state = LacpMuxmStateCollecting)
          then 1 else 0) := by
  unfold informMuxm
  simp only []
  generalize hp1 : (if (mux.state == LacpMuxmStateDetached ||
      mux.state == LacpMuxmStateCDetached) = true then checkConfigForSelection env p else p) = p1
  have hm1 : p1.MuxMachineFsm = some mux := by
    rw [← hp1]
    split <;> exact hmux
  have ho1 : p1.partnerOper = p.partnerOper := by
    rw [← hp1]
    split <;> rfl
  have hnil : p1.MuxMachineFsm = some { mux with MuxmEvents := mux.MuxmEvents ++ [] } := by
    rw [hm1, List.append_nil]
  have hsend : ∀ e, (sendMuxmIfPresent p1 e).MuxMachineFsm =
      some { mux with MuxmEvents := mux.MuxmEvents ++ [e] } := by
    intro e
    rw [sendMuxmIfPresent_of_mux p1 e mux hm1]
  simp only [isSet_sync, isSet_collecting, ho1]
  cases h3 : p.partnerOper.state.testBit 3
  · by_cases hdc : mux.state = LacpMuxmStateDistributing ∨ mux.state = LacpMuxmStateCollecting
    · have hb : (mux.state == LacpMuxmStateDistributing ||
          mux.state == LacpMuxmStateCollecting) = true := by simpa using hdc
      refine ⟨[LacpMuxmEventNotPartnerSync], ?_, by decide, by simp [hdc]⟩
      simp only [hb, Bool.false_eq_true, if_false, Bool.not_false, Bool.and_self, if_true]
      exact hsend _
    · simp only [not_or] at hdc
      have hd : (mux.state == LacpMuxmStateDistributing) = false := by simpa using hdc.1
      have hc : (mux.state == LacpMuxmStateCollecting) = false := by simpa using hdc.2
      refine ⟨[], ?_, by simp, by simp [hdc.1, hdc.2]⟩
      simp only [hd, hc, Bool.or_self, Bool.false_eq_true, if_false, Bool.and_false]
      exact hnil
  · simp only [if_true]
    split
    · split
      · exact ⟨_, hsend _, by decide, by simp⟩
      · split
        · exact ⟨_, hsend _, by decide, by simp⟩
        · exact ⟨[], hnil, by simp, by simp⟩
    · exact ⟨[], hnil, by simp, by simp⟩

theorem informMuxm_PtxMachineFsm (env : Env) (p : LaAggPort) (mux : LacpMuxMachine) :
    (informMuxm env p mux).PtxMachineFsm = p.PtxMachineFsm := by
  unfold informMuxm
  simp only []
  generalize hp1 : (if (mux.state == LacpMuxmStateDetached ||
      mux.state == LacpMuxmStateCDetached) = true then checkConfigForSelection env p else p) = p1
  have h1 : p1.PtxMachineFsm = p.PtxMachineFsm := by
    rw [← hp1]
    split <;> rfl
  repeat' split
  all_goals first
    | exact h1
    | exact (sendMuxmIfPresent_PtxMachineFsm _ _).trans h1

theorem informMuxm_TxMachineFsm (env : Env) (p : LaAggPort) (mux : LacpMuxMachine) :
    (informMuxm env p mux).TxMachineFsm = p.TxMachineFsm := by
  unfold informMuxm
  simp only []
  generalize hp1 : (if (mux.state == LacpMuxmStateDetached ||
      mux.state == LacpMuxmStateCDetached) = true then checkConfigForSelection env p else p) = p1
  have h1 : p1.TxMachineFsm = p.TxMachineFsm := by
    rw [← hp1]
    split <;> rfl
  repeat' split
  all_goals first
    | exact h1
    | exact (sendMuxmIfPresent_TxMachineFsm _ _).trans h1

theorem informPtxmTimeout_of_ptx (p : LaAggPort) (ptx : LacpPtxMachine)
    (hptx : p.PtxMachineFsm = some ptx) :
    informPtxmTimeout p = some { p with PtxMachineFsm := some { ptx with PtxmEvents :=
      ptx.PtxmEvents ++
      (if p.partnerOper.state.testBit 1 = true ∧
          ptx.PeriodicTxTimerInterval = LacpSlowPeriodicTime
        then [LacpPtxmEventPartnerOperStateTimeoutShort]
      else if p.partnerOper.state.testBit 1 = false ∧
          ptx.PeriodicTxTimerInterval = LacpFastPeriodicTime
        then [LacpPtxmEventPartnerOperStateTimeoutLong]
      else []) } } := by
  unfold informPtxmTimeout
  simp only [hptx, Option.bind_eq_bind, Option.some_bind, Option.pure_def, isSet_timeout,
    sendPtxm]
  by_cases h1 : p.partnerOper.state.testBit 1 = true ∧
      ptx.PeriodicTxTimerInterval = LacpSlowPeriodicTime
  · have hb : (p.partnerOper.state.testBit 1 &&
        ptx.PeriodicTxTimerInterval == LacpSlowPeriodicTime) = true := by simpa using h1
    rw [if_pos hb, if_pos h1]
  · have hb : ¬ (p.partnerOper.state.testBit 1 &&
        ptx.PeriodicTxTimerInterval == LacpSlowPeriodicTime) = true := by simpa using h1
    rw [if_neg hb, if_neg h1]
    by_cases h2 : p.partnerOper.state.testBit 1 = false ∧
        ptx.PeriodicTxTimerInterval = LacpFastPeriodicTime
    · have hb2 : (!p.partnerOper.state.testBit 1 &&
          ptx.PeriodicTxTimerInterval == LacpFastPeriodicTime) = true := by simpa using h2
      rw [if_pos hb2, if_pos h2]
    · have hb2 : ¬ (!p.partnerOper.state.testBit 1 &&
          ptx.PeriodicTxTimerInterval == LacpFastPeriodicTime) = true := by simpa using h2
      rw [if_neg hb2, if_neg h2, List.append_nil, ← hptx]

theorem informPtxmPassive_of_ptx (p : LaAggPort) (ptx : LacpPtxMachine)
    (hptx : p.PtxMachineFsm = some ptx) :
    informPtxmPassive p = some { p with PtxMachineFsm := some { ptx with PtxmEvents :=
      ptx.PtxmEvents ++
      (if p.actorOper.state.testBit 0 = false ∧ p.partnerOper.state.testBit 0 = false
        then [LacpPtxmEventActorPartnerOperActivityPassiveMode] else []) } } := by
  unfold informPtxmPassive
  simp only [hptx, Option.isSome_some, Bool.and_true, Option.pure_def, isSet_activity, sendPtxm]
  by_cases h1 : p.actorOper.state.testBit 0 = false ∧ p.partnerOper.state.testBit 0 = false
  · have hb : (!p.actorOper.state.testBit 0 && !p.partnerOper.state.testBit 0) = true := by
      simp [h1.1, h1.2, -Nat.testBit_zero]
    rw [if_pos hb, if_pos h1]
  · have hb : ¬ (!p.actorOper.state.testBit 0 && !p.partnerOper.state.testBit 0) = true := by
      simpa [-Nat.testBit_zero] using h1
    rw [if_neg hb, if_neg h1, List.append_nil, ← hptx]

theorem InformMachinesOfStateChanges_of_machines (env : Env) (p : LaAggPort)
    (mux : LacpMuxMachine) (ptx : LacpPtxMachine)
    (hmux : p.MuxMachineFsm = some mux) (hptx : p.PtxMachineFsm = some ptx) :
    InformMachinesOfStateChanges env p =
      some { informMuxm env p mux with PtxMachineFsm := some { ptx with PtxmEvents :=
        (ptx.PtxmEvents ++
          (if p.partnerOper.state.testBit 1 = true ∧
              ptx.PeriodicTxTimerInterval = LacpSlowPeriodicTime
            then [LacpPtxmEventPartnerOperStateTimeoutShort]
          else if p.partnerOper.state.testBit 1 = false ∧
              ptx.PeriodicTxTimerInterval = LacpFastPeriodicTime
            then [LacpPtxmEventPartnerOperStateTimeoutLong]
          else [])) ++
        (if p.actorOper.state.testBit 0 = false ∧ p.partnerOper.state.testBit 0 = false
          then [LacpPtxmEventActorPartnerOperActivityPassiveMode] else []) } } := by
  have hs := informMuxm_same env p mux
  have hp : (informMuxm env p mux).PtxMachineFsm = some ptx := by
    rw [informMuxm_PtxMachineFsm, hptx]
  unfold InformMachinesOfStateChanges
  simp only [hmux, Option.bind_eq_bind]
  rw [informPtxmTimeout_of_ptx _ ptx hp, Option.some_bind, informPtxmPassive_of_ptx _ _ rfl]
  simp only [hs.partnerOper, hs.actorOper]

theorem InformMachinesOfStateChanges_never_not_partner_collecting (env : Env) (p : LaAggPort)
    (mux : LacpMuxMachine) (ptx : LacpPtxMachine)
    (hmux : p.MuxMachineFsm = some mux) (hptx : p.PtxMachineFsm = some ptx) :
    ∃ q es, InformMachinesOfStateChanges env p = some q ∧
      q.MuxMachineFsm = some { mux with MuxmEvents := mux.MuxmEvents ++ es } ∧
      LacpMuxmEventNotPartnerCollecting ∉ es := by
  obtain ⟨es, h1, h2, -⟩ := informMuxm_events env p mux hmux
  exact ⟨_, es, InformMachinesOfStateChanges_of_machines env p mux ptx hmux hptx, h1, h2⟩

/-! ## The Current entry action on a port whose machines are present -/

theorem LacpRxMachineCurrent_split (env : Env) (p : LaAggPort) (pdu : LACP) :
    LacpRxMachineCurrent env p (some pdu) =
      (InformMachinesOfStateChanges env (currentBeforeInform env p pdu)).bind
        (fun p8 => some ({ p8 with partnerAdmin := { p8.partnerAdmin with state :=
          (LacpStateSet p8.partnerAdmin.state env.LacpStateAggregatibleDown) } },
          LacpRxmStateCurrent)) := rfl

theorem updateSelected_mux (p : LaAggPort) (pdu : LACP) (mux : LacpMuxMachine)
    (hmux : p.MuxMachineFsm = some mux) :
    (updateSelected p pdu).MuxMachineFsm = some { mux with MuxmEvents := mux.MuxmEvents ++
      (if LacpLacpPktPortInfoIsEqual pdu.Actor p.partnerOper LacpStateAggregationBit = false
        then [LacpMuxmEventSelectedEqualUnselected] else []) } := by
  unfold updateSelected
  cases h : LacpLacpPktPortInfoIsEqual pdu.Actor p.partnerOper LacpStateAggregationBit
  · simp only [Bool.not_false, if_true]
    rw [sendMuxmIfPresent_of_mux { p with aggSelected := LacpAggUnSelected } _ mux hmux]
  · simp [hmux]

theorem updateSelected_PtxMachineFsm (p : LaAggPort) (pdu : LACP) :
    (updateSelected p pdu).PtxMachineFsm = p.PtxMachineFsm := by
  unfold updateSelected
  split
  · rw [sendMuxmIfPresent_PtxMachineFsm]
  · rfl

theorem updateSelected_TxMachineFsm (p : LaAggPort) (pdu : LACP) :
    (updateSelected p pdu).TxMachineFsm = p.TxMachineFsm := by
  unfold updateSelected
  split
  · rw [sendMuxmIfPresent_TxMachineFsm]
  · rfl

theorem recordPDU_mux (p : LaAggPort) (pdu : LACP) (mux : LacpMuxMachine)
    (hmux : p.MuxMachineFsm = some mux) :
    (recordPDU p pdu).MuxMachineFsm = some { mux with MuxmEvents := mux.MuxmEvents ++
      (if recordPDUSync p pdu = false ∧ pdu.Actor.State.testBit 3 = true ∧
          inCollDist mux.state = true
        then [LacpMuxmEventNotPartnerSync] else []) } := by
  cases hsync : recordPDUSync p pdu
  · have hs : ¬ recordPDUSync p pdu = true := by rw [hsync]; exact Bool.false_ne_true
    unfold recordPDUSync at hs
    unfold recordPDU
    simp only [LacpCopyLacpPortInfoFromPkt, isSet_sync] at hs ⊢
    rw [if_neg hs]
    cases h3 : pdu.Actor.State.testBit 3
    · simp [hmux]
    · simp only [if_true, hmux]
      cases hcd : inCollDist mux.state
      · have hcd2 : ¬ (mux.state == LacpMuxmStateCollecting ||
            mux.state == LacpMuxmStateDistributing ||
            mux.state == LacpMuxStateCCollectingDistributing) = true := by
          unfold inCollDist at hcd
          rw [hcd]; exact Bool.false_ne_true
        rw [if_neg hcd2]
        simp
      · have hcd2 : (mux.state == LacpMuxmStateCollecting ||
            mux.state == LacpMuxmStateDistributing ||
            mux.state == LacpMuxStateCCollectingDistributing) = true := hcd
        rw [if_pos hcd2]
        simp [sendMuxmIfPresent, sendMuxm, hmux]
  · have hs : recordPDUSync p pdu = true := hsync
    unfold recordPDUSync at hs
    unfold recordPDU
    simp only [LacpCopyLacpPortInfoFromPkt, isSet_sync] at hs ⊢
    rw [if_pos hs]
    simp [hmux]

theorem recordPDU_partnerOper_sync_bit (p : LaAggPort) (pdu : LACP) :
    (recordPDU p pdu).partnerOper.state.testBit 3 = recordPDUSync p pdu := by
  rw [recordPDU_partnerOper_eq]
  cases hsync : recordPDUSync p pdu
  · simp only [Bool.false_eq_true, if_false, isSet_sync]
    cases h3 : pdu.Actor.State.testBit 3
    · simpa using h3
    · simp only [if_true, testBit_LacpStateClear, show LacpStateSyncBit = 2 ^ 3 from rfl,
        testBit_bit]
      simp
  · simp only [if_true, testBit_LacpStateSet, show LacpStateSyncBit = 2 ^ 3 from rfl, testBit_bit]
    simp

theorem sendNttIfNeeded_of_txm (p : LaAggPort) (ntt : Bool) (txm : LacpTxMachine)
    (htxm : p.TxMachineFsm = some txm) :
    sendNttIfNeeded p ntt = { p with TxMachineFsm := some { txm with TxmEvents :=
      txm.TxmEvents ++ (if ntt = true then [LacpTxmEventNtt] else []) } } := by
  unfold sendNttIfNeeded sendTxm
  cases ntt
  · simp [← htxm]
  · simp [htxm]

theorem sendNttIfNeeded_MuxMachineFsm (p : LaAggPort) (ntt : Bool) :
    (sendNttIfNeeded p ntt).MuxMachineFsm = p.MuxMachineFsm := by
  unfold sendNttIfNeeded sendTxm
  cases hm : p.TxMachineFsm with
  | none => simp
  | some txm => split <;> rfl

theorem sendNttIfNeeded_PtxMachineFsm (p : LaAggPort) (ntt : Bool) :
    (sendNttIfNeeded p ntt).PtxMachineFsm = p.PtxMachineFsm := by
  unfold sendNttIfNeeded sendTxm
  cases hm : p.TxMachineFsm with
  | none => simp
  | some txm => split <;> rfl

theorem sendNttIfNeeded_TxMachineFsm (p : LaAggPort) (ntt : Bool) :
    (sendNttIfNeeded p ntt).TxMachineFsm = p.TxMachineFsm.map (fun txm =>
      { txm with TxmEvents := txm.TxmEvents ++ (if ntt = true then [LacpTxmEventNtt] else []) }) := by
  cases hm : p.TxMachineFsm with
  | none =>
    unfold sendNttIfNeeded
    simp [hm]
  | some txm =>
    rw [sendNttIfNeeded_of_txm p ntt txm hm]
    rfl

theorem currentWhileTimerRevalidate_machines (p : LaAggPort) :
    (currentWhileTimerRevalidate p).MuxMachineFsm = p.MuxMachineFsm ∧
    (currentWhileTimerRevalidate p).PtxMachineFsm = p.PtxMachineFsm ∧
    (currentWhileTimerRevalidate p).TxMachineFsm = p.TxMachineFsm ∧
    (currentWhileTimerRevalidate p).partnerOper = p.partnerOper ∧
    (currentWhileTimerRevalidate p).actorOper = p.actorOper := by
  obtain ⟨t, ht⟩ := currentWhileTimerRevalidate_eq p
  rw [ht]
  exact ⟨rfl, rfl, rfl, rfl, rfl⟩

theorem currentBeforeInform_mux (env : Env) (p : LaAggPort) (pdu : LACP) (mux : LacpMuxMachine)
    (hmux : p.MuxMachineFsm = some mux) :
    (currentBeforeInform env p pdu).MuxMachineFsm = some { mux with MuxmEvents :=
      (mux.MuxmEvents ++
        (if LacpLacpPktPortInfoIsEqual pdu.Actor p.partnerOper LacpStateAggregationBit = false
          then [LacpMuxmEventSelectedEqualUnselected] else [])) ++
      (if recordPDUSync p pdu = false ∧ pdu.Actor.State.testBit 3 = true ∧
          inCollDist mux.state = true
        then [LacpMuxmEventNotPartnerSync] else []) } := by
  unfold currentBeforeInform
  simp only []
  rw [sendNttIfNeeded_MuxMachineFsm]
  have h1m := updateSelected_mux p pdu mux hmux
  have h1s := updateSelected_same p pdu
  generalize updateSelected p pdu = p1 at h1m h1s
  have h2m : (if env.LacpActorSystemLacpVersion ≥ 2 then recordVersionNumber p1 pdu
      else p1).MuxMachineFsm = p1.MuxMachineFsm := by
    split <;> rfl
  have h2a : (if env.LacpActorSystemLacpVersion ≥ 2 then recordVersionNumber p1 pdu
      else p1).actorOper = p.actorOper := by
    rw [← h1s.actorOper]
    split <;> rfl
  generalize (if env.LacpActorSystemLacpVersion ≥ 2 then recordVersionNumber p1 pdu else p1) = p2
    at h2m h2a
  show (currentWhileTimerRevalidate (recordPDU p2 pdu)).MuxMachineFsm = _
  rw [(currentWhileTimerRevalidate_machines _).1, recordPDU_mux p2 pdu _ (h2m.trans h1m),
    recordPDUSync_congr p p2 pdu h2a]

theorem currentBeforeInform_ptx (env : Env) (p : LaAggPort) (pdu : LACP) :
    (currentBeforeInform env p pdu).PtxMachineFsm = p.PtxMachineFsm := by
  unfold currentBeforeInform
  simp only []
  rw [sendNttIfNeeded_PtxMachineFsm]
  have h1 := updateSelected_PtxMachineFsm p pdu
  generalize updateSelected p pdu = p1 at h1
  have h2 : (if env.LacpActorSystemLacpVersion ≥ 2 then recordVersionNumber p1 pdu
      else p1).PtxMachineFsm = p.PtxMachineFsm := by
    rw [← h1]
    split <;> rfl
  generalize (if env.LacpActorSystemLacpVersion ≥ 2 then recordVersionNumber p1 pdu else p1) = p2
    at h2
  show (currentWhileTimerRevalidate (recordPDU p2 pdu)).PtxMachineFsm = _
  rw [(currentWhileTimerRevalidate_machines _).2.1, (recordPDU_same_except p2 pdu).2.2.2.2.1, h2]

theorem updateNTT_congr (p q : LaAggPort) (pdu : LACP) (h : q.actorOper = p.actorOper) :
    updateNTT q pdu = updateNTT p pdu := by
  unfold updateNTT
  rw [h]

theorem currentBeforeInform_TxMachineFsm (env : Env) (p : LaAggPort) (pdu : LACP) :
    (currentBeforeInform env p pdu).TxMachineFsm = p.TxMachineFsm.map (fun txm =>
      { txm with TxmEvents :=
        txm.TxmEvents ++ (if updateNTT p pdu = true then [LacpTxmEventNtt] else []) }) := by
  unfold currentBeforeInform
  simp only []
  have h1 := updateSelected_TxMachineFsm p pdu
  have hn := updateNTT_congr p _ pdu (updateSelected_same p pdu).actorOper
  rw [hn]
  generalize updateSelected p pdu = p1 at h1
  have h2 : (if env.LacpActorSystemLacpVersion ≥ 2 then recordVersionNumber p1 pdu
      else p1).TxMachineFsm = p.TxMachineFsm := by
    rw [← h1]
    split <;> rfl
  generalize (if env.LacpActorSystemLacpVersion ≥ 2 then recordVersionNumber p1 pdu else p1) = p2
    at h2
  have h6 : (currentWhileTimerRevalidate (recordPDU p2 pdu)).TxMachineFsm = p.TxMachineFsm := by
    rw [(currentWhileTimerRevalidate_machines _).2.2.1, (recordPDU_same_except p2 pdu).2.2.2.2.2, h2]
  rw [sendNttIfNeeded_TxMachineFsm]
  simp only [CurrentWhileTimerStart, h6]

theorem sendPtxm_TxMachineFsm (p q : LaAggPort) (e : PtxmEvent) (h : sendPtxm p e = some q) :
    q.TxMachineFsm = p.TxMachineFsm := by
  unfold sendPtxm at h
  cases hm : p.PtxMachineFsm with
  | none => simp [hm] at h
  | some ptx =>
    simp only [hm, Option.some.injEq] at h
    subst h
    rfl

theorem informPtxmTimeout_TxMachineFsm (p q : LaAggPort) (h : informPtxmTimeout p = some q) :
    q.TxMachineFsm = p.TxMachineFsm := by
  unfold informPtxmTimeout at h
  cases hm : p.PtxMachineFsm with
  | none => simp [hm] at h
  | some ptx =>
    simp only [hm, Option.bind_eq_bind, Option.some_bind, Option.pure_def] at h
    split at h
    · exact sendPtxm_TxMachineFsm p q _ h
    · split at h
      · exact sendPtxm_TxMachineFsm p q _ h
      · simp only [Option.some.injEq] at h
        rw [← h]

theorem informPtxmPassive_TxMachineFsm (p q : LaAggPort) (h : informPtxmPassive p = some q) :
    q.TxMachineFsm = p.TxMachineFsm := by
  unfold informPtxmPassive at h
  split at h
  · exact sendPtxm_TxMachineFsm p q _ h
  · simp only [Option.pure_def, Option.some.injEq] at h
    rw [← h]

theorem InformMachinesOfStateChanges_TxMachineFsm (env : Env) (p q : LaAggPort)
    (h : InformMachinesOfStateChanges env p = some q) : q.TxMachineFsm = p.TxMachineFsm := by
  unfold InformMachinesOfStateChanges at h
  cases hm : p.MuxMachineFsm with
  | none =>
    simp only [hm, Option.pure_def, Option.bind_eq_bind, Option.some_bind] at h
    exact informPtxmPassive_TxMachineFsm _ _ h
  | some mux =>
    simp only [hm, Option.bind_eq_bind, Option.bind_eq_some] at h
    obtain ⟨p1, h1, h2⟩ := h
    rw [informPtxmPassive_TxMachineFsm _ _ h2, informPtxmTimeout_TxMachineFsm _ _ h1,
      informMuxm_TxMachineFsm]

theorem LacpRxMachineCurrent_TxMachineFsm (env : Env) (p q : LaAggPort) (pdu : LACP)
    (s : RxmState) (h : LacpRxMachineCurrent env p (some pdu) = some (q, s)) :
    q.TxMachineFsm = p.TxMachineFsm.map (fun txm =>
      { txm with TxmEvents :=
        txm.TxmEvents ++ (if updateNTT p pdu = true then [LacpTxmEventNtt] else []) }) := by
  rw [LacpRxMachineCurrent_split] at h
  simp only [Option.bind_eq_some, Option.some.injEq, Prod.mk.injEq] at h
  obtain ⟨p8, h8, hq, -⟩ := h
  rw [← hq, ← currentBeforeInform_TxMachineFsm env p pdu,
    ← InformMachinesOfStateChanges_TxMachineFsm env _ _ h8]

theorem currentBeforeInform_blocks (env : Env) (p : LaAggPort) (pdu : LACP) :
    (currentBeforeInform env p pdu).partnerOper = (recordPDU p pdu).partnerOper ∧
    (currentBeforeInform env p pdu).actorOper =
      { p.actorOper with state := (LacpStateClear
        (LacpStateClear p.actorOper.state LacpStateDefaultedBit) LacpStateExpiredBit) } := by
  unfold currentBeforeInform
  simp only []
  have hN := sendNttIfNeeded_same
  have h1s := updateSelected_same p pdu
  generalize updateNTT (updateSelected p pdu) pdu = ntt
  generalize updateSelected p pdu = p1 at h1s
  have h2a : (if env.LacpActorSystemLacpVersion ≥ 2 then recordVersionNumber p1 pdu
      else p1).actorOper = p.actorOper := by
    rw [← h1s.actorOper]
    split <;> rfl
  generalize (if env.LacpActorSystemLacpVersion ≥ 2 then recordVersionNumber p1 pdu else p1) = p2
    at h2a
  obtain ⟨t, ht⟩ := currentWhileTimerRevalidate_eq (recordPDU p2 pdu)
  rw [ht]
  constructor
  · rw [(hN _ ntt).partnerOper]
    exact recordPDU_partnerOper_congr p p2 pdu h2a
  · have hr : (CurrentWhileTimerStart
        (CurrentWhileTimerTimeoutSet (recordPDU p2 pdu) t)).actorOper =
          { p.actorOper with state := LacpStateClear p.actorOper.state LacpStateDefaultedBit } := by
      show (recordPDU p2 pdu).actorOper = _
      rw [recordPDU_actorOper_eq, h2a]
    rw [(hN _ ntt).actorOper]
    simp only [hr]

theorem LacpRxMachineCurrent_of_machines (env : Env) (p : LaAggPort) (pdu : LACP)
    (mux : LacpMuxMachine) (ptx : LacpPtxMachine)
    (hmux : p.MuxMachineFsm = some mux) (hptx : p.PtxMachineFsm = some ptx) :
    ∃ q es, LacpRxMachineCurrent env p (some pdu) = some (q, LacpRxmStateCurrent) ∧
      q.partnerOper = (recordPDU p pdu).partnerOper ∧
      q.actorOper =
        { p.actorOper with state := (LacpStateClear
          (LacpStateClear p.actorOper.state LacpStateDefaultedBit) LacpStateExpiredBit) } ∧
      q.TxMachineFsm = (currentBeforeInform env p pdu).TxMachineFsm ∧
      q.MuxMachineFsm = some { mux with MuxmEvents :=
        ((mux.MuxmEvents ++
          (if LacpLacpPktPortInfoIsEqual pdu.Actor p.partnerOper LacpStateAggregationBit = false
            then [LacpMuxmEventSelectedEqualUnselected] else [])) ++
          (if recordPDUSync p pdu = false ∧ pdu.Actor.State.testBit 3 = true ∧
              inCollDist mux.state = true
            then [LacpMuxmEventNotPartnerSync] else [])) ++ es } ∧
      LacpMuxmEventNotPartnerCollecting ∉ es ∧
      es.count LacpMuxmEventNotPartnerSync =
        (if recordPDUSync p pdu = false ∧
            (mux.state = LacpMuxmStateDistributing ∨ mux.state = LacpMuxmStateCollecting)
          then 1 else 0) := by
  have h7m := currentBeforeInform_mux env p pdu mux hmux
  have h7p : (currentBeforeInform env p pdu).PtxMachineFsm = some ptx := by
    rw [currentBeforeInform_ptx, hptx]
  obtain ⟨h7o, h7a⟩ := currentBeforeInform_blocks env p pdu
  have hI := InformMachinesOfStateChanges_of_machines env _ _ ptx h7m h7p
  obtain ⟨es, he1, he2, he3⟩ := informMuxm_events env _ _ h7m
  have hs := fun m => informMuxm_same env (currentBeforeInform env p pdu) m
  rw [LacpRxMachineCurrent_split, hI, Option.some_bind]
  exact ⟨_, es, rfl, (hs _).partnerOper.trans h7o, (hs _).actorOper.trans h7a,
    informMuxm_TxMachineFsm env _ _, he1, he2,
    by rw [he3, h7o, recordPDU_partnerOper_sync_bit]⟩

/-! ## Agreement of Partner Oper with Partner Admin while Defaulted is set -/

theorem agreeOutside_mono (m1 m2 : Nat) (a b : LacpPortInfo)
    (hm : ∀ i, i < 8 → m1.testBit i = true → m2.testBit i = true) (h : agreeOutside m1 a b) :
    agreeOutside m2 a b := by
  obtain ⟨h1, h2, h3, h4, h5⟩ := h
  refine ⟨h1, h2, h3, h4, fun i hi hmi => h5 i hi ?_⟩
  cases hb : m1.testBit i
  · rfl
  · rw [hm i hi hb] at hmi
    cases hmi

theorem agreeOutside_set_sync (a : LacpPortInfo) :
    agreeOutside LacpStateSyncBit
      { a with state := LacpStateSet a.state LacpStateSyncBit } a :=
  agreeOutside_congr _ _ _ _ (fun i _ => by simp)
    (agreeOutside_set_left 0 LacpStateSyncBit _ _ (agreeOutside_refl a))

theorem RxmCallback.run_defaultedAgreementInv (env : Env) (cb : RxmCallback) (p r : LaAggPort)
    (data : Option LACP) (s : RxmState) (hp : defaultedAgreementInv env p)
    (hr : cb.run env p data = some (r, s)) : defaultedAgreementInv env r := by
  intro hbit
  cases cb
  · obtain ⟨-, e1, -, e3, -⟩ := LacpRxMachineInitialize_eq p r s hr
    rw [e1, e3]
    refine agreeOutside_mono _ _ _ _ ?_ (agreeOutside_set_sync p.partnerAdmin)
    intro i _ h
    simp [Nat.testBit_or, h]
  · rw [RxmCallback.run, LacpRxMachinePortDisabled_eq] at hr
    simp only [Option.some.injEq, Prod.mk.injEq] at hr
    obtain ⟨hr1, -⟩ := hr
    subst hr1
    refine agreeOutside_mono _ _ _ _ ?_
      (agreeOutside_clear_left _ LacpStateSyncBit _ _ (hp hbit))
    intro i _ h
    simp only [Nat.testBit_or, Bool.or_eq_true] at h ⊢
    tauto
  · rw [RxmCallback.run, LacpRxMachineExpired_some] at hr
    simp only [Option.some.injEq, Prod.mk.injEq] at hr
    obtain ⟨hr1, -⟩ := hr
    subst hr1
    have hb : p.actorOper.state.testBit 6 = true := by
      simp only [testBit_LacpStateSet, show LacpStateExpiredBit = 2 ^ 7 from rfl,
        testBit_bit] at hbit
      simpa using hbit
    refine agreeOutside_mono _ _ _ _ ?_
      (agreeOutside_set_left _ LacpStateTimeoutBit _ _
        (agreeOutside_clear_left _ LacpStateSyncBit _ _ (hp hb)))
    intro i _ h
    simp only [Nat.testBit_or, Bool.or_eq_true] at h ⊢
    tauto
  · obtain ⟨-, e1, -, e3, -⟩ := LacpRxMachineLacpDisabled_eq p r s hr
    rw [e1, e3]
    refine agreeOutside_mono _ _ _ _ ?_
      (agreeOutside_clear_left _ LacpStateAggregationBit _ _
        (agreeOutside_set_sync p.partnerAdmin))
    intro i _ h
    simp only [Nat.testBit_or, Bool.or_eq_true] at h ⊢
    tauto
  · obtain ⟨-, e1, -, e3, -⟩ := LacpRxMachineDefaulted_eq env p r s hr
    rw [e1, e3]
    refine agreeOutside_mono _ _ _ _ ?_
      (agreeOutside_set_right _ env.LacpStateAggregatibleUp _ _
        (agreeOutside_set_sync p.partnerAdmin))
    intro i _ h
    simp only [Nat.testBit_or, Bool.or_eq_true] at h ⊢
    tauto
  · obtain ⟨pdu, -, -, -, ha, -⟩ := LacpRxMachineCurrent_eq env p r data s hr
    rw [ha] at hbit
    simp only [testBit_LacpStateClear, show LacpStateDefaultedBit = 2 ^ 6 from rfl,
      testBit_bit] at hbit
    simp at hbit

theorem ProcessEvent_defaultedAgreementInv (env : Env) (p : LaAggPort) (e : RxmEvent)
    (data : Option LACP) (q : LaAggPort) (ok : Bool) (hp : defaultedAgreementInv env p)
    (h : ProcessEvent env p e data = some (q, ok)) : defaultedAgreementInv env q := by
  cases hf : LacpRxMachineFSMBuild.find p.RxMachineFsm.state e with
  | none =>
    rw [ProcessEvent_miss env p e data hf] at h
    simp only [Option.some.injEq, Prod.mk.injEq] at h
    rw [← h.1]
    exact hp
  | some cb =>
    obtain ⟨-, r, s, hr, hq⟩ := ProcessEvent_hit env p q e data ok cb hf h
    subst hq
    exact RxmCallback.run_defaultedAgreementInv env cb p r data s hp hr

theorem find_from_none (e : RxmEvent) (cb : RxmCallback)
    (h : LacpRxMachineFSMBuild.find LacpRxmStateNone e = some cb) : cb = .Initialize := by
  revert h
  cases e <;> cases cb <;> decide

theorem ProcessEvent_begun_defaultedAgreementInv (env : Env) (p : LaAggPort) (e : RxmEvent)
    (data : Option LACP) (q : LaAggPort) (ok : Bool)
    (hp : p.RxMachineFsm.state = LacpRxmStateNone ∨ defaultedAgreementInv env p)
    (h : ProcessEvent env p e data = some (q, ok)) :
    q.RxMachineFsm.state = LacpRxmStateNone ∨ defaultedAgreementInv env q := by
  rcases hp with hp | hp
  · cases hf : LacpRxMachineFSMBuild.find p.RxMachineFsm.state e with
    | none =>
      rw [ProcessEvent_miss env p e data hf] at h
      simp only [Option.some.injEq, Prod.mk.injEq] at h
      rw [← h.1]
      exact Or.inl hp
    | some cb =>
      obtain ⟨-, r, s, hr, hq⟩ := ProcessEvent_hit env p q e data ok cb hf h
      subst hq
      rw [hp] at hf
      rw [find_from_none e cb hf] at hr
      refine Or.inr ?_
      intro _
      obtain ⟨-, e1, -, e3, -⟩ := LacpRxMachineInitialize_eq p r s hr
      show agreeOutside _ r.partnerOper r.partnerAdmin
      rw [e1, e3]
      refine agreeOutside_mono _ _ _ _ ?_ (agreeOutside_set_sync p.partnerAdmin)
      intro i _ h
      simp [Nat.testBit_or, h]
  · exact Or.inr (ProcessEvent_defaultedAgreementInv env p e data q ok hp h)

/-! ## Theorems -/

/-- C1: at `a = b = sampleInfo` and mask 0xFF the spec's comparison holds (the two
values are identical) and `LacpLacpPortInfoIsEqual` returns false, because octet 0 of
`a` is compared with octets 1 to 5 of `b`; at `a = b = zeroInfo` it returns false
because no bit of the mask is set in the state. -/
theorem LacpLacpPortInfoIsEqual_rejects_identical_infos :
    portInfoEqualUnderMask sampleInfo sampleInfo 0xFF = true ∧
    LacpLacpPortInfoIsEqual sampleInfo sampleInfo 0xFF = false ∧
    portInfoEqualUnderMask zeroInfo zeroInfo 0xFF = true ∧
    LacpLacpPortInfoIsEqual zeroInfo zeroInfo 0xFF = false := by
  decide

/-- C2: copying `sampleInfo` over `zeroInfo` yields `sampleInfo`, and comparing
`sampleInfo` with that copy under mask 0xFF returns false. -/
theorem copy_then_compare_returns_false :
    LacpCopyLacpPortInfo sampleInfo zeroInfo = sampleInfo ∧
    LacpLacpPortInfoIsEqual sampleInfo (LacpCopyLacpPortInfo sampleInfo zeroInfo) 0xFF = false := by
  decide

/-- C3: after `recordPDU` the Sync bit (bit 3) of Partner Oper is 1 exactly when
[(PDU.Partner matches Actor Oper on system priority, system id, key, port, port
priority and the Aggregation bit, and PDU.Actor has Sync) or (PDU.Actor has
Aggregation 0 and Sync 1)] and [PDU.Actor has Activity, or Actor Oper and PDU.Partner
both have Activity]; the other fields and the other seven state bits of Partner Oper
are those of PDU.Actor; and the Defaulted bit (bit 6) of Actor Oper is 0. -/
theorem recordPDU_partner_oper (p : LaAggPort) (pdu : LACP) :
    ((recordPDU p pdu).partnerOper.state.testBit 3 = true ↔
      (((pdu.Partner.SystemPriority = p.actorOper.system.systemPriority ∧
          pdu.Partner.SystemId = p.actorOper.system.systemId ∧
          pdu.Partner.Key = p.actorOper.key ∧
          pdu.Partner.Port = p.actorOper.port ∧
          pdu.Partner.PortPri = p.actorOper.port_pri ∧
          pdu.Partner.State.testBit 2 = p.actorOper.state.testBit 2) ∧
          pdu.Actor.State.testBit 3 = true) ∨
        (pdu.Actor.State.testBit 2 = false ∧ pdu.Actor.State.testBit 3 = true)) ∧
      (pdu.Actor.State.testBit 0 = true ∨
        (p.actorOper.state.testBit 0 = true ∧ pdu.Partner.State.testBit 0 = true))) ∧
    (recordPDU p pdu).partnerOper.system.systemPriority = pdu.Actor.SystemPriority ∧
    (recordPDU p pdu).partnerOper.system.systemId = pdu.Actor.SystemId ∧
    (recordPDU p pdu).partnerOper.key = pdu.Actor.Key ∧
    (recordPDU p pdu).partnerOper.port_pri = pdu.Actor.PortPri ∧
    (recordPDU p pdu).partnerOper.port = pdu.Actor.Port ∧
    (recordPDU p pdu).partnerOper.state.testBit 0 = pdu.Actor.State.testBit 0 ∧
    (recordPDU p pdu).partnerOper.state.testBit 1 = pdu.Actor.State.testBit 1 ∧
    (recordPDU p pdu).partnerOper.state.testBit 2 = pdu.Actor.State.testBit 2 ∧
    (recordPDU p pdu).partnerOper.state.testBit 4 = pdu.Actor.State.testBit 4 ∧
    (recordPDU p pdu).partnerOper.state.testBit 5 = pdu.Actor.State.testBit 5 ∧
    (recordPDU p pdu).partnerOper.state.testBit 6 = pdu.Actor.State.testBit 6 ∧
    (recordPDU p pdu).partnerOper.state.testBit 7 = pdu.Actor.State.testBit 7 ∧
    (recordPDU p pdu).actorOper.state.testBit 6 = false := by
  have h6 : LacpStateDefaultedBit.testBit 6 = true := by decide
  have h60 : LacpStateDefaultedBit.testBit 0 = false := by decide
  have h62 : LacpStateDefaultedBit.testBit 2 = false := by decide
  have hs : ∀ i, LacpStateSyncBit.testBit i = decide (3 = i) := fun i => testBit_bit 3 i
  have hsync : recordPDUSync p pdu = true ↔
      (((pdu.Partner.SystemPriority = p.actorOper.system.systemPriority ∧
          pdu.Partner.SystemId = p.actorOper.system.systemId ∧
          pdu.Partner.Key = p.actorOper.key ∧
          pdu.Partner.Port = p.actorOper.port ∧
          pdu.Partner.PortPri = p.actorOper.port_pri ∧
          pdu.Partner.State.testBit 2 = p.actorOper.state.testBit 2) ∧
          pdu.Actor.State.testBit 3 = true) ∨
        (pdu.Actor.State.testBit 2 = false ∧ pdu.Actor.State.testBit 3 = true)) ∧
      (pdu.Actor.State.testBit 0 = true ∨
        (p.actorOper.state.testBit 0 = true ∧ pdu.Partner.State.testBit 0 = true)) := by
    unfold recordPDUSync
    simp only [isSet_sync, isSet_aggregation, isSet_activity, LacpLacpPktPortInfoIsEqual,
      and_aggregation_beq, testBit_LacpStateClear, h60, h62]
    simp [-Nat.testBit_zero]
    tauto
  rw [recordPDU_partnerOper_eq, recordPDU_actorOper_eq, ← hsync]
  simp only [LacpCopyLacpPortInfoFromPkt, isSet_sync]
  cases hc : recordPDUSync p pdu <;> cases h3 : pdu.Actor.State.testBit 3 <;>
    simp [testBit_LacpStateSet, testBit_LacpStateClear, hs, h6, h3, -Nat.testBit_zero]

/-- C4: `updateNTT` returns true exactly when PDU.Partner and Actor Oper differ in the
Activity (bit 0), Aggregation (bit 2), Sync (bit 3) or Timeout (bit 1) state bit, or in
system priority, system id, key, port priority or port number. -/
theorem updateNTT_true_iff (p : LaAggPort) (pdu : LACP) :
    updateNTT p pdu = true ↔
      (pdu.Partner.State.testBit 0 ≠ p.actorOper.state.testBit 0 ∨
        pdu.Partner.State.testBit 2 ≠ p.actorOper.state.testBit 2 ∨
        pdu.Partner.State.testBit 3 ≠ p.actorOper.state.testBit 3 ∨
        pdu.Partner.State.testBit 1 ≠ p.actorOper.state.testBit 1 ∨
        pdu.Partner.SystemPriority ≠ p.actorOper.system.systemPriority ∨
        pdu.Partner.SystemId ≠ p.actorOper.system.systemId ∨
        pdu.Partner.Key ≠ p.actorOper.key ∨
        pdu.Partner.PortPri ≠ p.actorOper.port_pri ∨
        pdu.Partner.Port ≠ p.actorOper.port) := by
  unfold updateNTT
  simp only [LacpLacpPktPortInfoIsEqual, and_ntt_beq, isSet_timeout]
  cases h1 : pdu.Partner.State.testBit 1 <;> cases h1a : p.actorOper.state.testBit 1 <;>
    simp [-Nat.testBit_zero] <;> tauto

/-- C5 (claim as stated fails): the rule table has no rule for (Initialize, Begin), and
`ProcessEvent` with Begin on a port whose RXM is in Initialize is a rule miss that
leaves the port as it was. -/
theorem initialize_has_no_begin_rule :
    LacpRxMachineFSMBuild.find LacpRxmStateInitialize LacpRxmEventBegin = none ∧
    ProcessEvent sampleEnv
        { samplePort with RxMachineFsm :=
          { samplePort.RxMachineFsm with state := LacpRxmStateInitialize } }
        LacpRxmEventBegin none =
      some ({ samplePort with RxMachineFsm :=
          { samplePort.RxMachineFsm with state := LacpRxmStateInitialize } }, false) := by
  decide

/-- C5 (amended): for each of the states None, PortDisabled, Expired, LacpDisabled,
Defaulted and Current the rule table has a rule for Begin whose callback is
`LacpRxMachineInitialize`; on a port in such a state whose Mux machine is present,
`ProcessEvent` with Begin succeeds and leaves the RXM in Initialize. From Initialize
there is no Begin rule: the event is a rule miss and the port is unchanged. -/
theorem begin_rule_from_every_other_state (env : Env) (p : LaAggPort) (data : Option LACP)
    (hmux : p.MuxMachineFsm.isSome = true) :
    (p.RxMachineFsm.state ≠ LacpRxmStateInitialize →
      LacpRxMachineFSMBuild.find p.RxMachineFsm.state LacpRxmEventBegin = some .Initialize ∧
      ∃ q, ProcessEvent env p LacpRxmEventBegin data = some (q, true) ∧
        q.RxMachineFsm.state = LacpRxmStateInitialize) ∧
    (p.RxMachineFsm.state = LacpRxmStateInitialize →
      LacpRxMachineFSMBuild.find p.RxMachineFsm.state LacpRxmEventBegin = none ∧
      ProcessEvent env p LacpRxmEventBegin data = some (p, false)) := by
  constructor
  · intro hs
    have hf : LacpRxMachineFSMBuild.find p.RxMachineFsm.state LacpRxmEventBegin =
        some .Initialize := by
      revert hs
      cases p.RxMachineFsm.state <;> decide
    refine ⟨hf, ?_⟩
    have hr : (RxmCallback.run env .Initialize p data).isSome = true := by
      simp only [RxmCallback.run, LacpRxMachineInitialize, Option.bind_eq_bind, Option.pure_def]
      apply isSome_bind_some
      rw [recordDefault_isSome, sendMuxmIfPresent_isSome]
      exact hmux
    cases hc : RxmCallback.run env .Initialize p data with
    | none => simp [hc] at hr
    | some rs =>
      obtain ⟨r, s⟩ := rs
      refine ⟨{ r with RxMachineFsm := { r.RxMachineFsm with state := s } }, ?_, ?_⟩
      · unfold ProcessEvent
        rw [hf]
        simp only [hc]
      · exact RxmCallback.run_returns env .Initialize p r data s hc
  · intro hs
    have hf : LacpRxMachineFSMBuild.find p.RxMachineFsm.state LacpRxmEventBegin = none := by
      rw [hs]; decide
    exact ⟨hf, ProcessEvent_miss env p _ data hf⟩

/-- C5 (amended), at a concrete port: `samplePort`, whose RXM is in None, takes Begin to
Initialize. -/
theorem begin_rule_from_every_other_state_witness :
    samplePort.MuxMachineFsm.isSome = true ∧
    ∃ q, ProcessEvent sampleEnv samplePort LacpRxmEventBegin none = some (q, true) ∧
      q.RxMachineFsm.state = LacpRxmStateInitialize :=
  ⟨by decide,
    ((begin_rule_from_every_other_state sampleEnv samplePort none (by decide)).1 (by decide)).2⟩

/-- C6 (claim as stated fails): the rule table has no rule for
(None, NotPortEnabledAndNotPortMoved), and `ProcessEvent` with that event on a port
whose RXM is in None is a rule miss that leaves the port as it was. -/
theorem no_port_disabled_rule_in_none :
    LacpRxMachineFSMBuild.find LacpRxmStateNone LacpRxmEventNotPortEnabledAndNotPortMoved = none ∧
    ProcessEvent sampleEnv samplePort LacpRxmEventNotPortEnabledAndNotPortMoved none =
      some (samplePort, false) := by
  decide

/-- C6 (amended): for each of the states Initialize, Expired, LacpDisabled, Defaulted
and Current the rule table has a rule for NotPortEnabledAndNotPortMoved whose callback
is `LacpRxMachinePortDisabled`, and `ProcessEvent` with that event succeeds and leaves
the RXM in PortDisabled; from PortDisabled and from None there is no such rule: the
event is a rule miss and the port is unchanged. -/
theorem not_port_enabled_rule (env : Env) (p : LaAggPort) (data : Option LACP) :
    ((p.RxMachineFsm.state ≠ LacpRxmStatePortDisabled ∧ p.RxMachineFsm.state ≠ LacpRxmStateNone) →
      LacpRxMachineFSMBuild.find p.RxMachineFsm.state LacpRxmEventNotPortEnabledAndNotPortMoved =
        some .PortDisabled ∧
      ∃ q, ProcessEvent env p LacpRxmEventNotPortEnabledAndNotPortMoved data = some (q, true) ∧
        q.RxMachineFsm.state = LacpRxmStatePortDisabled) ∧
    ((p.RxMachineFsm.state = LacpRxmStatePortDisabled ∨ p.RxMachineFsm.state = LacpRxmStateNone) →
      LacpRxMachineFSMBuild.find p.RxMachineFsm.state LacpRxmEventNotPortEnabledAndNotPortMoved =
        none ∧
      ProcessEvent env p LacpRxmEventNotPortEnabledAndNotPortMoved data = some (p, false)) := by
  constructor
  · intro hs
    have hf : LacpRxMachineFSMBuild.find p.RxMachineFsm.state
        LacpRxmEventNotPortEnabledAndNotPortMoved = some .PortDisabled := by
      revert hs
      cases p.RxMachineFsm.state <;> decide
    have hp : ProcessEvent env p LacpRxmEventNotPortEnabledAndNotPortMoved data =
        some ({ p with
          partnerOper :=
            { p.partnerOper with state := LacpStateClear p.partnerOper.state LacpStateSyncBit },
          RxMachineFsm := { p.RxMachineFsm with state := LacpRxmStatePortDisabled } }, true) := by
      unfold ProcessEvent
      rw [hf]
      rfl
    exact ⟨hf, _, hp, rfl⟩
  · intro hs
    have hf : LacpRxMachineFSMBuild.find p.RxMachineFsm.state
        LacpRxmEventNotPortEnabledAndNotPortMoved = none := by
      rcases hs with hs | hs <;> rw [hs] <;> decide
    exact ⟨hf, ProcessEvent_miss env p _ data hf⟩

/-- C7: for every event other than Begin and NotPortEnabledAndNotPortMoved (that is
UnconditionalFallthrough, PortMoved, PortEnabledAndLacpEnabled,
PortEnabledAndLacpDisabled, CurrentWhileTimerExpired, LacpEnabled, LacpPktRx and Kill)
and every port: when the spec table lists a target for (current state, event), the rule
table has a rule for the pair, whatever `ProcessEvent` returns has no error and the
listed target as current state, and `ProcessEvent` does return when the Mux and
Periodic Transmit machines are present and a packet event carries its PDU; when the
spec table lists nothing, there is no rule and `ProcessEvent` returns the port
unchanged with an error. -/
theorem rule_table_matches_spec (env : Env) (p : LaAggPort) (e : RxmEvent) (data : Option LACP)
    (he1 : e ≠ LacpRxmEventBegin) (he2 : e ≠ LacpRxmEventNotPortEnabledAndNotPortMoved) :
    (∀ t, specTransition p.RxMachineFsm.state e = some t →
      (LacpRxMachineFSMBuild.find p.RxMachineFsm.state e).isSome = true ∧
      (∀ q ok, ProcessEvent env p e data = some (q, ok) → ok = true ∧ q.RxMachineFsm.state = t) ∧
      (p.MuxMachineFsm.isSome = true → p.PtxMachineFsm.isSome = true →
        (e = LacpRxmEventLacpPktRx → data.isSome = true) →
        ∃ q, ProcessEvent env p e data = some (q, true) ∧ q.RxMachineFsm.state = t)) ∧
    (specTransition p.RxMachineFsm.state e = none →
      LacpRxMachineFSMBuild.find p.RxMachineFsm.state e = none ∧
      ProcessEvent env p e data = some (p, false)) := by
  have hm := find_matches_specTransition p.RxMachineFsm.state e he1 he2
  constructor
  · intro t ht
    rw [ht] at hm
    cases hf : LacpRxMachineFSMBuild.find p.RxMachineFsm.state e with
    | none => simp [hf] at hm
    | some cb =>
      simp only [hf, Option.map_some', Option.some.injEq] at hm
      refine ⟨rfl, ?_, ?_⟩
      · intro q ok h
        rw [← hm]
        exact ProcessEvent_hit_state env p q e data ok cb hf h
      · intro hmux hptx hdata
        rw [← hm]
        apply ProcessEvent_hit_total env p e data cb hf hmux hptx
        intro hcb
        apply hdata
        subst hcb
        revert hf
        generalize p.RxMachineFsm.state = s
        cases s <;> cases e <;> decide
  · intro hn
    rw [hn] at hm
    have hf : LacpRxMachineFSMBuild.find p.RxMachineFsm.state e = none := by
      cases hf : LacpRxMachineFSMBuild.find p.RxMachineFsm.state e with
      | none => rfl
      | some cb => simp [hf] at hm
    exact ⟨hf, ProcessEvent_miss env p e data hf⟩

/-- C8 (claim as stated fails): from `samplePort`, a Begin event leaves the RXM in
PortDisabled with the Expired bit (bit 7) of Actor Oper 0; the events
PortEnabledAndLacpEnabled and then NotPortEnabledAndNotPortMoved leave the RXM in
PortDisabled with the Expired bit 1. -/
theorem expired_bit_set_in_port_disabled :
    (rxmRun sampleEnv samplePort [.event LacpRxmEventBegin]).map
        (fun p => (p.RxMachineFsm.state, p.actorOper.state.testBit 7)) =
      some (LacpRxmStatePortDisabled, false) ∧
    (rxmRun sampleEnv samplePort
        [.event LacpRxmEventBegin, .event LacpRxmEventPortEnabledAndLacpEnabled,
          .event LacpRxmEventNotPortEnabledAndNotPortMoved]).map
        (fun p => (p.RxMachineFsm.state, p.actorOper.state.testBit 7)) =
      some (LacpRxmStatePortDisabled, true) := by
  decide

/-- C8 (amended): in every state the loop of the Receive machine reaches from a port
whose RXM is in PortDisabled (whatever its Expired bit, so also from a freshly begun
port), by any sequence of queue events, timer expiries and received PDUs, if the
Expired bit of Actor Oper is 1 then the RXM is in Expired or in PortDisabled. -/
theorem expired_bit_implies_expired_or_port_disabled (env : Env) (p q : LaAggPort)
    (inputs : List RxmInput) (hstate : p.RxMachineFsm.state = LacpRxmStatePortDisabled)
    (hrun : rxmRun env p inputs = some q) :
    q.actorOper.state.testBit 7 = true →
      q.RxMachineFsm.state = LacpRxmStateExpired ∨
        q.RxMachineFsm.state = LacpRxmStatePortDisabled := by
  have hp : expiredBitInv p := fun _ => Or.inr hstate
  exact rxmRun_preserves env expiredBitInv (ProcessEvent_expiredBitInv env) (fun _ h => h)
    (fun _ h => h) inputs p q hp hrun

/-- C8 (amended), at a concrete run: from `portDisabledPort`, the events
PortEnabledAndLacpEnabled and NotPortEnabledAndNotPortMoved are handled and the
resulting port satisfies the implication. -/
theorem expired_bit_implies_expired_or_port_disabled_witness :
    portDisabledPort.RxMachineFsm.state = LacpRxmStatePortDisabled ∧
    ∃ q, rxmRun sampleEnv portDisabledPort
        [.event LacpRxmEventPortEnabledAndLacpEnabled,
          .event LacpRxmEventNotPortEnabledAndNotPortMoved] = some q ∧
      (q.actorOper.state.testBit 7 = true →
        q.RxMachineFsm.state = LacpRxmStateExpired ∨
          q.RxMachineFsm.state = LacpRxmStatePortDisabled) := by
  refine ⟨by decide, ?_⟩
  obtain ⟨q, hq⟩ := Option.isSome_iff_exists.mp
    (by decide : (rxmRun sampleEnv portDisabledPort
        [.event LacpRxmEventPortEnabledAndLacpEnabled,
          .event LacpRxmEventNotPortEnabledAndNotPortMoved]).isSome = true)
  exact ⟨q, hq, expired_bit_implies_expired_or_port_disabled sampleEnv _ q _ (by decide) hq⟩

/-- C6 (amended), at a concrete port: `expiredPort`, whose RXM is in Expired, takes
NotPortEnabledAndNotPortMoved to PortDisabled. -/
theorem not_port_enabled_rule_witness :
    (expiredPort.RxMachineFsm.state ≠ LacpRxmStatePortDisabled ∧
      expiredPort.RxMachineFsm.state ≠ LacpRxmStateNone) ∧
    ∃ q, ProcessEvent sampleEnv expiredPort LacpRxmEventNotPortEnabledAndNotPortMoved none =
        some (q, true) ∧ q.RxMachineFsm.state = LacpRxmStatePortDisabled :=
  ⟨by decide, ((not_port_enabled_rule sampleEnv expiredPort none).1 (by decide)).2⟩

/-- C7, at a concrete port and event: `expiredPort` takes LacpPktRx carrying
`partnerPdu` to Current. -/
theorem rule_table_matches_spec_witness :
    LacpRxmEventLacpPktRx ≠ LacpRxmEventBegin ∧
    LacpRxmEventLacpPktRx ≠ LacpRxmEventNotPortEnabledAndNotPortMoved ∧
    ∃ q, ProcessEvent sampleEnv expiredPort LacpRxmEventLacpPktRx (some partnerPdu) =
        some (q, true) ∧ q.RxMachineFsm.state = LacpRxmStateCurrent :=
  ⟨by decide, by decide,
    ((rule_table_matches_spec sampleEnv expiredPort LacpRxmEventLacpPktRx (some partnerPdu)
      (by decide) (by decide)).1 LacpRxmStateCurrent (by decide)).2.2
      (by decide) (by decide) (fun _ => rfl)⟩

/-- C9: (1) from `samplePort`, whose `portEnabled` is false, a Begin event leaves the
RXM in PortDisabled with the Sync bit (bit 3) of Partner Oper 0; the PDU `zeroPdu`,
whose Actor block equals Partner Oper in port, system id and system priority, then
leaves the RXM resting in Initialize with the Sync bit 1 and `portEnabled` still false.
(2) The same after a session: Begin, port enabled with LACP enabled, `partnerPdu`
received (RXM in Current), port disabled (RXM in PortDisabled, Sync 0), then
`partnerPdu` received again: RXM in Initialize, Sync 1, `portEnabled` false. -/
theorem port_moved_leaves_sync_set_while_port_disabled :
    (rxmRun sampleEnv samplePort [.event LacpRxmEventBegin]).map
        (fun p => (p.portEnabled, p.RxMachineFsm.state, p.partnerOper.state.testBit 3)) =
      some (false, LacpRxmStatePortDisabled, false) ∧
    (rxmRun sampleEnv samplePort [.event LacpRxmEventBegin, .pkt zeroPdu]).map
        (fun p => (p.portEnabled, p.RxMachineFsm.state, p.partnerOper.state.testBit 3)) =
      some (false, LacpRxmStateInitialize, true) ∧
    (((rxmRun sampleEnv { samplePort with lacpEnabled := true }
          [.event LacpRxmEventBegin, .event LacpRxmEventPortEnabledAndLacpEnabled]).bind
        (fun a => rxmRun sampleEnv { a with portEnabled := true } [.pkt partnerPdu])).map
        (fun p => p.RxMachineFsm.state)) =
      some LacpRxmStateCurrent ∧
    (((rxmRun sampleEnv { samplePort with lacpEnabled := true }
          [.event LacpRxmEventBegin, .event LacpRxmEventPortEnabledAndLacpEnabled]).bind
        (fun a => rxmRun sampleEnv { a with portEnabled := true }
          [.pkt partnerPdu, .event LacpRxmEventNotPortEnabledAndNotPortMoved])).map
        (fun p => (p.RxMachineFsm.state, p.partnerOper.state.testBit 3))) =
      some (LacpRxmStatePortDisabled, false) ∧
    ((((rxmRun sampleEnv { samplePort with lacpEnabled := true }
          [.event LacpRxmEventBegin, .event LacpRxmEventPortEnabledAndLacpEnabled]).bind
        (fun a => rxmRun sampleEnv { a with portEnabled := true }
          [.pkt partnerPdu, .event LacpRxmEventNotPortEnabledAndNotPortMoved])).bind
        (fun b => rxmRun sampleEnv { b with portEnabled := false } [.pkt partnerPdu])).map
        (fun p => (p.portEnabled, p.RxMachineFsm.state, p.partnerOper.state.testBit 3))) =
      some (false, LacpRxmStateInitialize, true) := by
  decide

/-- C10 (claim as stated fails): after a Begin event `samplePort` rests in PortDisabled
with Partner Oper equal to Partner Admin in every field and state bit; the Expired
entry action on that port then leaves Actor Oper Defaulted (bit 6) at 1 and sets the
Timeout bit (bit 1) of Partner Oper, which is 0 in Partner Admin. -/
theorem expired_entry_breaks_defaulted_agreement :
    (rxmRun sampleEnv samplePort [.event LacpRxmEventBegin]).map
        (fun p => (p.RxMachineFsm.state, decide (p.partnerOper = p.partnerAdmin))) =
      some (LacpRxmStatePortDisabled, true) ∧
    ((rxmRun sampleEnv samplePort [.event LacpRxmEventBegin]).bind LacpRxMachineExpired).map
        (fun r => (r.2, r.1.actorOper.state.testBit 6, r.1.partnerOper.state.testBit 1,
          r.1.partnerAdmin.state.testBit 1)) =
      some (LacpRxmStateExpired, true, true, false) := by
  decide

/-- C10 (amended): start from a port whose RXM has not begun (state None), or from a
port on which the implication holds: if the Defaulted bit (bit 6) of Actor Oper is 1
then Partner Oper equals Partner Admin in system, key, port priority, port number and
every state bit other than Sync, Timeout, Aggregation and the bits of
`LacpStateAggregatibleUp`. In every state the loop of the Receive machine reaches from
it by any sequence of queue events, timer expiries and received PDUs, the RXM is still
in None or the implication holds; and each of the six entry actions, run on a port on
which the implication holds, leaves a port on which it holds. -/
theorem defaulted_partner_oper_agreement (env : Env) (p : LaAggPort)
    (hp : p.RxMachineFsm.state = LacpRxmStateNone ∨ defaultedAgreementInv env p) :
    (∀ (inputs : List RxmInput) (q : LaAggPort), rxmRun env p inputs = some q →
      q.RxMachineFsm.state = LacpRxmStateNone ∨
      (q.actorOper.state.testBit 6 = true →
        agreeOutside
          (LacpStateSyncBit ||| LacpStateTimeoutBit ||| LacpStateAggregationBit |||
            env.LacpStateAggregatibleUp)
          q.partnerOper q.partnerAdmin)) ∧
    (∀ (cb : RxmCallback) (data : Option LACP) (r : LaAggPort) (s : RxmState),
      defaultedAgreementInv env p → cb.run env p data = some (r, s) →
      (r.actorOper.state.testBit 6 = true →
        agreeOutside
          (LacpStateSyncBit ||| LacpStateTimeoutBit ||| LacpStateAggregationBit |||
            env.LacpStateAggregatibleUp)
          r.partnerOper r.partnerAdmin)) :=
  ⟨fun inputs q hrun =>
      rxmRun_preserves env
        (fun q => q.RxMachineFsm.state = LacpRxmStateNone ∨ defaultedAgreementInv env q)
        (ProcessEvent_begun_defaultedAgreementInv env)
        (fun _ h => h) (fun _ h => h) inputs p q hp hrun,
    fun cb data r s hinv hr => RxmCallback.run_defaultedAgreementInv env cb p r data s hinv hr⟩

/-- C10 (amended), at a concrete run: `samplePort`, whose RXM is in None, made selected
and enabled with LACP enabled, handles Begin and rests in Expired with the Defaulted
bit at 1 and the Timeout bit of Partner Oper set; Partner Oper agrees with Partner
Admin outside the four exceptions. -/
theorem defaulted_partner_oper_agreement_witness :
    ∃ q, rxmRun sampleEnv { enabledPort with aggSelected := LacpAggSelected }
        [.event LacpRxmEventBegin] = some q ∧
      q.RxMachineFsm.state = LacpRxmStateExpired ∧
      q.actorOper.state.testBit 6 = true ∧
      q.partnerOper.state.testBit 1 = true ∧
      agreeOutside
        (LacpStateSyncBit ||| LacpStateTimeoutBit ||| LacpStateAggregationBit |||
          sampleEnv.LacpStateAggregatibleUp)
        q.partnerOper q.partnerAdmin := by
  obtain ⟨q, hq⟩ := Option.isSome_iff_exists.mp
    (by decide : (rxmRun sampleEnv { enabledPort with aggSelected := LacpAggSelected }
      [.event LacpRxmEventBegin]).isSome = true)
  have hf : (rxmRun sampleEnv { enabledPort with aggSelected := LacpAggSelected }
      [.event LacpRxmEventBegin]).map
        (fun q => (q.RxMachineFsm.state, q.actorOper.state.testBit 6,
          q.partnerOper.state.testBit 1)) = some (LacpRxmStateExpired, true, true) := by
    decide
  rw [hq] at hf
  simp only [Option.map_some', Option.some.injEq, Prod.mk.injEq] at hf
  obtain ⟨h1, h2, h3⟩ := hf
  have h := (defaulted_partner_oper_agreement sampleEnv
    { enabledPort with aggSelected := LacpAggSelected } (Or.inl rfl)).1 _ q hq
  rcases h with h | h
  · rw [h1] at h
    cases h
  · exact ⟨q, hq, h1, h2, h3, h h2⟩

/-- C13: applying `recordPDU` twice with the same PDU leaves the same Partner Oper
block (its Sync bit included) and the same Actor Oper block as applying it once. -/
theorem recordPDU_twice (p : LaAggPort) (pdu : LACP) :
    (recordPDU (recordPDU p pdu) pdu).partnerOper = (recordPDU p pdu).partnerOper ∧
    (recordPDU (recordPDU p pdu) pdu).actorOper = (recordPDU p pdu).actorOper := by
  have hsync : recordPDUSync (recordPDU p pdu) pdu = recordPDUSync p pdu := by
    unfold recordPDUSync
    rw [recordPDU_actorOper_eq]
    simp only [LacpStateClear_idem]
  constructor
  · rw [recordPDU_partnerOper_eq, recordPDU_partnerOper_eq, hsync]
    rfl
  · rw [recordPDU_actorOper_eq, recordPDU_actorOper_eq]
    simp only [LacpStateClear_idem]

/-- C18: for port number 1, `NewLaAggPort` gives the port id 1 both for priority 0x80
and for priority 0x8000, where the concatenation of priority and number is 0x800001
and 0x80000001: the shift `config.Prio<<16` is a 16-bit shift of a `uint16` and
yields 0. -/
theorem NewLaAggPort_portId_ignores_priority :
    (NewLaAggPort sampleEnv { Id := 1, Prio := 0x80, Key := 1 }).portId = 1 ∧
    (NewLaAggPort sampleEnv { Id := 1, Prio := 0x8000, Key := 1 }).portId = 1 ∧
    portIdOfPriorityAndNumber 0x80 1 = 0x800001 ∧
    portIdOfPriorityAndNumber 0x8000 1 = 0x80000001 := by
  decide

/-- C19: `LacpCopyLacpPortInfo(from, to)` leaves `to` with the system priority, the six
system-id octets, the key, the port priority, the port number and the state of
`from`; `from` is only read. -/
theorem LacpCopyLacpPortInfo_copies_every_field (fromInfo toInfo : LacpPortInfo) :
    (LacpCopyLacpPortInfo fromInfo toInfo).system.systemPriority = fromInfo.system.systemPriority ∧
    (LacpCopyLacpPortInfo fromInfo toInfo).system.systemId.b0 = fromInfo.system.systemId.b0 ∧
    (LacpCopyLacpPortInfo fromInfo toInfo).system.systemId.b1 = fromInfo.system.systemId.b1 ∧
    (LacpCopyLacpPortInfo fromInfo toInfo).system.systemId.b2 = fromInfo.system.systemId.b2 ∧
    (LacpCopyLacpPortInfo fromInfo toInfo).system.systemId.b3 = fromInfo.system.systemId.b3 ∧
    (LacpCopyLacpPortInfo fromInfo toInfo).system.systemId.b4 = fromInfo.system.systemId.b4 ∧
    (LacpCopyLacpPortInfo fromInfo toInfo).system.systemId.b5 = fromInfo.system.systemId.b5 ∧
    (LacpCopyLacpPortInfo fromInfo toInfo).key = fromInfo.key ∧
    (LacpCopyLacpPortInfo fromInfo toInfo).port_pri = fromInfo.port_pri ∧
    (LacpCopyLacpPortInfo fromInfo toInfo).port = fromInfo.port ∧
    (LacpCopyLacpPortInfo fromInfo toInfo).state = fromInfo.state :=
  ⟨rfl, rfl, rfl, rfl, rfl, rfl, rfl, rfl, rfl, rfl, rfl⟩

/-- C15: on a port whose Mux machine is present, `recordDefault` completes; afterwards
Partner Oper equals Partner Admin in system, key, port priority, port number and every
state bit other than Sync, and its Sync bit (bit 3) is 1; Actor Oper equals its former
value in every field and every state bit other than Defaulted, and its Defaulted bit
(bit 6) is 1; Partner Admin is unchanged; and the Mux machine has received
`SelectedEqualSelectedAndPartnerSync` if it is in Attached or CAttached and
`agg_selected` is Selected, and nothing otherwise. -/
theorem recordDefault_effect (p : LaAggPort) (mux : LacpMuxMachine)
    (hmux : p.MuxMachineFsm = some mux) :
    ∃ q, recordDefault p = some q ∧
      agreeOutside LacpStateSyncBit q.partnerOper p.partnerAdmin ∧
      q.partnerOper.state.testBit 3 = true ∧
      agreeOutside LacpStateDefaultedBit q.actorOper p.actorOper ∧
      q.actorOper.state.testBit 6 = true ∧
      q.partnerAdmin = p.partnerAdmin ∧
      q.MuxMachineFsm = some { mux with MuxmEvents := mux.MuxmEvents ++
        (if (mux.state = LacpMuxmStateAttached ∨ mux.state = LacpMuxmStateCAttached) ∧
            p.aggSelected = LacpAggSelected
          then [LacpMuxmEventSelectedEqualSelectedAndPartnerSync] else []) } := by
  have hzero : ∀ m : Nat, ∀ i, i < 8 → (0 ||| m).testBit i = m.testBit i := by
    intro m i _
    simp
  refine ⟨_, recordDefault_of_mux p mux hmux, ?_, ?_, ?_, ?_, rfl, rfl⟩
  · exact agreeOutside_congr _ _ _ _ (hzero _)
      (agreeOutside_set_left 0 LacpStateSyncBit _ _ (agreeOutside_refl p.partnerAdmin))
  · simp only [testBit_LacpStateSet, show LacpStateSyncBit = 2 ^ 3 from rfl, testBit_bit]
    simp
  · exact agreeOutside_congr _ _ _ _ (hzero _)
      (agreeOutside_set_left 0 LacpStateDefaultedBit _ _ (agreeOutside_refl p.actorOper))
  · simp only [testBit_LacpStateSet, show LacpStateDefaultedBit = 2 ^ 6 from rfl, testBit_bit]
    simp

/-- C15, at a concrete port: `recordDefault` on `samplePort`, whose Mux machine is in
Detached. -/
theorem recordDefault_effect_witness :
    ∃ q, recordDefault samplePort = some q ∧
      agreeOutside LacpStateSyncBit q.partnerOper samplePort.partnerAdmin ∧
      q.partnerOper.state.testBit 3 = true ∧
      agreeOutside LacpStateDefaultedBit q.actorOper samplePort.actorOper ∧
      q.actorOper.state.testBit 6 = true ∧
      q.partnerAdmin = samplePort.partnerAdmin ∧
      q.MuxMachineFsm = some { state := LacpMuxmStateDetached, MuxmEvents := [] } := by
  have h := recordDefault_effect samplePort { state := LacpMuxmStateDetached, MuxmEvents := [] } rfl
  simpa using h

/-- C14: `syncedPort` has its Mux machine in C-CollectingDistributing and a Partner
Oper with Sync 1; it receives `zeroPdu`, whose Actor state carries Sync 0. The Sync
condition of `recordPDU` is false and Partner Oper Sync goes from 1 to 0, yet
`recordPDU` posts nothing to the Mux machine, and neither does the whole Current entry
action; the same holds on `collectingPort` (Mux machine in Collecting) for
`recordPDU`. With a PDU whose Actor state carries Sync 1 (and no Activity, so that the
condition is false as well) `recordPDU` does post `NotPartnerSync`. -/
theorem recordPDU_misses_partner_sync_loss :
    syncedPort.partnerOper.state.testBit 3 = true ∧
    zeroPdu.Actor.State.testBit 3 = false ∧
    recordPDUSync syncedPort zeroPdu = false ∧
    (recordPDU syncedPort zeroPdu).partnerOper.state.testBit 3 = false ∧
    (recordPDU syncedPort zeroPdu).MuxMachineFsm =
      some ⟨LacpMuxStateCCollectingDistributing, []⟩ ∧
    (LacpRxMachineCurrent sampleEnv syncedPort (some zeroPdu)).map
      (fun r => r.1.MuxMachineFsm) = some (some ⟨LacpMuxStateCCollectingDistributing, []⟩) ∧
    (recordPDUSync collectingPort zeroPdu = false ∧
      (recordPDU collectingPort zeroPdu).MuxMachineFsm =
        some ⟨LacpMuxmStateCollecting, []⟩) ∧
    (recordPDUSync syncedPort { zeroPdu with Actor := { zeroPdu.Actor with State := 0x08 } } =
        false ∧
      (recordPDU syncedPort
        { zeroPdu with Actor := { zeroPdu.Actor with State := 0x08 } }).MuxMachineFsm =
        some ⟨LacpMuxStateCCollectingDistributing, [LacpMuxmEventNotPartnerSync]⟩) := by
  decide

/-- C16 (claim as stated fails): after a Begin event `samplePort` rests in PortDisabled
and its Partner Oper has the port, system id and system priority of the Actor block of
`zeroPdu`; after the RXM has handled `zeroPdu` it is in Initialize and `portMoved` is
false. -/
theorem port_moved_is_false_after_the_pdu :
    (rxmRun sampleEnv samplePort [.event LacpRxmEventBegin]).map
        (fun p => (p.RxMachineFsm.state, CheckPortMoved p p.partnerOper zeroPdu.Actor)) =
      some (LacpRxmStatePortDisabled, true) ∧
    (rxmRun sampleEnv samplePort [.event LacpRxmEventBegin, .pkt zeroPdu]).map
        (fun p => (p.RxMachineFsm.state, p.portMoved)) =
      some (LacpRxmStateInitialize, false) := by
  decide

/-- C16 (amended): when an LACPDU arrives while the RXM is in PortDisabled, PDU.Actor's
port, system id and system priority equal Partner Oper's and the Mux machine is
present, the RXM handles the PDU and is then in Initialize, and `portMoved`, set to
true on detection, is false again: the Initialize entry action resets it. -/
theorem port_moved_pdu_handled (env : Env) (p : LaAggPort) (pdu : LACP)
    (hstate : p.RxMachineFsm.state = LacpRxmStatePortDisabled)
    (hport : p.partnerOper.port = pdu.Actor.Port)
    (hsys : p.partnerOper.system.systemId = pdu.Actor.SystemId)
    (hpri : p.partnerOper.system.systemPriority = pdu.Actor.SystemPriority)
    (hmux : p.MuxMachineFsm.isSome = true) :
    ∃ q, rxmPktRxCase env p pdu = some q ∧
      q.RxMachineFsm.state = LacpRxmStateInitialize ∧ q.portMoved = false := by
  have hmoved : CheckPortMoved { p with LacpInPkts := p.LacpInPkts + 1 }
      ({ p with LacpInPkts := p.LacpInPkts + 1 } : LaAggPort).partnerOper pdu.Actor = true := by
    simp [CheckPortMoved, hstate, hport, hsys, hpri]
  have hf : LacpRxMachineFSMBuild.find
      ({ p with LacpInPkts := p.LacpInPkts + 1, portMoved := true } : LaAggPort).RxMachineFsm.state
      LacpRxmEventPortMoved = some .Initialize := by
    simp only [hstate]
    decide
  have hs := LacpRxMachineInitialize_isSome
    { p with LacpInPkts := p.LacpInPkts + 1, portMoved := true } hmux
  cases hr : LacpRxMachineInitialize { p with LacpInPkts := p.LacpInPkts + 1, portMoved := true } with
  | none => simp [hr] at hs
  | some rs =>
    obtain ⟨r, st⟩ := rs
    obtain ⟨es, -, -, -, -, -, hm⟩ := LacpRxMachineInitialize_eq _ r st hr
    refine ⟨{ r with RxMachineFsm := { r.RxMachineFsm with state := st } }, ?_, es, hm⟩
    unfold rxmPktRxCase
    simp only [hmoved, if_true]
    unfold ProcessEvent
    rw [hf]
    simp only [RxmCallback.run, hr]

/-- C16 (amended), at a concrete port: `portDisabledPort` receives `zeroPdu`. -/
theorem port_moved_pdu_handled_witness :
    ∃ q, rxmPktRxCase sampleEnv portDisabledPort zeroPdu = some q ∧
      q.RxMachineFsm.state = LacpRxmStateInitialize ∧ q.portMoved = false :=
  port_moved_pdu_handled sampleEnv portDisabledPort zeroPdu (by decide) (by decide) (by decide)
    (by decide) (by decide)

/-- C17 (claim as stated fails): `samplePort` with LACP enabled is begun and enabled,
receives `partnerPdu` and is in Current; two timer expiries then take the RXM to
Expired and to Defaulted, where the state of Partner Oper is 0x4D and the state of
Partner Admin is 0x7D (for the `LacpStateAggregatibleUp` pattern of `sampleEnv`), so
the two blocks differ. -/
theorem partner_oper_differs_from_admin_after_two_expiries :
    (((rxmRun sampleEnv { samplePort with lacpEnabled := true }
          [.event LacpRxmEventBegin, .event LacpRxmEventPortEnabledAndLacpEnabled]).bind
        (fun a => rxmRun sampleEnv { a with portEnabled := true } [.pkt partnerPdu])).map
        (fun p => p.RxMachineFsm.state)) =
      some LacpRxmStateCurrent ∧
    (((rxmRun sampleEnv { samplePort with lacpEnabled := true }
          [.event LacpRxmEventBegin, .event LacpRxmEventPortEnabledAndLacpEnabled]).bind
        (fun a => rxmRun sampleEnv { a with portEnabled := true } [.pkt partnerPdu, .timer])).map
        (fun p => p.RxMachineFsm.state)) =
      some LacpRxmStateExpired ∧
    (((rxmRun sampleEnv { samplePort with lacpEnabled := true }
          [.event LacpRxmEventBegin, .event LacpRxmEventPortEnabledAndLacpEnabled]).bind
        (fun a => rxmRun sampleEnv { a with portEnabled := true }
          [.pkt partnerPdu, .timer, .timer])).map
        (fun p => (p.RxMachineFsm.state, decide (p.partnerOper = p.partnerAdmin),
          p.partnerOper.state, p.partnerAdmin.state))) =
      some (LacpRxmStateDefaulted, false, 0x4D, 0x7D) := by
  decide

/-- C17 (amended): from any port whose RXM is in Current and whose Mux machine is
present, two successive timer expiries are handled and take the RXM first to Expired
and then to Defaulted; in the resulting state Partner Oper is the Partner Admin block
as it was before the two expiries with its Sync bit set, Partner Admin is that block
with the bits of `LacpStateAggregatibleUp` set, and Actor Oper has Expired (bit 7) 0
and Defaulted (bit 6) 1. -/
theorem two_timer_expiries_from_current (env : Env) (p : LaAggPort)
    (hstate : p.RxMachineFsm.state = LacpRxmStateCurrent)
    (hmux : p.MuxMachineFsm.isSome = true) :
    ∃ q1 q2, currentWhileTimerCase env p = some q1 ∧
      q1.RxMachineFsm.state = LacpRxmStateExpired ∧
      currentWhileTimerCase env q1 = some q2 ∧
      q2.RxMachineFsm.state = LacpRxmStateDefaulted ∧
      q2.partnerOper =
        { p.partnerAdmin with state := LacpStateSet p.partnerAdmin.state LacpStateSyncBit } ∧
      q2.partnerAdmin =
        { p.partnerAdmin with state := LacpStateSet p.partnerAdmin.state env.LacpStateAggregatibleUp } ∧
      q2.actorOper.state.testBit 7 = false ∧
      q2.actorOper.state.testBit 6 = true := by
  have hf : LacpRxMachineFSMBuild.find p.RxMachineFsm.state LacpRxmEventCurrentWhileTimerExpired =
      some .Expired := by
    rw [hstate]; decide
  have h1 := ProcessEvent_of_run env p _ LacpRxmEventCurrentWhileTimerExpired none .Expired _ hf
    (LacpRxMachineExpired_some p)
  obtain ⟨q2, hq2, hs2, e1, e3, e7, e6⟩ := timer_expiry_in_expired env
    { p with
      partnerOper :=
        { p.partnerOper with state := (LacpStateSet
          (LacpStateClear p.partnerOper.state LacpStateSyncBit) LacpStateTimeoutBit) },
      actorOper := { p.actorOper with state := LacpStateSet p.actorOper.state LacpStateExpiredBit },
      RxMachineFsm :=
        { state := LacpRxmStateExpired,
          currentWhileTimerTimeout := LacpShortTimeoutTime, currentWhileTimerRunning := true } }
    rfl hmux
  refine ⟨_, q2, ?_, ?_, hq2, hs2, e1, e3, e7, e6⟩
  · unfold currentWhileTimerCase
    rw [h1]
  · rfl

/-- C17 (amended), at a concrete port: `samplePort` with its RXM in Current. -/
theorem two_timer_expiries_from_current_witness :
    ∃ q1 q2, currentWhileTimerCase sampleEnv
        { samplePort with RxMachineFsm := { samplePort.RxMachineFsm with state := LacpRxmStateCurrent } } =
        some q1 ∧
      q1.RxMachineFsm.state = LacpRxmStateExpired ∧
      currentWhileTimerCase sampleEnv q1 = some q2 ∧
      q2.RxMachineFsm.state = LacpRxmStateDefaulted ∧
      q2.partnerOper =
        { samplePort.partnerAdmin with state := LacpStateSet samplePort.partnerAdmin.state LacpStateSyncBit } ∧
      q2.partnerAdmin =
        { samplePort.partnerAdmin with
          state := LacpStateSet samplePort.partnerAdmin.state sampleEnv.LacpStateAggregatibleUp } ∧
      q2.actorOper.state.testBit 7 = false ∧
      q2.actorOper.state.testBit 6 = true :=
  two_timer_expiries_from_current sampleEnv
    { samplePort with RxMachineFsm := { samplePort.RxMachineFsm with state := LacpRxmStateCurrent } }
    rfl rfl

/-- C20: whatever an entry action of the Receive machine (Initialize, PortDisabled,
Expired, LacpDisabled, Defaulted, Current) returns, and whatever `recordPDU` and
`recordDefault` return, has the Actor Admin block of the port it was applied to, and an
Actor Oper block that agrees with the former one in system, key, port priority, port
number and in every state bit other than Defaulted and Expired (so in Activity,
Timeout, Aggregation, Sync, Collecting and Distributing). -/
theorem rxm_leaves_actor_parameters (env : Env) (cb : RxmCallback) (p q : LaAggPort)
    (data : Option LACP) (s : RxmState) (pdu : LACP)
    (h : cb.run env p data = some (q, s)) :
    actorUntouched p q ∧
    actorUntouched p (recordPDU p pdu) ∧
    (∀ r, recordDefault p = some r → actorUntouched p r) := by
  refine ⟨RxmCallback.run_actorUntouched env cb p q data s h, ?_, ?_⟩
  · apply actorUntouched_of_state p _ _ (recordPDU_same_except p pdu).2.1
      (recordPDU_actorOper_eq p pdu)
    intro i hi hD hE
    simp [testBit_LacpStateClear, hi, hD]
  · intro r hr
    obtain ⟨-, e2, -, e4, -⟩ := recordDefault_eq p r hr
    apply actorUntouched_of_state p r _ e4 e2
    intro i hi hD hE
    simp [testBit_LacpStateSet, hi, hD]

/-- C20, at a concrete port: the Expired entry action on `portDisabledPort` returns
`expiredPort`, and the three frame statements hold there. -/
theorem rxm_leaves_actor_parameters_witness :
    RxmCallback.run sampleEnv .Expired portDisabledPort none =
      some ({ expiredPort with RxMachineFsm :=
        { expiredPort.RxMachineFsm with state := LacpRxmStatePortDisabled } },
        LacpRxmStateExpired) ∧
    actorUntouched portDisabledPort { expiredPort with RxMachineFsm :=
        { expiredPort.RxMachineFsm with state := LacpRxmStatePortDisabled } } ∧
    actorUntouched portDisabledPort (recordPDU portDisabledPort partnerPdu) ∧
    (∀ r, recordDefault portDisabledPort = some r → actorUntouched portDisabledPort r) :=
  ⟨by decide,
    rxm_leaves_actor_parameters sampleEnv .Expired portDisabledPort _ none LacpRxmStateExpired
      partnerPdu (by decide)⟩

/-- C11: in every state the loop of the Receive machine reaches from a port whose
Actor Oper Expired bit (bit 7) is 0, by any sequence of queue events, timer expiries
and received PDUs, if the Expired bit is 1 then the Timeout bit (bit 1) of Partner
Oper is 1 and the CurrentWhileTimer is configured with the short timeout. -/
theorem expired_bit_implies_short_timeout (env : Env) (p q : LaAggPort)
    (inputs : List RxmInput) (hbit : p.actorOper.state.testBit 7 = false)
    (hrun : rxmRun env p inputs = some q) :
    q.actorOper.state.testBit 7 = true →
      q.partnerOper.state.testBit 1 = true ∧
        q.RxMachineFsm.currentWhileTimerTimeout = LacpShortTimeoutTime := by
  have hp : expiredTimeoutInv p := by
    intro h
    rw [hbit] at h
    cases h
  exact rxmRun_preserves env expiredTimeoutInv (ProcessEvent_expiredTimeoutInv env)
    (fun _ h => h) (fun _ h => h) inputs p q hp hrun

/-- C11, at a concrete run: `samplePort` is begun, enabled with LACP enabled (RXM in
Expired) and disabled again; the resulting port satisfies the implication. -/
theorem expired_bit_implies_short_timeout_witness :
    samplePort.actorOper.state.testBit 7 = false ∧
    ∃ q, rxmRun sampleEnv samplePort
        [.event LacpRxmEventBegin, .event LacpRxmEventPortEnabledAndLacpEnabled,
          .event LacpRxmEventNotPortEnabledAndNotPortMoved] = some q ∧
      (q.actorOper.state.testBit 7 = true →
        q.partnerOper.state.testBit 1 = true ∧
          q.RxMachineFsm.currentWhileTimerTimeout = LacpShortTimeoutTime) := by
  refine ⟨by decide, ?_⟩
  obtain ⟨q, hq⟩ := Option.isSome_iff_exists.mp
    (by decide : (rxmRun sampleEnv samplePort
        [.event LacpRxmEventBegin, .event LacpRxmEventPortEnabledAndLacpEnabled,
          .event LacpRxmEventNotPortEnabledAndNotPortMoved]).isSome = true)
  exact ⟨q, hq, expired_bit_implies_short_timeout sampleEnv _ q _ (by decide) hq⟩

/-- C12: in every state the loop of the Receive machine reaches from a port whose RXM
is in the initial None state (whatever its timer interval, so also unset), by any
sequence of queue events, timer expiries and received PDUs, if the RXM is in Current
then the CurrentWhileTimer is configured with the short timeout when the Timeout bit
(bit 1) of Actor Oper is 1 and with the long timeout when it is 0. -/
theorem current_timer_matches_actor_timeout (env : Env) (p q : LaAggPort)
    (inputs : List RxmInput) (hstate : p.RxMachineFsm.state = LacpRxmStateNone)
    (hrun : rxmRun env p inputs = some q) :
    q.RxMachineFsm.state = LacpRxmStateCurrent →
      (q.actorOper.state.testBit 1 = true →
        q.RxMachineFsm.currentWhileTimerTimeout = LacpShortTimeoutTime) ∧
      (q.actorOper.state.testBit 1 = false →
        q.RxMachineFsm.currentWhileTimerTimeout = LacpLongTimeoutTime) := by
  have hp : currentTimerInv p := by
    simp [currentTimerInv, hstate]
  have hq := rxmRun_preserves env currentTimerInv (ProcessEvent_currentTimerInv env)
    (fun _ h => h) (fun _ h => h) inputs p q hp hrun
  exact hq.2

/-- C12, at a concrete run: `samplePort` is begun, enabled with LACP enabled and
receives `partnerPdu`; the RXM is in Current and the timer interval is the long
timeout, the Timeout bit of Actor Oper being 0. -/
theorem current_timer_matches_actor_timeout_witness :
    samplePort.RxMachineFsm.state = LacpRxmStateNone ∧
    ∃ q, rxmRun sampleEnv samplePort
        [.event LacpRxmEventBegin, .event LacpRxmEventPortEnabledAndLacpEnabled,
          .pkt partnerPdu] = some q ∧
      q.RxMachineFsm.state = LacpRxmStateCurrent ∧
      q.actorOper.state.testBit 1 = false ∧
      q.RxMachineFsm.currentWhileTimerTimeout = LacpLongTimeoutTime := by
  refine ⟨by decide, ?_⟩
  have hs : (rxmRun sampleEnv samplePort
      [.event LacpRxmEventBegin, .event LacpRxmEventPortEnabledAndLacpEnabled,
        .pkt partnerPdu]).map (fun r => (r.RxMachineFsm.state, r.actorOper.state.testBit 1)) =
      some (LacpRxmStateCurrent, false) := by decide
  cases hq : rxmRun sampleEnv samplePort
      [.event LacpRxmEventBegin, .event LacpRxmEventPortEnabledAndLacpEnabled, .pkt partnerPdu] with
  | none => rw [hq] at hs; cases hs
  | some q =>
    rw [hq] at hs
    simp only [Option.map_some', Option.some.injEq, Prod.mk.injEq] at hs
    exact ⟨q, rfl, hs.1, hs.2,
      ((current_timer_matches_actor_timeout sampleEnv samplePort q _ (by decide) hq) hs.1).2 hs.2⟩

/-- C27: an LACPDU received while the RXM is in None, Initialize or LacpDisabled, or in
PortDisabled when `CheckPortMoved` is false, leaves the port as it was except for
`LacpInPkts`, which is one more: the RXM state, the four parameter blocks,
`portMoved`, `aggSelected` and the event channels of the other machines are
unchanged. -/
theorem pdu_ignored_outside_receiving_states (env : Env) (p : LaAggPort) (pdu : LACP)
    (h : p.RxMachineFsm.state = LacpRxmStateNone ∨
      p.RxMachineFsm.state = LacpRxmStateInitialize ∨
      p.RxMachineFsm.state = LacpRxmStateLacpDisabled ∨
      (p.RxMachineFsm.state = LacpRxmStatePortDisabled ∧
        CheckPortMoved p p.partnerOper pdu.Actor = false)) :
    rxmPktRxCase env p pdu = some { p with LacpInPkts := p.LacpInPkts + 1 } := by
  have hc : CheckPortMoved { p with LacpInPkts := p.LacpInPkts + 1 }
      ({ p with LacpInPkts := p.LacpInPkts + 1 } : LaAggPort).partnerOper pdu.Actor = false := by
    rcases h with h | h | h | ⟨-, h⟩
    · simp [CheckPortMoved, h]
    · simp [CheckPortMoved, h]
    · simp [CheckPortMoved, h]
    · exact h
  have hf : LacpRxMachineFSMBuild.find
      ({ p with LacpInPkts := p.LacpInPkts + 1 } : LaAggPort).RxMachineFsm.state
      LacpRxmEventLacpPktRx = none := by
    rcases h with h | h | h | ⟨h, -⟩ <;> simp only [h] <;> decide
  unfold rxmPktRxCase
  simp only [hc]
  rw [ProcessEvent_miss env _ _ _ hf]
  rfl

/-- C27, at a concrete port: `lacpDisabledPort` receives `partnerPdu`. -/
theorem pdu_ignored_outside_receiving_states_witness :
    rxmPktRxCase sampleEnv lacpDisabledPort partnerPdu =
      some { lacpDisabledPort with LacpInPkts := 1 } :=
  pdu_ignored_outside_receiving_states sampleEnv lacpDisabledPort partnerPdu
    (Or.inr (Or.inr (Or.inl rfl)))

/-- C30: on `lacpDisabledPort` (port enabled, RXM in LacpDisabled), `LaAggPortLacpEnabled`
sets `lacpEnabled` and the Activity bit (bit 0) of Actor Admin and submits
PortEnabledAndLacpEnabled to the Receive machine; the rule table has no rule for
(LacpDisabled, PortEnabledAndLacpEnabled), while it has the rule
(LacpDisabled, LacpEnabled) to PortDisabled; the submitted event, handled before or
after `lacpEnabled` is set, leaves the RXM in LacpDisabled. -/
theorem lacp_enabled_event_misses_in_lacp_disabled :
    (LaAggPortLacpEnabled lacpDisabledPort false).map
        (fun r => (r.1.lacpEnabled, r.1.actorAdmin.state.testBit 0, r.2)) =
      some (true, true, [LacpRxmEventPortEnabledAndLacpEnabled]) ∧
    LacpRxMachineFSMBuild.find LacpRxmStateLacpDisabled LacpRxmEventPortEnabledAndLacpEnabled =
      none ∧
    LacpRxMachineFSMBuild.find LacpRxmStateLacpDisabled LacpRxmEventLacpEnabled =
      some .PortDisabled ∧
    ((LaAggPortLacpEnabled lacpDisabledPort false).bind
        (fun r => rxmRun sampleEnv r.1 (r.2.map RxmInput.event))).map
        (fun q => q.RxMachineFsm.state) =
      some LacpRxmStateLacpDisabled ∧
    (rxmRun sampleEnv lacpDisabledPort
        [.event LacpRxmEventPortEnabledAndLacpEnabled]).map (fun q => q.RxMachineFsm.state) =
      some LacpRxmStateLacpDisabled := by
  decide

/-- C21 (claim as stated fails): on `samplePort`, whose Partner Admin state byte is 0,
the Initialize entry action leaves the Partner Oper state byte at 8 (Sync set), which
differs from the Partner Admin state byte 0. -/
theorem initialize_partner_oper_state_differs_from_admin :
    (LacpRxMachineInitialize samplePort).map
      (fun r => (r.1.partnerOper.state, r.1.partnerAdmin.state)) = some (8, 0) := by
  decide

/-- C21 (amended): on a port whose Mux machine is present, the Initialize entry action
completes and returns Initialize; afterwards Partner Oper equals Partner Admin in
system, key, port priority, port number and every state bit other than Sync, and its
Sync bit (bit 3) is 1; the Actor Oper Expired bit (bit 7) is 0; `portMoved` is false;
and the Mux machine has received `SelectedEqualUnselected`, followed by
`SelectedEqualSelectedAndPartnerSync` if it is in Attached or CAttached and
`agg_selected` is Selected. -/
theorem initialize_entry_effect (p : LaAggPort) (mux : LacpMuxMachine)
    (hmux : p.MuxMachineFsm = some mux) :
    ∃ q, LacpRxMachineInitialize p = some (q, LacpRxmStateInitialize) ∧
      agreeOutside LacpStateSyncBit q.partnerOper p.partnerAdmin ∧
      q.partnerOper.state.testBit 3 = true ∧
      q.partnerAdmin = p.partnerAdmin ∧
      q.actorOper.state.testBit 7 = false ∧
      q.portMoved = false ∧
      q.MuxMachineFsm = some { mux with MuxmEvents :=
        (mux.MuxmEvents ++ [LacpMuxmEventSelectedEqualUnselected]) ++
        (if (mux.state = LacpMuxmStateAttached ∨ mux.state = LacpMuxmStateCAttached) ∧
            p.aggSelected = LacpAggSelected
          then [LacpMuxmEventSelectedEqualSelectedAndPartnerSync] else []) } := by
  have hzero : ∀ m : Nat, ∀ i, i < 8 → (0 ||| m).testBit i = m.testBit i := by
    intro m i _
    simp
  refine ⟨_, LacpRxMachineInitialize_of_mux p mux hmux, ?_, ?_, rfl, ?_, rfl, rfl⟩
  · exact agreeOutside_congr _ _ _ _ (hzero _)
      (agreeOutside_set_left 0 LacpStateSyncBit _ _ (agreeOutside_refl p.partnerAdmin))
  · simp only [testBit_LacpStateSet, show LacpStateSyncBit = 2 ^ 3 from rfl, testBit_bit]
    simp
  · simp only [testBit_LacpStateClear, show LacpStateExpiredBit = 2 ^ 7 from rfl, testBit_bit]
    simp

/-- C21 (amended), at a concrete port: the Initialize entry action on `samplePort`,
whose Mux machine is in Detached. -/
theorem initialize_entry_effect_witness :
    ∃ q, LacpRxMachineInitialize samplePort = some (q, LacpRxmStateInitialize) ∧
      agreeOutside LacpStateSyncBit q.partnerOper samplePort.partnerAdmin ∧
      q.partnerOper.state.testBit 3 = true ∧
      q.partnerAdmin = samplePort.partnerAdmin ∧
      q.actorOper.state.testBit 7 = false ∧
      q.portMoved = false ∧
      q.MuxMachineFsm =
        some ⟨LacpMuxmStateDetached, [LacpMuxmEventSelectedEqualUnselected]⟩ := by
  have h := initialize_entry_effect samplePort
    { state := LacpMuxmStateDetached, MuxmEvents := [] } rfl
  simpa using h

/-- C23: on a port whose Mux machine is present, the LacpDisabled entry action
completes and returns LacpDisabled; afterwards Partner Oper equals Partner Admin in
system, key, port priority, port number and every state bit other than Sync and
Aggregation, its Sync bit (bit 3) is 1 and its Aggregation bit (bit 2) is 0; Actor
Oper has Defaulted (bit 6) 1 and Expired (bit 7) 0; and the Mux machine has received
`SelectedEqualUnselected` (followed by `SelectedEqualSelectedAndPartnerSync` if it is
in Attached or CAttached and `agg_selected` is Selected). -/
theorem lacp_disabled_entry_effect (p : LaAggPort) (mux : LacpMuxMachine)
    (hmux : p.MuxMachineFsm = some mux) :
    ∃ q, LacpRxMachineLacpDisabled p = some (q, LacpRxmStateLacpDisabled) ∧
      agreeOutside (LacpStateSyncBit ||| LacpStateAggregationBit) q.partnerOper p.partnerAdmin ∧
      q.partnerOper.state.testBit 3 = true ∧
      q.partnerOper.state.testBit 2 = false ∧
      q.actorOper.state.testBit 6 = true ∧
      q.actorOper.state.testBit 7 = false ∧
      q.MuxMachineFsm = some { mux with MuxmEvents :=
        (mux.MuxmEvents ++ [LacpMuxmEventSelectedEqualUnselected]) ++
        (if (mux.state = LacpMuxmStateAttached ∨ mux.state = LacpMuxmStateCAttached) ∧
            p.aggSelected = LacpAggSelected
          then [LacpMuxmEventSelectedEqualSelectedAndPartnerSync] else []) } := by
  have hzero : ∀ m : Nat, ∀ i, i < 8 → (0 ||| m).testBit i = m.testBit i := by
    intro m i _
    simp
  refine ⟨_, LacpRxMachineLacpDisabled_of_mux p mux hmux, ?_, ?_, ?_, ?_, ?_, rfl⟩
  · refine agreeOutside_clear_left LacpStateSyncBit LacpStateAggregationBit
      { p.partnerAdmin with state := LacpStateSet p.partnerAdmin.state LacpStateSyncBit }
      p.partnerAdmin ?_
    exact agreeOutside_congr _ _ _ _ (hzero _)
      (agreeOutside_set_left 0 LacpStateSyncBit _ _ (agreeOutside_refl p.partnerAdmin))
  · simp only [testBit_LacpStateClear, testBit_LacpStateSet,
      show LacpStateSyncBit = 2 ^ 3 from rfl, show LacpStateAggregationBit = 2 ^ 2 from rfl,
      testBit_bit]
    simp
  · simp only [testBit_LacpStateClear, show LacpStateAggregationBit = 2 ^ 2 from rfl,
      testBit_bit]
    simp
  · simp only [testBit_LacpStateClear, testBit_LacpStateSet,
      show LacpStateDefaultedBit = 2 ^ 6 from rfl, show LacpStateExpiredBit = 2 ^ 7 from rfl,
      testBit_bit]
    simp
  · simp only [testBit_LacpStateClear, show LacpStateExpiredBit = 2 ^ 7 from rfl, testBit_bit]
    simp

/-- C23, at a concrete port: the LacpDisabled entry action on `samplePort`, whose Mux
machine is in Detached. -/
theorem lacp_disabled_entry_effect_witness :
    ∃ q, LacpRxMachineLacpDisabled samplePort = some (q, LacpRxmStateLacpDisabled) ∧
      agreeOutside (LacpStateSyncBit ||| LacpStateAggregationBit) q.partnerOper
        samplePort.partnerAdmin ∧
      q.partnerOper.state.testBit 3 = true ∧
      q.partnerOper.state.testBit 2 = false ∧
      q.actorOper.state.testBit 6 = true ∧
      q.actorOper.state.testBit 7 = false ∧
      q.MuxMachineFsm =
        some ⟨LacpMuxmStateDetached, [LacpMuxmEventSelectedEqualUnselected]⟩ := by
  have h := lacp_disabled_entry_effect samplePort
    { state := LacpMuxmStateDetached, MuxmEvents := [] } rfl
  simpa using h

/-- C29 (claim as stated fails): `enabledPort` has `port_enabled` and `lacp_enabled`
true and `agg_selected` Unselected; after the loop has handled Begin the RXM rests in
PortDisabled, not in Expired. -/
theorem begin_rests_in_port_disabled_when_unselected :
    enabledPort.portEnabled = true ∧ enabledPort.lacpEnabled = true ∧
    (rxmEventsCase sampleEnv enabledPort LacpRxmEventBegin).map
      (fun q => q.RxMachineFsm.state) = some LacpRxmStatePortDisabled := by
  decide

/-- C29 (amended): on a port whose Mux machine is present and whose RXM is in a state
other than Initialize, the loop completes the handling of a Begin event from the
queue, and the RXM then rests in Expired if `agg_selected` is Selected and
`port_enabled` and `lacp_enabled` are true, in LacpDisabled if `agg_selected` is
Selected, `port_enabled` is true and `lacp_enabled` is false, and in PortDisabled
otherwise (`port_enabled` false, or `agg_selected` not Selected); never in
Initialize. -/
theorem begin_event_resting_state (env : Env) (p : LaAggPort) (mux : LacpMuxMachine)
    (hmux : p.MuxMachineFsm = some mux)
    (hs : p.RxMachineFsm.state ≠ LacpRxmStateInitialize) :
    ∃ q, rxmEventsCase env p LacpRxmEventBegin = some q ∧
      q.RxMachineFsm.state =
        (if p.aggSelected = LacpAggSelected ∧ p.portEnabled = true then
          (if p.lacpEnabled = true then LacpRxmStateExpired else LacpRxmStateLacpDisabled)
        else LacpRxmStatePortDisabled) ∧
      q.RxMachineFsm.state ≠ LacpRxmStateInitialize := by
  have hf1 : LacpRxMachineFSMBuild.find p.RxMachineFsm.state LacpRxmEventBegin =
      some .Initialize := by
    revert hs
    cases p.RxMachineFsm.state <;> decide
  obtain ⟨p1, h1, hs1, ha1, hl1, he1, m1, hm1⟩ :=
    ProcessEvent_keeps_flags env p _ _ mux hf1 (by decide) (by decide) hmux
  have hf2 : LacpRxMachineFSMBuild.find p1.RxMachineFsm.state
      LacpRxmEventUnconditionalFallthrough = some .PortDisabled := by
    rw [hs1]; decide
  obtain ⟨p2, h2, hs2, ha2, hl2, he2, m2, hm2⟩ :=
    ProcessEvent_keeps_flags env p1 _ _ m1 hf2 (by decide) (by decide) hm1
  have hf3 : LacpRxMachineFSMBuild.find p2.RxMachineFsm.state
      LacpRxmEventPortEnabledAndLacpEnabled = some .Expired := by
    rw [hs2]; decide
  obtain ⟨p3, h3, hs3, -, -, -, -, -⟩ :=
    ProcessEvent_keeps_flags env p2 _ _ m2 hf3 (by decide) (by decide) hm2
  have hf4 : LacpRxMachineFSMBuild.find p2.RxMachineFsm.state
      LacpRxmEventPortEnabledAndLacpDisabled = some .LacpDisabled := by
    rw [hs2]; decide
  obtain ⟨p4, h4, hs4, -, -, -, -, -⟩ :=
    ProcessEvent_keeps_flags env p2 _ _ m2 hf4 (by decide) (by decide) hm2
  rw [ha1] at ha2
  rw [hl1] at hl2
  rw [he1] at he2
  have hs1b : (p1.RxMachineFsm.state == LacpRxmStateInitialize) = true := by rw [hs1]; rfl
  simp only [RxmCallback.returns] at hs2 hs3 hs4
  unfold rxmEventsCase
  simp only [h1, Option.bind_eq_bind, Option.some_bind, continueWith, hs1b, if_true, h2, ha2,
    hl2, he2, hs2, Bool.true_and, beq_self_eq_true]
  by_cases hsel : p.aggSelected = LacpAggSelected
  · have hselb : (p.aggSelected == LacpAggSelected) = true := by rw [hsel]; rfl
    rw [if_pos hselb]
    cases hl : p.lacpEnabled <;> cases he : p.portEnabled
    · exact ⟨p2, by simp [hs2, hl2, he2, hl, he], by simp [hs2, he], by simp [hs2]⟩
    · refine ⟨p4, ?_, by simp [hs4, hsel], by simp [hs4]⟩
      simp [hs2, hl2, he2, hl, he, h4]
    · exact ⟨p2, by simp [hs2, hl2, he2, hl, he], by simp [hs2, he], by simp [hs2]⟩
    · refine ⟨p3, ?_, by simp [hs3, hsel], by simp [hs3]⟩
      simp [hs3, h3]
  · have hselb : ¬ (p.aggSelected == LacpAggSelected) = true := by simpa using hsel
    rw [if_neg hselb]
    exact ⟨p2, rfl, by simp [hs2, hsel], by simp [hs2]⟩

/-- C29 (amended), at a concrete port: `enabledPort` with `agg_selected` Selected rests
in Expired after Begin. -/
theorem begin_event_resting_state_witness :
    ∃ q, rxmEventsCase sampleEnv { enabledPort with aggSelected := LacpAggSelected }
        LacpRxmEventBegin = some q ∧
      q.RxMachineFsm.state = LacpRxmStateExpired ∧
      q.RxMachineFsm.state ≠ LacpRxmStateInitialize := by
  have h := begin_event_resting_state sampleEnv
    { enabledPort with aggSelected := LacpAggSelected }
    ⟨LacpMuxmStateDetached, []⟩ rfl (by decide)
  simpa using h

/-- C22 (claim as stated fails): with the patterns of `sampleEnv` (AggregatibleUp =
0x7D, AggregatibleDown = 0x45), the Defaulted entry action on `samplePort`, whose
Partner Admin state is 0, leaves Partner Admin state 0x7D, the AggregatibleUp pattern,
while the Current entry action on the same port leaves 0x45. -/
theorem defaulted_sets_aggregatible_up :
    (LacpRxMachineDefaulted sampleEnv samplePort).map (fun r => r.1.partnerAdmin.state) =
      some 0x7D ∧
    (LacpRxMachineCurrent sampleEnv samplePort (some partnerPdu)).map
      (fun r => r.1.partnerAdmin.state) = some 0x45 := by
  decide

/-- C22 (amended): on a port whose Mux and Periodic Transmit machines are present, the
Defaulted entry action completes, leaves the Actor Oper Expired bit (bit 7) 0 and sets
the bits of the pattern `LacpStateAggregatibleUp` in the Partner Admin state, whereas
the Current entry action sets the bits of `LacpStateAggregatibleDown` there. -/
theorem defaulted_entry_effect (env : Env) (p : LaAggPort) (pdu : LACP)
    (hmux : p.MuxMachineFsm.isSome = true) (hptx : p.PtxMachineFsm.isSome = true) :
    (∃ q, LacpRxMachineDefaulted env p = some (q, LacpRxmStateDefaulted) ∧
      q.actorOper.state.testBit 7 = false ∧
      q.partnerAdmin = { p.partnerAdmin with
        state := LacpStateSet p.partnerAdmin.state env.LacpStateAggregatibleUp }) ∧
    (∃ r, LacpRxMachineCurrent env p (some pdu) = some (r, LacpRxmStateCurrent) ∧
      r.partnerAdmin = { p.partnerAdmin with
        state := LacpStateSet p.partnerAdmin.state env.LacpStateAggregatibleDown }) := by
  constructor
  · obtain ⟨⟨q, s⟩, hq⟩ := Option.isSome_iff_exists.mp (LacpRxMachineDefaulted_isSome env p hmux)
    obtain ⟨hs, -, hao, hpa, -, -⟩ := LacpRxMachineDefaulted_eq env p q s hq
    subst hs
    refine ⟨q, hq, ?_, hpa⟩
    rw [hao]
    simp only [testBit_LacpStateClear, show LacpStateExpiredBit = 2 ^ 7 from rfl, testBit_bit]
    simp
  · obtain ⟨⟨r, s⟩, hr⟩ := Option.isSome_iff_exists.mp
      (LacpRxMachineCurrent_isSome env p pdu (fun _ => hptx))
    obtain ⟨pdu1, -, hs, -, -, hpa, -, -⟩ := LacpRxMachineCurrent_eq env p r (some pdu) s hr
    subst hs
    exact ⟨r, hr, hpa⟩

/-- C22 (amended), at a concrete port: `samplePort` with the patterns of `sampleEnv`
and `partnerPdu`. -/
theorem defaulted_entry_effect_witness :
    (∃ q, LacpRxMachineDefaulted sampleEnv samplePort = some (q, LacpRxmStateDefaulted) ∧
      q.actorOper.state.testBit 7 = false ∧
      q.partnerAdmin = { samplePort.partnerAdmin with
        state := LacpStateSet samplePort.partnerAdmin.state 0x7D }) ∧
    (∃ r, LacpRxMachineCurrent sampleEnv samplePort (some partnerPdu) =
        some (r, LacpRxmStateCurrent) ∧
      r.partnerAdmin = { samplePort.partnerAdmin with
        state := LacpStateSet samplePort.partnerAdmin.state 0x45 }) :=
  defaulted_entry_effect sampleEnv samplePort partnerPdu (by decide) (by decide)

/-- C25: on `distributingPort` (Mux machine in Distributing, Partner Oper Sync 1 and
Collecting 0, `agg_selected` Unselected) `InformMachinesOfStateChanges` completes and
posts nothing to the Mux machine; likewise when `agg_selected` is Selected; and with
Partner Oper Sync 0 it posts `NotPartnerSync`. -/
theorem inform_posts_no_not_partner_collecting :
    distributingPort.partnerOper.state.testBit 3 = true ∧
    distributingPort.partnerOper.state.testBit 4 = false ∧
    distributingPort.aggSelected = LacpAggUnSelected ∧
    (InformMachinesOfStateChanges sampleEnv distributingPort).map
      (fun q => q.MuxMachineFsm) = some (some ⟨LacpMuxmStateDistributing, []⟩) ∧
    (InformMachinesOfStateChanges sampleEnv
      { distributingPort with aggSelected := LacpAggSelected }).map
      (fun q => q.MuxMachineFsm) = some (some ⟨LacpMuxmStateDistributing, []⟩) ∧
    (InformMachinesOfStateChanges sampleEnv
      { distributingPort with partnerOper := zeroInfo }).map
      (fun q => q.MuxMachineFsm) =
        some (some ⟨LacpMuxmStateDistributing, [LacpMuxmEventNotPartnerSync]⟩) := by
  decide

/-- C26: on a port whose Mux and Periodic Transmit machines are present,
`InformMachinesOfStateChanges` completes and appends to the events of the Periodic
Transmit machine: first `PartnerOperStateTimeoutShort` if Partner Oper Timeout (bit 1)
is 1 and the interval is the slow one, or else `PartnerOperStateTimeoutLong` if Partner
Oper Timeout is 0 and the interval is the fast one, or else nothing; then
`ActorPartnerOperActivityPassiveMode` if the Activity bits (bit 0) of Actor Oper and
Partner Oper are both 0, and nothing otherwise. -/
theorem inform_ptxm_events (env : Env) (p : LaAggPort) (mux : LacpMuxMachine)
    (ptx : LacpPtxMachine)
    (hmux : p.MuxMachineFsm = some mux) (hptx : p.PtxMachineFsm = some ptx) :
    ∃ q, InformMachinesOfStateChanges env p = some q ∧
      q.PtxMachineFsm = some { ptx with PtxmEvents :=
        (ptx.PtxmEvents ++
          (if p.partnerOper.state.testBit 1 = true ∧
              ptx.PeriodicTxTimerInterval = LacpSlowPeriodicTime
            then [LacpPtxmEventPartnerOperStateTimeoutShort]
          else if p.partnerOper.state.testBit 1 = false ∧
              ptx.PeriodicTxTimerInterval = LacpFastPeriodicTime
            then [LacpPtxmEventPartnerOperStateTimeoutLong]
          else [])) ++
        (if p.actorOper.state.testBit 0 = false ∧ p.partnerOper.state.testBit 0 = false
          then [LacpPtxmEventActorPartnerOperActivityPassiveMode] else []) } :=
  ⟨_, InformMachinesOfStateChanges_of_machines env p mux ptx hmux hptx, rfl⟩

/-- C26, at a concrete port: `samplePort` has Partner Oper state 0 and the slow
interval, and Actor Oper Activity 1, so nothing is posted; with Partner Oper Timeout 1
(state 0x02) `PartnerOperStateTimeoutShort` is posted. -/
theorem inform_ptxm_events_witness :
    (∃ q, InformMachinesOfStateChanges sampleEnv samplePort = some q ∧
      q.PtxMachineFsm = samplePort.PtxMachineFsm) ∧
    (∃ q, InformMachinesOfStateChanges sampleEnv expiredPort = some q ∧
      q.PtxMachineFsm = some ⟨LacpSlowPeriodicTime,
        [LacpPtxmEventPartnerOperStateTimeoutShort]⟩) := by
  constructor
  · have h := inform_ptxm_events sampleEnv samplePort ⟨LacpMuxmStateDetached, []⟩
      ⟨LacpSlowPeriodicTime, []⟩ rfl rfl
    exact h
  · have h := inform_ptxm_events sampleEnv expiredPort ⟨LacpMuxmStateDetached, []⟩
      ⟨LacpSlowPeriodicTime, []⟩ rfl rfl
    exact h

/-- C24 (claim as stated fails): `expiredPort` without a Transmit machine receives
`partnerPdu`; the handling completes with the RXM in Current and `updateNTT` is true on
the port as it was, yet no `Ntt` is posted, there being no Transmit machine. -/
theorem current_posts_no_ntt_without_txm :
    updateNTT { expiredPort with TxMachineFsm := none } partnerPdu = true ∧
    (ProcessEvent sampleEnv { expiredPort with TxMachineFsm := none } LacpRxmEventLacpPktRx
        (some partnerPdu)).map
      (fun r => (r.2, r.1.RxMachineFsm.state, r.1.TxMachineFsm)) =
      some (true, LacpRxmStateCurrent, none) := by
  decide

/-- C24 (amended): on a port whose RXM is in Expired, Defaulted or Current and whose
Periodic Transmit machine is present if its Mux machine is, the handling of an LACPDU
completes with the RXM in Current; Partner Oper has the system priority, system id,
key, port priority and port number of PDU.Actor; the Expired (bit 7) and Defaulted
(bit 6) bits of Actor Oper are 0; and the Transmit machine, if the port has one, has
received exactly one `Ntt` if `updateNTT`, evaluated on the port as it was before the
PDU was recorded, is true, and nothing otherwise; a port without a Transmit machine is
still without one. -/
theorem current_entry_effect (env : Env) (p : LaAggPort) (pdu : LACP)
    (hs : p.RxMachineFsm.state = LacpRxmStateExpired ∨
      p.RxMachineFsm.state = LacpRxmStateDefaulted ∨
      p.RxMachineFsm.state = LacpRxmStateCurrent)
    (hp : p.MuxMachineFsm.isSome = true → p.PtxMachineFsm.isSome = true) :
    ∃ q, ProcessEvent env p LacpRxmEventLacpPktRx (some pdu) = some (q, true) ∧
      q.RxMachineFsm.state = LacpRxmStateCurrent ∧
      q.partnerOper.system.systemPriority = pdu.Actor.SystemPriority ∧
      q.partnerOper.system.systemId = pdu.Actor.SystemId ∧
      q.partnerOper.key = pdu.Actor.Key ∧
      q.partnerOper.port_pri = pdu.Actor.PortPri ∧
      q.partnerOper.port = pdu.Actor.Port ∧
      q.actorOper.state.testBit 7 = false ∧
      q.actorOper.state.testBit 6 = false ∧
      q.TxMachineFsm = p.TxMachineFsm.map (fun txm =>
        { txm with TxmEvents :=
          txm.TxmEvents ++ (if updateNTT p pdu = true then [LacpTxmEventNtt] else []) }) := by
  have hf : LacpRxMachineFSMBuild.find p.RxMachineFsm.state LacpRxmEventLacpPktRx =
      some .Current := by
    rcases hs with h | h | h <;> rw [h] <;> decide
  obtain ⟨⟨r, s⟩, hr⟩ := Option.isSome_iff_exists.mp (LacpRxMachineCurrent_isSome env p pdu hp)
  obtain ⟨pdu1, hd, hst, hpo, hao, -, -, -⟩ := LacpRxMachineCurrent_eq env p r (some pdu) s hr
  subst hst
  cases hd
  have htx := LacpRxMachineCurrent_TxMachineFsm env p r pdu _ hr
  have hpo2 := hpo.trans (recordPDU_partnerOper_eq p pdu)
  refine ⟨_, ProcessEvent_of_run env p r _ (some pdu) .Current _ hf hr, rfl, ?_, ?_, ?_, ?_, ?_,
    ?_, ?_, htx⟩
  · show r.partnerOper.system.systemPriority = _
    rw [hpo2]; rfl
  · show r.partnerOper.system.systemId = _
    rw [hpo2]; rfl
  · show r.partnerOper.key = _
    rw [hpo2]; rfl
  · show r.partnerOper.port_pri = _
    rw [hpo2]; rfl
  · show r.partnerOper.port = _
    rw [hpo2]; rfl
  · show r.actorOper.state.testBit 7 = false
    rw [hao]
    simp only [testBit_LacpStateClear, show LacpStateExpiredBit = 2 ^ 7 from rfl, testBit_bit]
    simp
  · show r.actorOper.state.testBit 6 = false
    rw [hao]
    simp only [testBit_LacpStateClear, show LacpStateExpiredBit = 2 ^ 7 from rfl,
      show LacpStateDefaultedBit = 2 ^ 6 from rfl, testBit_bit]
    simp

/-- C24 (amended), at a concrete port and PDU: `expiredPort`, which has a Transmit
machine, receives `partnerPdu`, whose Partner block does not describe this port, so
`Ntt` is posted. -/
theorem current_entry_effect_witness :
    ∃ q, ProcessEvent sampleEnv expiredPort LacpRxmEventLacpPktRx (some partnerPdu) =
        some (q, true) ∧
      q.RxMachineFsm.state = LacpRxmStateCurrent ∧
      q.partnerOper.system.systemPriority = 0x8000 ∧
      q.partnerOper.system.systemId = sampleInfo.system.systemId ∧
      q.partnerOper.key = 1 ∧
      q.partnerOper.port_pri = 0x80 ∧
      q.partnerOper.port = 2 ∧
      q.actorOper.state.testBit 7 = false ∧
      q.actorOper.state.testBit 6 = false ∧
      q.TxMachineFsm = some ⟨[LacpTxmEventNtt]⟩ :=
  current_entry_effect sampleEnv expiredPort partnerPdu (Or.inl rfl) (fun _ => rfl)

/-- C28 (claim as stated fails): `collectingPort` (Mux machine in Collecting) receives a
PDU whose Actor carries Sync = 1 without Activity, so that the Sync condition of
`recordPDU` is false; the Current entry action posts `NotPartnerSync` to the Mux
machine twice, once from `recordPDU` and once from `InformMachinesOfStateChanges`. The
same happens when Partner Oper carried Sync = 1 before the PDU. -/
theorem current_posts_not_partner_sync_twice :
    (LacpRxMachineCurrent sampleEnv collectingPort
      (some { zeroPdu with Actor := { zeroPdu.Actor with State := 0x08 } })).map
      (fun r => r.1.MuxMachineFsm) =
      some (some ⟨LacpMuxmStateCollecting,
        [LacpMuxmEventNotPartnerSync, LacpMuxmEventNotPartnerSync]⟩) ∧
    (LacpRxMachineCurrent sampleEnv
      { collectingPort with partnerOper := { zeroInfo with state := 0x08 } }
      (some { zeroPdu with Actor := { zeroPdu.Actor with State := 0x08 } })).map
      (fun r => r.1.MuxMachineFsm) =
      some (some ⟨LacpMuxmStateCollecting,
        [LacpMuxmEventNotPartnerSync, LacpMuxmEventNotPartnerSync]⟩) := by
  decide

/-- C28 (amended): on a port whose Mux and Periodic Transmit machines are present, the
Current entry action completes and leaves the Mux machine in its state; the number of
`NotPartnerSync` events in its queue is the number `recordPDU` alone leaves there on
that port and PDU, which is at most one more than before, plus one if, after
`recordPDU`, Partner Oper Sync (bit 3) is 0 and the Mux machine is in Collecting or
Distributing (the post of `InformMachinesOfStateChanges`, made whether or not
`recordPDU` has posted); so at most two more than before. -/
theorem current_not_partner_sync_count (env : Env) (p : LaAggPort) (pdu : LACP)
    (mux : LacpMuxMachine) (ptx : LacpPtxMachine)
    (hmux : p.MuxMachineFsm = some mux) (hptx : p.PtxMachineFsm = some ptx) :
    ∃ q m m1, LacpRxMachineCurrent env p (some pdu) = some (q, LacpRxmStateCurrent) ∧
      q.MuxMachineFsm = some m ∧ m.state = mux.state ∧
      (recordPDU p pdu).MuxMachineFsm = some m1 ∧
      m1.MuxmEvents.count LacpMuxmEventNotPartnerSync ≤
        mux.MuxmEvents.count LacpMuxmEventNotPartnerSync + 1 ∧
      m.MuxmEvents.count LacpMuxmEventNotPartnerSync =
        m1.MuxmEvents.count LacpMuxmEventNotPartnerSync +
        (if (recordPDU p pdu).partnerOper.state.testBit 3 = false ∧
            (mux.state = LacpMuxmStateDistributing ∨ mux.state = LacpMuxmStateCollecting)
          then 1 else 0) ∧
      m.MuxmEvents.count LacpMuxmEventNotPartnerSync ≤
        mux.MuxmEvents.count LacpMuxmEventNotPartnerSync + 2 := by
  obtain ⟨q, es, hq, -, -, -, hm, -, hc⟩ :=
    LacpRxMachineCurrent_of_machines env p pdu mux ptx hmux hptx
  have h1 : List.count LacpMuxmEventNotPartnerSync
      (if LacpLacpPktPortInfoIsEqual pdu.Actor p.partnerOper LacpStateAggregationBit = false
        then [LacpMuxmEventSelectedEqualUnselected] else []) = 0 := by
    split <;> decide
  have h2 : List.count LacpMuxmEventNotPartnerSync
      (if recordPDUSync p pdu = false ∧ pdu.Actor.State.testBit 3 = true ∧
          inCollDist mux.state = true then [LacpMuxmEventNotPartnerSync] else []) ≤ 1 := by
    split <;> decide
  have h3 : List.count LacpMuxmEventNotPartnerSync es ≤ 1 := by
    rw [hc]
    split <;> decide
  rw [← recordPDU_partnerOper_sync_bit] at hc
  refine ⟨q, _, _, hq, hm, rfl, recordPDU_mux p pdu mux hmux, ?_, ?_, ?_⟩
  · simp only [List.count_append]
    omega
  · simp only [List.count_append, hc, h1]
    omega
  · simp only [List.count_append, h1]
    omega

/-- C28 (amended), at a concrete port and PDU: `collectingPort` and the PDU whose Actor
state is Sync alone; both posts happen. -/
theorem current_not_partner_sync_count_witness :
    ∃ q m, LacpRxMachineCurrent sampleEnv collectingPort
        (some { zeroPdu with Actor := { zeroPdu.Actor with State := 0x08 } }) =
        some (q, LacpRxmStateCurrent) ∧
      q.MuxMachineFsm = some m ∧ m.state = LacpMuxmStateCollecting ∧
      m.MuxmEvents.count LacpMuxmEventNotPartnerSync = 2 := by
  obtain ⟨q, m, m1, h1, h2, h3, h4, -, h6, -⟩ :=
    current_not_partner_sync_count sampleEnv collectingPort
      { zeroPdu with Actor := { zeroPdu.Actor with State := 0x08 } }
      ⟨LacpMuxmStateCollecting, []⟩ ⟨LacpSlowPeriodicTime, []⟩ rfl rfl
  refine ⟨q, m, h1, h2, h3, ?_⟩
  have h5 : (recordPDU collectingPort
      { zeroPdu with Actor := { zeroPdu.Actor with State := 0x08 } }).MuxMachineFsm =
      some ⟨LacpMuxmStateCollecting, [LacpMuxmEventNotPartnerSync]⟩ := by decide
  rw [h5] at h4
  cases h4
  rw [h6]
  decide

end Lacp
